import Mathlib

/-!
# BitDogLock 2FA: a shallow embedding of the lock controller

The development follows the C sources of the repository:

* `configura_geral.h`: enumerations and inter-core FIFO command codes;
* `main.c`: timers, card classifier, lock state machine and main loop (core 0), and the
  publish queue with its drain loop (core 1);
* `matriz.c`, `feedback.c`: the LED-matrix buffer and the frame-stepped animations the
  main loop advances.

Machine integers are natural numbers, reduced modulo `2^w` where the C code can wrap.
Calls into drivers that are not part of the modelled sources (display, buzzer, servo,
RGB LED, PIO, inter-core FIFO) are recorded, in program order, in a list of effects.
One iteration of a loop is a function from the inputs it reads and the state before to
the state after.
-/

set_option maxRecDepth 100000

namespace BitDogLock

/-! ## configura_geral.h -/

def PWM_MAX_DUTY : Nat := 0xFFFF

def DEVICE_ID : String := "bitdoglab_02"
def TOPICO_STATUS : String := "status"
def TOPICO_HISTORICO : String := "historico"
def TOPICO_HEARTBEAT : String := "heartbeat"

def FIFO_CMD_WIFI_CONECTADO : Nat := 0xFFFE
def FIFO_CMD_PUBLICAR_MQTT : Nat := 0xADD0
def FIFO_CMD_MUDAR_ESTADO : Nat := 0xE5A0
def FIFO_CMD_MQTT_CONECTADO : Nat := 0xBEEF

/-! `enum ModoOperacao`. The field holding the mode is assigned from a raw 16-bit FIFO
payload (`(enum ModoOperacao)valor`), so a mode is kept as its ordinal. -/

abbrev MODO_ESPERA : Nat := 0
abbrev MODO_AGUARDA_SENHA : Nat := 1
abbrev MODO_ABERTO : Nat := 2
abbrev MODO_ADMIN_AGUARDANDO_CARTAO : Nat := 3
abbrev MODO_ADMIN_AGUARDANDO_NOVA_SENHA : Nat := 4
abbrev MODO_MSG_TIMEOUT : Nat := 5
abbrev MODO_MSG_ACESSO_NEGADO : Nat := 6
abbrev MODO_ADMIN_MSG_SUCESSO : Nat := 7
abbrev MODO_ADMIN_MSG_ERRO_FORMATO : Nat := 8
abbrev MODO_ADMIN_MSG_CANCELADO : Nat := 9
abbrev MODO_EMERGENCIA_INCENDIO : Nat := 10

/-- The `enum CorDetectada` of `configura_geral.h`. -/
inductive CorDetectada where
  | COR_NENHUMA
  | COR_VERDE
  | COR_VERMELHA
  | COR_AZUL
  deriving DecidableEq, Repr

open CorDetectada

/-- Ordinal of a `CorDetectada` value. -/
def CorDetectada.toNat : CorDetectada → Nat
  | COR_NENHUMA => 0
  | COR_VERDE => 1
  | COR_VERMELHA => 2
  | COR_AZUL => 3

/-- The `enum MQTT_MSG_TYPE` of `configura_geral.h`. -/
inductive MQTT_MSG_TYPE where
  | MSG_STATUS_AGUARDANDO_CARTAO
  | MSG_STATUS_CARTAO_LIDO
  | MSG_STATUS_AGUARDANDO_SENHA
  | MSG_STATUS_SISTEMA_ABERTO
  | MSG_STATUS_SISTEMA_FECHADO
  | MSG_STATUS_MODO_ADMIN
  | MSG_LOG_ACESSO_OK
  | MSG_LOG_ACESSO_FALHA
  | MSG_LOG_EVENTO_TIMEOUT_SENHA
  | MSG_LOG_EVENTO_AUTO_LOCK
  | MSG_LOG_OPERACAO_CANCELADA
  | MSG_LOG_ADMIN_INICIADO
  | MSG_LOG_ADMIN_SENHA_ALTERADA
  | MSG_LOG_EMERGENCIA_INCENDIO_ON
  | MSG_LOG_EMERGENCIA_INCENDIO_OFF
  | MSG_LOG_HEARTBEAT
  deriving DecidableEq, Repr

open MQTT_MSG_TYPE

/-- Ordinal of a `MQTT_MSG_TYPE` value. -/
def MQTT_MSG_TYPE.toNat : MQTT_MSG_TYPE → Nat
  | MSG_STATUS_AGUARDANDO_CARTAO => 0
  | MSG_STATUS_CARTAO_LIDO => 1
  | MSG_STATUS_AGUARDANDO_SENHA => 2
  | MSG_STATUS_SISTEMA_ABERTO => 3
  | MSG_STATUS_SISTEMA_FECHADO => 4
  | MSG_STATUS_MODO_ADMIN => 5
  | MSG_LOG_ACESSO_OK => 6
  | MSG_LOG_ACESSO_FALHA => 7
  | MSG_LOG_EVENTO_TIMEOUT_SENHA => 8
  | MSG_LOG_EVENTO_AUTO_LOCK => 9
  | MSG_LOG_OPERACAO_CANCELADA => 10
  | MSG_LOG_ADMIN_INICIADO => 11
  | MSG_LOG_ADMIN_SENHA_ALTERADA => 12
  | MSG_LOG_EMERGENCIA_INCENDIO_ON => 13
  | MSG_LOG_EMERGENCIA_INCENDIO_OFF => 14
  | MSG_LOG_HEARTBEAT => 15

/-! ## tcs34725.h -/

/-- Raw readings of the four sensor channels (`uint16_t` each). -/
structure tcs34725_color_data_t where
  clear : Nat
  red : Nat
  green : Nat
  blue : Nat
  deriving DecidableEq, Repr

/-! ## Double-precision arithmetic used by the classifier

`detectar_cor_cartao` compares a `uint16_t` reading with the product of another reading
and a `double` literal. A non-negative binary64 value is written here as a natural
numerator over `2^52`; the integer operand converts exactly, the product is rounded to
53 significant bits (nearest, ties to even), the comparison is exact. -/

/-- The binary64 literal `1.8`, times `2^52` (the nearest double to 9/5). -/
def DOUBLE_1_8 : Nat := 8106479329266893

/-- The binary64 literal `2.0`, times `2^52`. -/
def DOUBLE_2_0 : Nat := 2 * 2 ^ 52

/-- The binary64 literal `1.5`, times `2^52`. -/
def DOUBLE_1_5 : Nat := 3 * 2 ^ 51

/-- Number of low-order bits of `p` that do not fit in a 53-bit significand
(the first argument bounds the number of halvings). -/
def bits_descartados : Nat → Nat → Nat
  | 0, _ => 0
  | k + 1, p => if p < 2 ^ 53 then 0 else bits_descartados k (p / 2) + 1

/-- Rounding of `p / 2^52` to binary64, nearest with ties to even;
argument and result are numerators over `2^52`. -/
def arredondar_binary64 (p : Nat) : Nat :=
  let sh := bits_descartados p p
  let q := p / 2 ^ sh
  let r := p % 2 ^ sh
  if sh = 0 then p
  else if r > 2 ^ (sh - 1) ∨ (r = 2 ^ (sh - 1) ∧ q % 2 = 1) then (q + 1) * 2 ^ sh
  else q * 2 ^ sh

/-- The C expression `x * c` for an unsigned 16-bit `x` and a `double` constant `c`. -/
def double_mul (x : Nat) (c : Nat) : Nat := arredondar_binary64 (x * c)

/-- The C expression `x > d` for an unsigned 16-bit `x` and a `double` `d`. -/
def double_gt (x : Nat) (d : Nat) : Bool := decide (d < x * 2 ^ 52)

/-! ## main.c: card classifier -/

def CLEAR_THRESHOLD : Nat := 70

/-- The green ratio test of `detectar_cor_cartao`. -/
def teste_verde (colors : tcs34725_color_data_t) : Bool :=
  double_gt colors.green (double_mul colors.red DOUBLE_1_8) &&
    double_gt colors.green (double_mul colors.blue DOUBLE_1_8)

/-- The red ratio test of `detectar_cor_cartao`. -/
def teste_vermelho (colors : tcs34725_color_data_t) : Bool :=
  double_gt colors.red (double_mul colors.green DOUBLE_2_0) &&
    double_gt colors.red (double_mul colors.blue DOUBLE_2_0)

/-- The blue ratio test of `detectar_cor_cartao`. -/
def teste_azul (colors : tcs34725_color_data_t) : Bool :=
  double_gt colors.blue (double_mul colors.green DOUBLE_1_5) &&
    double_gt colors.blue (double_mul colors.red DOUBLE_2_0)

/-- Embedding of `detectar_cor_cartao` (main.c). -/
def detectar_cor_cartao (colors : tcs34725_color_data_t) : CorDetectada :=
  if colors.clear < CLEAR_THRESHOLD then COR_NENHUMA
  else if teste_verde colors then COR_VERDE
  else if teste_vermelho colors then COR_VERMELHA
  else if teste_azul colors then COR_AZUL
  else COR_NENHUMA

/-- Reference classifier, following the specification in exact arithmetic:
None below the clear threshold, else Green if `green > 1.8 red` and `green > 1.8 blue`,
else Red if `red > 2 green` and `red > 2 blue`, else Blue if `blue > 1.5 green` and
`blue > 2 red`, else None. -/
def detectar_cor_cartao_ref (colors : tcs34725_color_data_t) : CorDetectada :=
  if colors.clear < 70 then COR_NENHUMA
  else if 5 * colors.green > 9 * colors.red ∧ 5 * colors.green > 9 * colors.blue then COR_VERDE
  else if colors.red > 2 * colors.green ∧ colors.red > 2 * colors.blue then COR_VERMELHA
  else if 2 * colors.blue > 3 * colors.green ∧ colors.blue > 2 * colors.red then COR_AZUL
  else COR_NENHUMA

/-! ## main.c: constants and data -/

def SERVO_MOVE_DURATION_US : Nat := 500000
def TIMEOUT_SENHA_S : Nat := 15
def TEMPO_AUTO_TRAVA_S : Nat := 20
def DISPLAY_UPDATE_INTERVAL_US : Nat := 1000000
/-- The value main.c gives the macro (it redefines the 2 s of configura_geral.h). -/
def TEMPO_MSG_PADRAO_US : Nat := 4000000
def HEARTBEAT_INTERVAL_US : Nat := 30000000
def MQTT_PUB_MIN_DELAY_US : Nat := 50000

/-- The struct `TimerNaoBloqueante`; instants and durations are microseconds. -/
structure TimerNaoBloqueante where
  ativo : Bool
  inicio : Nat
  duracao_us : Nat
  deriving DecidableEq, Repr

/-- The struct `EfeitoPulso`. -/
structure EfeitoPulso where
  ativo : Bool
  inicio : Nat
  r : Nat
  g : Nat
  b : Nat
  deriving DecidableEq, Repr

/-- The struct `EstadoFechadura`. `modo_atual` is the ordinal stored in the one-byte
`enum ModoOperacao` field; the only assignment of a value that is not an enumerator, the
cast in `verificar_fifo`, reduces it modulo `2 ^ 8`. `senha_digitada` is the 5-byte
array, `digitos_count` is only ever zeroed or incremented, so it is kept as a natural
number. -/
structure EstadoFechadura where
  modo_atual : Nat
  cor_ativa : CorDetectada
  status_aberto : Bool
  modo_foi_inicializado : Bool
  senha_digitada : List Char
  digitos_count : Nat
  timer_servo : TimerNaoBloqueante
  timer_timeout_senha : TimerNaoBloqueante
  timer_auto_trava : TimerNaoBloqueante
  timer_display_update : TimerNaoBloqueante
  timer_geral : TimerNaoBloqueante
  timer_alarme_beep : TimerNaoBloqueante
  animacao_erro_ativa : Bool
  animacao_timeout_ativa : Bool
  animacao_fechando_ativa : Bool
  animacao_sucesso_ativa : Bool
  animacao_digitacao_ativa : Bool
  animacao_circulo_tempo_ativa : Bool
  animacao_fogo_ativa : Bool
  efeito_pulso : EfeitoPulso
  timer_heartbeat : TimerNaoBloqueante
  deriving DecidableEq, Repr

/-- Calls into drivers outside the modelled sources, as they appear in a trace. -/
inductive Efeito where
  | multicore_fifo_push_blocking (pacote : Nat)
  | display_show_message (linha1 linha2 linha3 : Option String)
  | rgb_led_set_color (r g b : Nat)
  | servo_start_move (angulo : Nat)
  | servo_stop_move
  | buzzer_play_tone (frequencia duracao_ms : Nat)
  | buzzer_stop_beep
  | buzzer_tocar_melodia_sucesso
  | buzzer_tocar_melodia_erro
  | pio_sm_put_blocking (dado : Nat)
  deriving DecidableEq, Repr

/-- Everything core 0 owns: the lock state of main.c, the three password arrays, the
static variables of matriz.c and feedback.c, and the trace of driver calls. -/
structure Sistema extends EstadoFechadura where
  SENHA_VERDE : List Char
  SENHA_VERMELHA : List Char
  SENHA_AZUL : List Char
  matriz_buffer : List Nat
  sucesso_frame_atual : Nat
  sucesso_ultimo_frame_tempo : Nat
  fogo_ativo : Bool
  fogo_ultimo_frame_tempo : Nat
  circ_tempo_cor_ativa : Nat
  erro_frame_atual : Nat
  erro_ultimo_frame_tempo : Nat
  timeout_frame_atual : Nat
  timeout_ultimo_frame_tempo : Nat
  fechando_frame_atual : Nat
  fechando_ultimo_frame_tempo : Nat
  traco : List Efeito

/-- What one iteration of the core-0 loop reads from its environment: the clock
(`get_absolute_time`, sampled once per iteration), the word waiting in the inter-core
FIFO if any, the sensor reading returned by `tcs34725_read_colors`, the key returned by
`keypad_get_key` (NUL for none), the results of the single-precision pulse brightness
computation, and the values returned by successive `rand()` calls. -/
structure Entradas where
  agora : Nat
  fifo : Option Nat
  colors : tcs34725_color_data_t
  tecla : Char
  pulso_led : Nat × Nat × Nat
  pulso_ponto : Nat × Nat × Nat
  rand : Nat → Nat

/-! ## C strings in fixed arrays -/

/-- The NUL character. -/
def NUL : Char := Char.ofNat 0

/-- The C string stored in a character array: the characters before the first NUL. -/
def cstr (buf : List Char) : List Char := buf.takeWhile (fun c => c != NUL)

/-- The test `strcmp(a, b) == 0`. -/
def strcmp_igual (a b : List Char) : Bool := decide (cstr a = cstr b)

/-- The call `strcpy(dst, src)`: the string of `src` and its terminator overwrite the
beginning of `dst`. -/
def strcpy (dst src : List Char) : List Char :=
  (cstr src ++ [NUL]) ++ dst.drop ((cstr src).length + 1)

/-- The call `memset(senha_digitada, 0, sizeof(senha_digitada))`. -/
def senha_vazia : List Char := List.replicate 5 NUL

/-! ## main.c: timers, pulse, publish requests -/

/-- Appends one driver call to the trace. -/
def emitir (ef : Efeito) (s : Sistema) : Sistema :=
  { s with traco := s.traco ++ [ef] }

/-- Embedding of `timer_iniciar`: the new value of the timer. -/
def timer_iniciar (agora duracao_us : Nat) : TimerNaoBloqueante :=
  { ativo := true, inicio := agora, duracao_us := duracao_us }

/-- The SDK function `absolute_time_diff_us(de, ate)`. -/
def absolute_time_diff_us (de ate : Nat) : Int := (ate : Int) - (de : Int)

/-- Embedding of `timer_expirou`: the returned flag and the new value of the timer.
The signed difference is compared with the unsigned 64-bit duration, hence the
reduction modulo `2^64`. -/
def timer_expirou (timer : TimerNaoBloqueante) (agora : Nat) : Bool × TimerNaoBloqueante :=
  if !timer.ativo then (false, timer)
  else if timer.duracao_us ≤ (absolute_time_diff_us timer.inicio agora % 2 ^ 64).toNat then
    (true, { timer with ativo := false })
  else (false, timer)

/-- Conversion of a 64-bit value to `int`. -/
def to_int32 (x : Int) : Int := (x + 2 ^ 31) % 2 ^ 32 - 2 ^ 31

/-- The remaining whole seconds shown on the display and used by the countdown ring:
`limite - diff_us / 1000000`, clamped below at 0. -/
def tempo_restante (limite : Nat) (inicio agora : Nat) : Int :=
  let t := to_int32 ((limite : Int) - Int.tdiv (absolute_time_diff_us inicio agora) 1000000)
  if t < 0 then 0 else t

/-- Embedding of `led_iniciar_pulso`. -/
def led_iniciar_pulso (e : Entradas) (r g b : Nat) (s : Sistema) : Sistema :=
  { s with efeito_pulso := { ativo := true, inicio := e.agora, r := r, g := g, b := b } }

/-- Embedding of `led_parar_pulso`. -/
def led_parar_pulso (s : Sistema) : Sistema :=
  let s := { s with efeito_pulso := { s.efeito_pulso with ativo := false } }
  emitir (Efeito.rgb_led_set_color 0 0 0) s

/-- The 32-bit word `solicitar_publicacao_mqtt` builds from a message kind and a color. -/
def pacote_publicacao (tipo_msg cor : Nat) : Nat :=
  let valor := ((tipo_msg &&& 0xFF) ||| ((cor &&& 0xFF) <<< 8)) % 2 ^ 16
  ((FIFO_CMD_PUBLICAR_MQTT <<< 16) ||| valor) % 2 ^ 32

/-- Embedding of `solicitar_publicacao_mqtt`. -/
def solicitar_publicacao_mqtt (tipo_msg : MQTT_MSG_TYPE) (cor : CorDetectada) (s : Sistema) :
    Sistema :=
  emitir (Efeito.multicore_fifo_push_blocking (pacote_publicacao tipo_msg.toNat cor.toNat)) s

/-- Embedding of `set_rgb_solid`. -/
def set_rgb_solid (r g b : Nat) (s : Sistema) : Sistema :=
  let s := led_parar_pulso s
  emitir (Efeito.rgb_led_set_color r g b) s

/-- Embedding of `start_rgb_pulse_and_matrix_center`. -/
def start_rgb_pulse_and_matrix_center (e : Entradas) (r g b : Nat) (s : Sistema) : Sistema :=
  led_iniciar_pulso e r g b s

/-! ## matriz.c: buffer and static drawings -/

def LED_COUNT : Nat := 25

/-- Embedding of `urgb_u32`; the arguments are `uint8_t`. -/
def urgb_u32 (r g b : Nat) : Nat :=
  (((g % 256) <<< 16) ||| ((r % 256) <<< 8) ||| (b % 256)) % 2 ^ 32

/-- Embedding of `matriz_renderizar`: one `put_pixel` per buffer cell. -/
def matriz_renderizar (s : Sistema) : Sistema :=
  { s with traco := s.traco ++
      s.matriz_buffer.map (fun p => Efeito.pio_sm_put_blocking ((p <<< 8) % 2 ^ 32)) }

/-- Embedding of `xy_to_index`. -/
def xy_to_index (x y : Nat) : Nat :=
  if y % 2 = 0 then y * 5 + x else y * 5 + (4 - x)

/-- The buffer after `memset(matriz_buffer, 0, sizeof(matriz_buffer))`. -/
def buffer_zerado : List Nat := List.replicate LED_COUNT 0

/-- Embedding of `matriz_limpar`. -/
def matriz_limpar (s : Sistema) : Sistema :=
  matriz_renderizar { s with matriz_buffer := buffer_zerado }

/-- Embedding of `matriz_desenhar_x`. -/
def matriz_desenhar_x (s : Sistema) : Sistema :=
  let cor_vermelha := urgb_u32 150 0 0
  let buf := (List.range 5).foldl
    (fun b i => (b.set (xy_to_index i i) cor_vermelha).set (xy_to_index (4 - i) i) cor_vermelha)
    buffer_zerado
  matriz_renderizar { s with matriz_buffer := buf }

/-- Embedding of `matriz_desenhar_circulo`. -/
def matriz_desenhar_circulo (r g b : Nat) (s : Sistema) : Sistema :=
  let cor_desejada := urgb_u32 r g b
  let buf := [1, 2, 3].foldl
    (fun b x => (b.set (xy_to_index x 0) cor_desejada).set (xy_to_index x 4) cor_desejada)
    buffer_zerado
  let buf := [1, 2, 3].foldl
    (fun b y => (b.set (xy_to_index 0 y) cor_desejada).set (xy_to_index 4 y) cor_desejada)
    buf
  matriz_renderizar { s with matriz_buffer := buf }

/-- Embedding of `matriz_desenhar_exclamacao`. -/
def matriz_desenhar_exclamacao (s : Sistema) : Sistema :=
  let cor_amarela := urgb_u32 150 75 0
  let buf := buffer_zerado.set (xy_to_index 2 0) cor_amarela
  let buf := buf.set (xy_to_index 2 1) cor_amarela
  let buf := buf.set (xy_to_index 2 2) cor_amarela
  let buf := buf.set (xy_to_index 2 4) cor_amarela
  matriz_renderizar { s with matriz_buffer := buf }

/-- Embedding of `matriz_desenhar_ponto_central`. -/
def matriz_desenhar_ponto_central (r g b : Nat) (s : Sistema) : Sistema :=
  let cor_formatada := urgb_u32 r g b
  matriz_renderizar { s with matriz_buffer := buffer_zerado.set (xy_to_index 2 2) cor_formatada }

/-- Embedding of `matriz_desenhar_digitos`. -/
def matriz_desenhar_digitos (quantidade : Nat) (s : Sistema) : Sistema :=
  let cor_amarela := urgb_u32 150 75 0
  let quantidade := if quantidade > 4 then 4 else quantidade
  let buf := (List.range quantidade).foldl
    (fun b i => b.set (xy_to_index (i + 1) 2) cor_amarela) buffer_zerado
  matriz_renderizar { s with matriz_buffer := buf }

/-- Embedding of `matriz_iniciar_animacao_fogo`. -/
def matriz_iniciar_animacao_fogo (e : Entradas) (s : Sistema) : Sistema :=
  { s with fogo_ativo := true, fogo_ultimo_frame_tempo := e.agora }

/-- Embedding of `matriz_parar_animacao_fogo`. -/
def matriz_parar_animacao_fogo (s : Sistema) : Sistema :=
  matriz_limpar { s with fogo_ativo := false }

/-! ## feedback.c: audio feedback -/

/-- Embedding of `feedback_tocar_sucesso`. -/
def feedback_tocar_sucesso (s : Sistema) : Sistema :=
  emitir Efeito.buzzer_tocar_melodia_sucesso s

/-- Embedding of `feedback_tocar_erro`. -/
def feedback_tocar_erro (s : Sistema) : Sistema :=
  emitir Efeito.buzzer_tocar_melodia_erro s

/-- Embedding of `feedback_tocar_timeout`. -/
def feedback_tocar_timeout (s : Sistema) : Sistema :=
  let s := emitir (Efeito.buzzer_play_tone 880 100) s
  let s := emitir (Efeito.buzzer_play_tone 0 50) s
  let s := emitir (Efeito.buzzer_play_tone 880 100) s
  let s := emitir (Efeito.buzzer_play_tone 0 50) s
  emitir (Efeito.buzzer_play_tone 880 100) s

/-! ## main.c: open and close sequences, remote commands -/

/-- Embedding of `reset_visual_state`. -/
def reset_visual_state (s : Sistema) : Sistema :=
  let s := emitir (Efeito.rgb_led_set_color 0 0 0) s
  let s := matriz_limpar s
  let s := led_parar_pulso s
  { s with
    animacao_erro_ativa := false
    animacao_timeout_ativa := false
    animacao_fechando_ativa := false
    animacao_sucesso_ativa := false
    animacao_digitacao_ativa := false
    animacao_circulo_tempo_ativa := false
    animacao_fogo_ativa := false }

/-- Embedding of `acionar_fechamento`. -/
def acionar_fechamento (e : Entradas) (s : Sistema) : Sistema :=
  let s := emitir (Efeito.display_show_message none (some "Fechado") none) s
  let s := { s with animacao_fechando_ativa := true, animacao_circulo_tempo_ativa := false }
  let s := set_rgb_solid PWM_MAX_DUTY 0 0 s
  let s := emitir (Efeito.servo_start_move 0) s
  let s := { s with timer_servo := timer_iniciar e.agora SERVO_MOVE_DURATION_US }
  let s := { s with status_aberto := false }
  let s := solicitar_publicacao_mqtt MSG_STATUS_SISTEMA_FECHADO COR_NENHUMA s
  { s with modo_atual := MODO_ESPERA, modo_foi_inicializado := false }

/-- Embedding of `acionar_abertura`. -/
def acionar_abertura (e : Entradas) (s : Sistema) : Sistema :=
  let s := feedback_tocar_sucesso s
  let s := { s with animacao_sucesso_ativa := true }
  let s := matriz_limpar s
  let s := set_rgb_solid 0 PWM_MAX_DUTY 0 s
  let s := emitir (Efeito.display_show_message (some "ACESSO LIBERADO") (some "Bem-vindo!") none) s
  let s := emitir (Efeito.servo_start_move 150) s
  let s := { s with timer_servo := timer_iniciar e.agora SERVO_MOVE_DURATION_US }
  let s := { s with status_aberto := true, modo_atual := MODO_ABERTO,
                    modo_foi_inicializado := false }
  let s := { s with timer_auto_trava := timer_iniciar e.agora (TEMPO_AUTO_TRAVA_S * 1000000) }
  let s := solicitar_publicacao_mqtt MSG_STATUS_SISTEMA_ABERTO COR_NENHUMA s
  solicitar_publicacao_mqtt MSG_LOG_ACESSO_OK s.cor_ativa s

/-- Embedding of `desativar_modo_emergencia`. -/
def desativar_modo_emergencia (e : Entradas) (s : Sistema) : Sistema :=
  let s := reset_visual_state s
  let s := { s with timer_alarme_beep := { s.timer_alarme_beep with ativo := false } }
  let s := emitir Efeito.buzzer_stop_beep s
  let s := matriz_parar_animacao_fogo s
  let s := { s with animacao_fogo_ativa := false }
  let s := solicitar_publicacao_mqtt MSG_LOG_EMERGENCIA_INCENDIO_OFF COR_NENHUMA s
  let s := acionar_fechamento e s
  { s with modo_atual := MODO_ESPERA, modo_foi_inicializado := false }

/-- Embedding of `verificar_fifo`. `comando` and `valor` are `uint16_t`; the tests
`comando == FIFO_CMD_MUDAR_ESTADO` and `valor == MODO_EMERGENCIA_INCENDIO` compare the
16-bit values. The field `modo_atual` has type `enum ModoOperacao`, whose eleven
enumerators fit one byte: the ARM embedded toolchain of the Pico SDK packs enumerations
into the smallest integer type that holds them, so the cast `(enum ModoOperacao)valor`
keeps the low eight bits of the payload and the stored mode is `valor % 2 ^ 8`. -/
def verificar_fifo (e : Entradas) (s : Sistema) : Sistema :=
  match e.fifo with
  | none => s
  | some pacote =>
    let comando := ((pacote % 2 ^ 32) >>> 16) % 2 ^ 16
    let valor := ((pacote % 2 ^ 32) &&& 0xFFFF) % 2 ^ 16
    if comando = FIFO_CMD_MUDAR_ESTADO then
      if valor = MODO_EMERGENCIA_INCENDIO then
        if s.modo_atual = MODO_EMERGENCIA_INCENDIO then desativar_modo_emergencia e s
        else { s with modo_atual := valor % 2 ^ 8, modo_foi_inicializado := false }
      else
        { s with modo_atual := valor % 2 ^ 8, modo_foi_inicializado := false,
                 digitos_count := 0, senha_digitada := senha_vazia }
    else s

/-! ## main.c: handlers of the state machine -/

/-- The display refresh test `timer_expirou(&t) || !t.ativo`, with the timer as
`timer_expirou` leaves it. -/
def display_deve_atualizar (e : Entradas) (s : Sistema) : Bool × Sistema :=
  let r := timer_expirou s.timer_display_update e.agora
  (r.1 || !r.2.ativo, { s with timer_display_update := r.2 })

/-- Initialisation block of `handle_modo_espera`. -/
def espera_inicializacao (e : Entradas) (s : Sistema) : Sistema :=
  if !s.modo_foi_inicializado then
    let s := solicitar_publicacao_mqtt MSG_STATUS_AGUARDANDO_CARTAO COR_NENHUMA s
    let s := matriz_limpar s
    let s := start_rgb_pulse_and_matrix_center e 0 0 255 s
    { s with modo_foi_inicializado := true }
  else s

/-- Periodic display block of `handle_modo_espera`. -/
def espera_display (e : Entradas) (s : Sistema) : Sistema :=
  let r := display_deve_atualizar e s
  let s := r.2
  if r.1 then
    let s := emitir (Efeito.display_show_message (some "BitDogLock 2FA")
      (some "Aproxime cartao") none) s
    { s with timer_display_update := timer_iniciar e.agora DISPLAY_UPDATE_INTERVAL_US }
  else s

/-- Sensor block of `handle_modo_espera`. -/
def espera_sensor (e : Entradas) (s : Sistema) : Sistema :=
  let cor_detectada := detectar_cor_cartao e.colors
  if cor_detectada ≠ COR_NENHUMA then
    let s := { s with cor_ativa := cor_detectada }
    let s := { s with timer_display_update := { s.timer_display_update with ativo := false } }
    let s := solicitar_publicacao_mqtt MSG_STATUS_CARTAO_LIDO s.cor_ativa s
    let s := { s with senha_digitada := senha_vazia, digitos_count := 0 }
    let s := { s with modo_atual := MODO_AGUARDA_SENHA, modo_foi_inicializado := false }
    { s with timer_timeout_senha := timer_iniciar e.agora (TIMEOUT_SENHA_S * 1000000) }
  else s

/-- Embedding of `handle_modo_espera`. -/
def handle_modo_espera (e : Entradas) (s : Sistema) : Sistema :=
  espera_sensor e (espera_display e (espera_inicializacao e s))

/-- Initialisation block of `handle_modo_aguarda_senha`. -/
def aguarda_senha_inicializacao (s : Sistema) : Sistema :=
  if !s.modo_foi_inicializado then
    let s := solicitar_publicacao_mqtt MSG_STATUS_AGUARDANDO_SENHA s.cor_ativa s
    let s := set_rgb_solid PWM_MAX_DUTY PWM_MAX_DUTY 0 s
    { s with modo_foi_inicializado := true, animacao_digitacao_ativa := true }
  else s

/-- First display line of `handle_modo_aguarda_senha`. -/
def linha_senha (cor : CorDetectada) : String :=
  match cor with
  | COR_VERDE => "Senha (Verde):"
  | COR_VERMELHA => "Senha (Vermelho):"
  | COR_AZUL => "Senha (Azul):"
  | COR_NENHUMA => "Digite a senha:"

/-- Periodic display block of `handle_modo_aguarda_senha`. -/
def aguarda_senha_display (e : Entradas) (s : Sistema) : Sistema :=
  let r := display_deve_atualizar e s
  let s := r.2
  if r.1 then
    let restante := tempo_restante TIMEOUT_SENHA_S s.timer_timeout_senha.inicio e.agora
    let linha3 := "Tempo: " ++ toString restante ++ "s"
    let s := emitir (Efeito.display_show_message (some (linha_senha s.cor_ativa))
      (some (String.mk (cstr s.senha_digitada))) (some linha3)) s
    { s with timer_display_update := timer_iniciar e.agora DISPLAY_UPDATE_INTERVAL_US }
  else s

/-- Timeout block of `handle_modo_aguarda_senha` (taken when the password timer fired). -/
def aguarda_senha_timeout (s : Sistema) : Sistema :=
  let s := feedback_tocar_timeout s
  let s := emitir (Efeito.display_show_message (some "OPERAÇÃO EXPIRADA")
    (some "Tempo esgotado") none) s
  let s := solicitar_publicacao_mqtt MSG_LOG_EVENTO_TIMEOUT_SENHA s.cor_ativa s
  let s := set_rgb_solid PWM_MAX_DUTY 20000 0 s
  { s with animacao_timeout_ativa := true, animacao_digitacao_ativa := false,
           modo_atual := MODO_MSG_TIMEOUT, modo_foi_inicializado := false }

/-- The flag `senha_valida` computed by the `switch` on the active color. -/
def senha_valida (s : Sistema) : Bool :=
  match s.cor_ativa with
  | COR_VERDE => strcmp_igual s.senha_digitada s.SENHA_VERDE
  | COR_VERMELHA => strcmp_igual s.senha_digitada s.SENHA_VERMELHA
  | COR_AZUL => strcmp_igual s.senha_digitada s.SENHA_AZUL
  | COR_NENHUMA => false

/-- The branch of `handle_modo_aguarda_senha` for a wrong password. -/
def aguarda_senha_negado (s : Sistema) : Sistema :=
  let s := feedback_tocar_erro s
  let s := emitir (Efeito.display_show_message (some "ACESSO NEGADO")
    (some "Senha Incorreta") none) s
  let s := solicitar_publicacao_mqtt MSG_LOG_ACESSO_FALHA s.cor_ativa s
  let s := set_rgb_solid PWM_MAX_DUTY 0 0 s
  { s with animacao_erro_ativa := true, animacao_digitacao_ativa := false,
           modo_atual := MODO_MSG_ACESSO_NEGADO, modo_foi_inicializado := false }

/-- The digit branch shared by both password-entry handlers:
`senha_digitada[digitos_count++] = tecla; senha_digitada[digitos_count] = 0`
when `digitos_count < sizeof(senha_digitada) - 1`. -/
def adicionar_digito (tecla : Char) (s : Sistema) : Sistema :=
  if s.digitos_count < 4 then
    { s with
      senha_digitada := (s.senha_digitada.set s.digitos_count tecla).set (s.digitos_count + 1) NUL
      digitos_count := s.digitos_count + 1 }
  else s

/-- Keypad block of `handle_modo_aguarda_senha`. -/
def aguarda_senha_teclado (e : Entradas) (s : Sistema) : Sistema :=
  let tecla := e.tecla
  if tecla ≠ NUL then
    let s := emitir (Efeito.buzzer_play_tone 1500 50) s
    if tecla = '#' then
      if senha_valida s then acionar_abertura e s
      else aguarda_senha_negado s
    else if tecla = '*' then
      let s := solicitar_publicacao_mqtt MSG_LOG_OPERACAO_CANCELADA s.cor_ativa s
      { s with animacao_digitacao_ativa := false,
               modo_atual := MODO_ESPERA, modo_foi_inicializado := false }
    else adicionar_digito tecla s
  else s

/-- Embedding of `handle_modo_aguarda_senha`. -/
def handle_modo_aguarda_senha (e : Entradas) (s : Sistema) : Sistema :=
  let s := aguarda_senha_display e (aguarda_senha_inicializacao s)
  let r := timer_expirou s.timer_timeout_senha e.agora
  let s := { s with timer_timeout_senha := r.2 }
  if r.1 then aguarda_senha_timeout s
  else aguarda_senha_teclado e s

/-- Embedding of `handle_modo_aberto`. -/
def handle_modo_aberto (e : Entradas) (s : Sistema) : Sistema :=
  let s := if !s.modo_foi_inicializado then
      { s with animacao_circulo_tempo_ativa := true, modo_foi_inicializado := true }
    else s
  let r := display_deve_atualizar e s
  let s := r.2
  let s := if r.1 then
      let restante := tempo_restante TEMPO_AUTO_TRAVA_S s.timer_auto_trava.inicio e.agora
      let linha2 := "Travando em: " ++ toString restante ++ "s"
      let s := emitir (Efeito.display_show_message (some "Sistema Aberto") (some linha2) none) s
      { s with timer_display_update := timer_iniciar e.agora DISPLAY_UPDATE_INTERVAL_US }
    else s
  let r := timer_expirou s.timer_auto_trava e.agora
  let s := { s with timer_auto_trava := r.2 }
  if r.1 then
    let s := solicitar_publicacao_mqtt MSG_LOG_EVENTO_AUTO_LOCK COR_NENHUMA s
    let s := { s with animacao_circulo_tempo_ativa := false }
    acionar_fechamento e s
  else s

/-- Embedding of `handle_admin_aguardando_cartao`. -/
def handle_admin_aguardando_cartao (e : Entradas) (s : Sistema) : Sistema :=
  let s := if !s.modo_foi_inicializado then
      let s := solicitar_publicacao_mqtt MSG_LOG_ADMIN_INICIADO COR_NENHUMA s
      let s := emitir (Efeito.display_show_message (some "--- MODO ADMIN ---")
        (some "Aproxime o cartao") (some "a ser configurado")) s
      let s := solicitar_publicacao_mqtt MSG_STATUS_MODO_ADMIN COR_NENHUMA s
      let s := matriz_limpar s
      let s := start_rgb_pulse_and_matrix_center e 255 0 255 s
      { s with modo_foi_inicializado := true }
    else s
  let cor_detectada_admin := detectar_cor_cartao e.colors
  if cor_detectada_admin ≠ COR_NENHUMA then
    let s := { s with cor_ativa := cor_detectada_admin }
    let s := matriz_limpar s
    let s := { s with senha_digitada := senha_vazia, digitos_count := 0 }
    { s with modo_atual := MODO_ADMIN_AGUARDANDO_NOVA_SENHA, modo_foi_inicializado := false }
  else s

/-- The prompt `"Nova Senha (%s):"` of `handle_admin_aguardando_nova_senha`. -/
def linha_nova_senha (cor : CorDetectada) : String :=
  "Nova Senha (" ++
    (if cor = COR_VERDE then "Verde" else if cor = COR_VERMELHA then "Vermelho" else "Azul") ++
    "):"

/-- The `#` branch of `handle_admin_aguardando_nova_senha`. -/
def admin_confirmar (s : Sistema) : Sistema :=
  if s.digitos_count = 4 then
    let s := match s.cor_ativa with
      | COR_VERDE => { s with SENHA_VERDE := strcpy s.SENHA_VERDE s.senha_digitada }
      | COR_VERMELHA => { s with SENHA_VERMELHA := strcpy s.SENHA_VERMELHA s.senha_digitada }
      | COR_AZUL => { s with SENHA_AZUL := strcpy s.SENHA_AZUL s.senha_digitada }
      | COR_NENHUMA => s
    let s := emitir (Efeito.display_show_message (some "SUCESSO!") (some "Senha Salva.") none) s
    let s := feedback_tocar_sucesso s
    let s := set_rgb_solid 0 PWM_MAX_DUTY 0 s
    let s := solicitar_publicacao_mqtt MSG_LOG_ADMIN_SENHA_ALTERADA s.cor_ativa s
    { s with modo_atual := MODO_ADMIN_MSG_SUCESSO, modo_foi_inicializado := false,
             animacao_digitacao_ativa := false }
  else
    let s := emitir (Efeito.display_show_message (some "ERRO") (some "Senha 4 digitos!") none) s
    let s := feedback_tocar_erro s
    let s := set_rgb_solid PWM_MAX_DUTY 0 0 s
    { s with modo_atual := MODO_ADMIN_MSG_ERRO_FORMATO, modo_foi_inicializado := false,
             animacao_digitacao_ativa := false }

/-- Keypad block of `handle_admin_aguardando_nova_senha`. -/
def admin_nova_senha_teclado (e : Entradas) (s : Sistema) : Sistema :=
  let tecla := e.tecla
  if tecla ≠ NUL then
    let s := emitir (Efeito.buzzer_play_tone 1500 50) s
    if tecla = '#' then admin_confirmar s
    else if tecla = '*' then
      let s := emitir (Efeito.display_show_message (some "--- MODO ADMIN ---")
        (some "Operacao Cancelada") (some "")) s
      let s := solicitar_publicacao_mqtt MSG_LOG_OPERACAO_CANCELADA COR_NENHUMA s
      { s with modo_atual := MODO_ADMIN_MSG_CANCELADO, modo_foi_inicializado := false,
               animacao_digitacao_ativa := false }
    else adicionar_digito tecla s
  else s

/-- Embedding of `handle_admin_aguardando_nova_senha`. -/
def handle_admin_aguardando_nova_senha (e : Entradas) (s : Sistema) : Sistema :=
  let s := if !s.modo_foi_inicializado then
      let s := emitir (Efeito.display_show_message (some "--- MODO ADMIN ---")
        (some (linha_nova_senha s.cor_ativa)) (some "")) s
      let s := set_rgb_solid PWM_MAX_DUTY PWM_MAX_DUTY 0 s
      { s with modo_foi_inicializado := true, animacao_digitacao_ativa := true }
    else s
  let r := display_deve_atualizar e s
  let s := r.2
  let s := if r.1 then
      let s := emitir (Efeito.display_show_message (some "--- MODO ADMIN ---")
        (some (linha_nova_senha s.cor_ativa)) (some (String.mk (cstr s.senha_digitada)))) s
      { s with timer_display_update := timer_iniciar e.agora DISPLAY_UPDATE_INTERVAL_US }
    else s
  admin_nova_senha_teclado e s

/-- The shared `case` of the five temporary-message modes in the `switch` of `main`. -/
def handle_modo_mensagem (e : Entradas) (s : Sistema) : Sistema :=
  let s := if !s.modo_foi_inicializado then
      { s with modo_foi_inicializado := true,
               timer_geral := timer_iniciar e.agora TEMPO_MSG_PADRAO_US }
    else s
  let r := timer_expirou s.timer_geral e.agora
  let s := { s with timer_geral := r.2 }
  if r.1 then
    let s := reset_visual_state s
    { s with modo_atual := MODO_ESPERA, modo_foi_inicializado := false }
  else s

/-- The `case MODO_EMERGENCIA_INCENDIO` of the `switch` of `main`. -/
def handle_modo_emergencia (e : Entradas) (s : Sistema) : Sistema :=
  let s := if !s.modo_foi_inicializado then
      let s := emitir (Efeito.display_show_message (some "EMERGENCIA!")
        (some "ALARME DE INCENDIO") (some "PERIGO!")) s
      let s := solicitar_publicacao_mqtt MSG_LOG_EMERGENCIA_INCENDIO_ON COR_NENHUMA s
      let s := matriz_iniciar_animacao_fogo e s
      let s := { s with animacao_fogo_ativa := true }
      let s := start_rgb_pulse_and_matrix_center e 255 0 0 s
      let s := { s with modo_foi_inicializado := true }
      let s := { s with timer_alarme_beep := timer_iniciar e.agora 500000 }
      let s := emitir (Efeito.servo_start_move 150) s
      { s with timer_servo := timer_iniciar e.agora SERVO_MOVE_DURATION_US }
    else s
  let r := timer_expirou s.timer_alarme_beep e.agora
  let s := { s with timer_alarme_beep := r.2 }
  if r.1 then
    let s := emitir (Efeito.buzzer_play_tone 3000 100) s
    { s with timer_alarme_beep := timer_iniciar e.agora 1000000 }
  else s

/-- The `default` case of the `switch` of `main`. -/
def handle_modo_invalido (s : Sistema) : Sistema :=
  { s with modo_atual := MODO_ESPERA, modo_foi_inicializado := false }

/-- The `switch (fechadura.modo_atual)` of the main loop. -/
def maquina_estados (e : Entradas) (s : Sistema) : Sistema :=
  if s.modo_atual = MODO_ESPERA then handle_modo_espera e s
  else if s.modo_atual = MODO_AGUARDA_SENHA then handle_modo_aguarda_senha e s
  else if s.modo_atual = MODO_ABERTO then handle_modo_aberto e s
  else if s.modo_atual = MODO_ADMIN_AGUARDANDO_CARTAO then handle_admin_aguardando_cartao e s
  else if s.modo_atual = MODO_ADMIN_AGUARDANDO_NOVA_SENHA then
    handle_admin_aguardando_nova_senha e s
  else if s.modo_atual = MODO_MSG_TIMEOUT ∨ s.modo_atual = MODO_MSG_ACESSO_NEGADO ∨
      s.modo_atual = MODO_ADMIN_MSG_SUCESSO ∨ s.modo_atual = MODO_ADMIN_MSG_ERRO_FORMATO ∨
      s.modo_atual = MODO_ADMIN_MSG_CANCELADO then handle_modo_mensagem e s
  else if s.modo_atual = MODO_EMERGENCIA_INCENDIO then handle_modo_emergencia e s
  else handle_modo_invalido s

/-! ## feedback.c: frame-stepped visual feedback -/

def ERRO_FRAME_DELAY_US : Nat := 200000
def TIMEOUT_FRAME_DELAY_US : Nat := 200000
def FECHANDO_FRAME_DELAY_US : Nat := 400000
def FECHANDO_INTERVALO_FINAL_US : Nat := 150000

/-- Embedding of `feedback_visual_erro_update`: the returned flag and the new state. -/
def feedback_visual_erro_update (e : Entradas) (s : Sistema) : Bool × Sistema :=
  if s.erro_frame_atual = 0 then
    let s := { s with erro_ultimo_frame_tempo := e.agora }
    let s := matriz_desenhar_x s
    let s := emitir (Efeito.rgb_led_set_color PWM_MAX_DUTY 0 0) s
    (false, { s with erro_frame_atual := 1 })
  else if absolute_time_diff_us s.erro_ultimo_frame_tempo e.agora < (ERRO_FRAME_DELAY_US : Int) then
    (false, s)
  else
    let s := { s with erro_ultimo_frame_tempo := e.agora }
    if s.erro_frame_atual < 6 then
      let s := if s.erro_frame_atual % 2 ≠ 0 then
          emitir (Efeito.rgb_led_set_color 0 0 0) (matriz_limpar s)
        else
          emitir (Efeito.rgb_led_set_color PWM_MAX_DUTY 0 0) (matriz_desenhar_x s)
      (false, { s with erro_frame_atual := s.erro_frame_atual + 1 })
    else
      let s := { s with erro_frame_atual := 0 }
      let s := matriz_limpar s
      (true, emitir (Efeito.rgb_led_set_color 0 0 0) s)

/-- Embedding of `feedback_visual_timeout_update`. -/
def feedback_visual_timeout_update (e : Entradas) (s : Sistema) : Bool × Sistema :=
  if s.timeout_frame_atual = 0 then
    let s := { s with timeout_ultimo_frame_tempo := e.agora }
    let s := matriz_desenhar_exclamacao s
    let s := emitir (Efeito.rgb_led_set_color PWM_MAX_DUTY PWM_MAX_DUTY 0) s
    (false, { s with timeout_frame_atual := 1 })
  else if absolute_time_diff_us s.timeout_ultimo_frame_tempo e.agora
      < (TIMEOUT_FRAME_DELAY_US : Int) then
    (false, s)
  else
    let s := { s with timeout_ultimo_frame_tempo := e.agora }
    if s.timeout_frame_atual < 6 then
      let s := if s.timeout_frame_atual % 2 ≠ 0 then
          emitir (Efeito.rgb_led_set_color 0 0 0) (matriz_limpar s)
        else
          emitir (Efeito.rgb_led_set_color PWM_MAX_DUTY PWM_MAX_DUTY 0)
            (matriz_desenhar_exclamacao s)
      (false, { s with timeout_frame_atual := s.timeout_frame_atual + 1 })
    else
      let s := { s with timeout_frame_atual := 0 }
      let s := matriz_limpar s
      (true, emitir (Efeito.rgb_led_set_color 0 0 0) s)

/-- Embedding of `feedback_visual_fechando_update`; the delay is a `uint64_t`, so the
elapsed time is compared as an unsigned 64-bit value. -/
def feedback_visual_fechando_update (e : Entradas) (s : Sistema) : Bool × Sistema :=
  if s.fechando_frame_atual = 0 then
    let s := { s with fechando_ultimo_frame_tempo := e.agora }
    let s := matriz_desenhar_circulo 200 0 0 s
    let s := emitir (Efeito.rgb_led_set_color PWM_MAX_DUTY 0 0) s
    (false, { s with fechando_frame_atual := 1 })
  else
    let current_delay :=
      if s.fechando_frame_atual = 1 then FECHANDO_FRAME_DELAY_US else FECHANDO_INTERVALO_FINAL_US
    if (absolute_time_diff_us s.fechando_ultimo_frame_tempo e.agora % 2 ^ 64).toNat
        < current_delay then
      (false, s)
    else
      let s := { s with fechando_ultimo_frame_tempo := e.agora }
      if s.fechando_frame_atual = 1 then
        let s := matriz_limpar s
        let s := emitir (Efeito.rgb_led_set_color 0 0 0) s
        (false, { s with fechando_frame_atual := 2 })
      else
        (true, { s with fechando_frame_atual := 0 })

/-! ## matriz.c: frame-stepped animations -/

def SUCESSO_FRAME_DELAY_MS : Nat := 120
def FOGO_FRAME_DELAY_US : Nat := 100000

/-- Embedding of `matriz_animacao_sucesso_update`. -/
def matriz_animacao_sucesso_update (e : Entradas) (s : Sistema) : Bool × Sistema :=
  if s.sucesso_frame_atual = 0 then
    let s := { s with sucesso_ultimo_frame_tempo := e.agora }
    let s := { s with matriz_buffer := buffer_zerado.set (xy_to_index 2 2) (urgb_u32 0 150 0) }
    let s := matriz_renderizar s
    (false, { s with sucesso_frame_atual := 1 })
  else if (absolute_time_diff_us s.sucesso_ultimo_frame_tempo e.agora % 2 ^ 64).toNat
      < SUCESSO_FRAME_DELAY_MS * 1000 then
    (false, s)
  else
    let s := { s with sucesso_ultimo_frame_tempo := e.agora }
    let cor_verde := urgb_u32 0 150 0
    if s.sucesso_frame_atual = 1 then
      let buf := buffer_zerado.set (xy_to_index 2 1) cor_verde
      let buf := buf.set (xy_to_index 1 2) cor_verde
      let buf := buf.set (xy_to_index 3 2) cor_verde
      let buf := buf.set (xy_to_index 2 3) cor_verde
      let buf := buf.set (xy_to_index 2 2) cor_verde
      let s := matriz_renderizar { s with matriz_buffer := buf }
      (false, { s with sucesso_frame_atual := s.sucesso_frame_atual + 1 })
    else if s.sucesso_frame_atual = 2 then
      let s := matriz_desenhar_circulo 0 150 0 s
      (false, { s with sucesso_frame_atual := s.sucesso_frame_atual + 1 })
    else
      (true, { s with sucesso_frame_atual := 0 })

/-- The color `matriz_animacao_circulo_tempo_update` selects for a number of seconds. -/
def cor_circulo_tempo (tempo_restante_s : Int) : Nat :=
  if tempo_restante_s > 10 then urgb_u32 0 150 0
  else if tempo_restante_s > 5 then urgb_u32 255 150 0
  else if tempo_restante_s ≥ 0 then urgb_u32 255 0 0
  else 0

/-- Embedding of `matriz_animacao_circulo_tempo_update`. -/
def matriz_animacao_circulo_tempo_update (tempo_restante_s : Int) (s : Sistema) :
    Bool × Sistema :=
  let proxima_cor_a_exibir := cor_circulo_tempo tempo_restante_s
  if proxima_cor_a_exibir ≠ s.circ_tempo_cor_ativa then
    let s := { s with circ_tempo_cor_ativa := proxima_cor_a_exibir }
    (false, matriz_desenhar_circulo ((proxima_cor_a_exibir >>> 8) &&& 0xFF)
      ((proxima_cor_a_exibir >>> 16) &&& 0xFF) (proxima_cor_a_exibir &&& 0xFF) s)
  else (false, s)

/-- One cell of the upward propagation of `matriz_atualizar_animacao_fogo`. -/
def fogo_propagar_celula (buf : List Nat) (x y : Nat) : List Nat :=
  let cor_abaixo := buf.getD (xy_to_index x (y + 1)) 0
  let r := (cor_abaixo >>> 8) &&& 0xFF
  let g := (cor_abaixo >>> 16) &&& 0xFF
  let r := if r > 10 then r - 10 else 0
  let g := if g > 5 then g - 5 else 0
  buf.set (xy_to_index x y) (urgb_u32 r g 0)

/-- One base cell of `matriz_atualizar_animacao_fogo`; the second component counts the
`rand()` calls made so far. -/
def fogo_base_celula (rand : Nat → Nat) (st : List Nat × Nat) (x : Nat) : List Nat × Nat :=
  let chance := rand st.2 % 100
  if chance < 60 then
    let r := (200 + rand (st.2 + 1) % 56) % 256
    let g := (50 + rand (st.2 + 2) % 100) % 256
    (st.1.set (xy_to_index x 4) (urgb_u32 r g 0), st.2 + 3)
  else (st.1.set (xy_to_index x 4) 0, st.2 + 1)

/-- Embedding of `matriz_atualizar_animacao_fogo`. -/
def matriz_atualizar_animacao_fogo (e : Entradas) (s : Sistema) : Sistema :=
  if !s.fogo_ativo then s
  else if absolute_time_diff_us s.fogo_ultimo_frame_tempo e.agora < (FOGO_FRAME_DELAY_US : Int) then
    s
  else
    let s := { s with fogo_ultimo_frame_tempo := e.agora }
    let buf := (List.range 4).foldl
      (fun b y => (List.range 5).foldl (fun b x => fogo_propagar_celula b x y) b) s.matriz_buffer
    let st := (List.range 5).foldl (fogo_base_celula e.rand) (buf, 0)
    matriz_renderizar { s with matriz_buffer := st.1 }

/-! ## main.c: the rest of the main loop -/

/-- Main loop, error animation: `if (animacao_erro_ativa) ...`. -/
def animar_erro (e : Entradas) (s : Sistema) : Sistema :=
  if s.animacao_erro_ativa then
    let r := feedback_visual_erro_update e s
    if r.1 then { r.2 with animacao_erro_ativa := false } else r.2
  else s

/-- Main loop, timeout animation: `if (animacao_timeout_ativa) ...`. -/
def animar_timeout (e : Entradas) (s : Sistema) : Sistema :=
  if s.animacao_timeout_ativa then
    let r := feedback_visual_timeout_update e s
    if r.1 then { r.2 with animacao_timeout_ativa := false } else r.2
  else s

/-- Main loop, closing animation: `if (animacao_fechando_ativa) ...`. -/
def animar_fechando (e : Entradas) (s : Sistema) : Sistema :=
  if s.animacao_fechando_ativa then
    let r := feedback_visual_fechando_update e s
    if r.1 then { r.2 with animacao_fechando_ativa := false } else r.2
  else s

/-- Main loop, success animation: `if (animacao_sucesso_ativa) ...`. -/
def animar_sucesso (e : Entradas) (s : Sistema) : Sistema :=
  if s.animacao_sucesso_ativa then
    let r := matriz_animacao_sucesso_update e s
    if r.1 then { r.2 with animacao_sucesso_ativa := false } else r.2
  else s

/-- Main loop, typing indicator: `if (animacao_digitacao_ativa) ...`. -/
def animar_digitacao (s : Sistema) : Sistema :=
  if s.animacao_digitacao_ativa then
    if s.modo_atual = MODO_AGUARDA_SENHA ∨ s.modo_atual = MODO_ADMIN_AGUARDANDO_NOVA_SENHA then
      matriz_desenhar_digitos s.digitos_count s
    else { s with animacao_digitacao_ativa := false }
  else s

/-- Main loop, countdown ring: `if (animacao_circulo_tempo_ativa) ...`. -/
def animar_circulo_tempo (e : Entradas) (s : Sistema) : Sistema :=
  if s.animacao_circulo_tempo_ativa then
    let restante := tempo_restante TEMPO_AUTO_TRAVA_S s.timer_auto_trava.inicio e.agora
    let s := if restante > 10 then set_rgb_solid 0 PWM_MAX_DUTY 0 s
      else if restante > 5 then set_rgb_solid PWM_MAX_DUTY 20000 0 s
      else set_rgb_solid PWM_MAX_DUTY 0 0 s
    (matriz_animacao_circulo_tempo_update restante s).2
  else s

/-- Main loop, fire animation: `if (animacao_fogo_ativa) ...`. -/
def animar_fogo (e : Entradas) (s : Sistema) : Sistema :=
  if s.animacao_fogo_ativa then matriz_atualizar_animacao_fogo e s else s

/-- The block of the main loop that advances the flag-driven animations, in the order
of the source. -/
def atualizar_animacoes (e : Entradas) (s : Sistema) : Sistema :=
  animar_fogo e (animar_circulo_tempo e (animar_digitacao (animar_sucesso e
    (animar_fechando e (animar_timeout e (animar_erro e s))))))

/-- The block of the main loop that renders the pulse effect. Brightness is computed in
single-precision floating point; the values passed to the drivers are inputs. -/
def atualizar_pulso (e : Entradas) (s : Sistema) : Sistema :=
  if s.efeito_pulso.ativo then
    let s := emitir (Efeito.rgb_led_set_color e.pulso_led.1 e.pulso_led.2.1 e.pulso_led.2.2) s
    if s.modo_atual = MODO_ESPERA ∨ s.modo_atual = MODO_ADMIN_AGUARDANDO_CARTAO then
      matriz_desenhar_ponto_central e.pulso_ponto.1 e.pulso_ponto.2.1 e.pulso_ponto.2.2 s
    else s
  else s

/-- The block of the main loop for the heartbeat and servo timers. -/
def timers_globais (e : Entradas) (s : Sistema) : Sistema :=
  let r := timer_expirou s.timer_heartbeat e.agora
  let s := { s with timer_heartbeat := r.2 }
  let s := if r.1 || !r.2.ativo then
      let s := solicitar_publicacao_mqtt MSG_LOG_HEARTBEAT COR_NENHUMA s
      { s with timer_heartbeat := timer_iniciar e.agora HEARTBEAT_INTERVAL_US }
    else s
  let r := timer_expirou s.timer_servo e.agora
  let s := { s with timer_servo := r.2 }
  if r.1 then emitir Efeito.servo_stop_move s else s

/-- One iteration of the `while (true)` loop of `main`. -/
def loop_principal (e : Entradas) (s : Sistema) : Sistema :=
  timers_globais e (atualizar_pulso e (atualizar_animacoes e (maquina_estados e (verificar_fifo e s))))

/-- The fields written only by the handlers and by remote commands: mode, initialised
flag, active color, open flag, password buffer and digit count, the handler timers and
the three stored passwords. -/
def controle (s : Sistema) :=
  (s.modo_atual, s.modo_foi_inicializado, s.cor_ativa, s.status_aberto, s.senha_digitada,
    s.digitos_count, s.timer_timeout_senha, s.timer_auto_trava, s.timer_geral,
    s.timer_alarme_beep, s.timer_display_update, s.SENHA_VERDE, s.SENHA_VERMELHA, s.SENHA_AZUL)

/-- An unarmed timer, as left by `memset`. -/
def timer_zerado : TimerNaoBloqueante := { ativo := false, inicio := 0, duracao_us := 0 }

/-- The state `inicia_hardware` leaves: the lock structure zeroed with mode
`MODO_ESPERA`, the default passwords, the static variables at their initialisers. -/
def inicia_hardware : Sistema :=
  { modo_atual := MODO_ESPERA
    cor_ativa := COR_NENHUMA
    status_aberto := false
    modo_foi_inicializado := false
    senha_digitada := senha_vazia
    digitos_count := 0
    timer_servo := timer_zerado
    timer_timeout_senha := timer_zerado
    timer_auto_trava := timer_zerado
    timer_display_update := timer_zerado
    timer_geral := timer_zerado
    timer_alarme_beep := timer_zerado
    animacao_erro_ativa := false
    animacao_timeout_ativa := false
    animacao_fechando_ativa := false
    animacao_sucesso_ativa := false
    animacao_digitacao_ativa := false
    animacao_circulo_tempo_ativa := false
    animacao_fogo_ativa := false
    efeito_pulso := { ativo := false, inicio := 0, r := 0, g := 0, b := 0 }
    timer_heartbeat := timer_zerado
    SENHA_VERDE := ['1', '3', '3', '7', NUL]
    SENHA_VERMELHA := ['8', '0', '0', '8', NUL]
    SENHA_AZUL := ['4', '2', '4', '2', NUL]
    matriz_buffer := buffer_zerado
    sucesso_frame_atual := 0
    sucesso_ultimo_frame_tempo := 0
    fogo_ativo := false
    fogo_ultimo_frame_tempo := 0
    circ_tempo_cor_ativa := 0
    erro_frame_atual := 0
    erro_ultimo_frame_tempo := 0
    timeout_frame_atual := 0
    timeout_ultimo_frame_tempo := 0
    fechando_frame_atual := 0
    fechando_ultimo_frame_tempo := 0
    traco := [] }

/-- The state in which `main` enters its loop: after `inicia_hardware` and the
`reset_visual_state` that ends the network bring-up (the trace starts with the driver
calls of that `reset_visual_state`). -/
def estado_inicial : Sistema := reset_visual_state inicia_hardware

/-- States the main loop can be in at the top of an iteration. -/
inductive Alcancavel : Sistema → Prop where
  | inicio : Alcancavel estado_inicial
  | passo (e : Entradas) (s : Sistema) : Alcancavel s → Alcancavel (loop_principal e s)

/-! ## main.c: core 1, publish queue and drain loop -/

def QUEUE_SIZE : Nat := 10

/-- The struct `publication_t` of `funcao_wifi_nucleo1`. -/
structure publication_t where
  topico : String
  mensagem : String
  deriving DecidableEq, Repr

/-- The static variables of `funcao_wifi_nucleo1`, with the list of messages handed to
`publicar_mensagem_mqtt` so far. -/
structure Nucleo1 where
  publication_queue : List publication_t
  queue_head : Nat
  queue_tail : Nat
  timer_entre_publicacoes : TimerNaoBloqueante
  publicadas : List publication_t
  deriving DecidableEq, Repr

/-- What one iteration of the core-1 loop reads: the clock, the word waiting in the
FIFO if any, the answer of `mqtt_is_publishing`, and the contents of the two local
buffers the `switch` on the message kind leaves unwritten for an undefined kind. -/
structure EntradasNucleo1 where
  agora : Nat
  fifo : Option Nat
  mqtt_is_publishing : Bool
  base_topic_indefinido : String
  msg_buffer_indefinido : String

/-- The `switch ((enum CorDetectada)cor_id)` that names the color. -/
def cor_str (cor_id : Nat) : String :=
  if cor_id = 1 then "Verde"
  else if cor_id = 2 then "Vermelho"
  else if cor_id = 3 then "Azul"
  else "N/A"

/-- The `switch ((enum MQTT_MSG_TYPE)tipo_msg)`: topic suffix and payload. -/
def montar_mensagem (e : EntradasNucleo1) (tipo_msg cor_id : Nat) : String × String :=
  if tipo_msg = 0 then (TOPICO_STATUS, "Aguardando cartao")
  else if tipo_msg = 1 then (TOPICO_STATUS, "Cartao " ++ cor_str cor_id ++ " lido")
  else if tipo_msg = 2 then (TOPICO_STATUS, "Aguardando senha")
  else if tipo_msg = 3 then (TOPICO_STATUS, "Sistema Aberto")
  else if tipo_msg = 4 then (TOPICO_STATUS, "Sistema Fechado")
  else if tipo_msg = 5 then (TOPICO_STATUS, "Modo Administracao")
  else if tipo_msg = 6 then (TOPICO_HISTORICO, "ACESSO LIBERADO: Cartao " ++ cor_str cor_id ++ ".")
  else if tipo_msg = 7 then
    (TOPICO_HISTORICO, "FALHA: Senha incorreta para o Cartao " ++ cor_str cor_id ++ ".")
  else if tipo_msg = 8 then (TOPICO_HISTORICO, "AVISO: Timeout para digitacao da senha.")
  else if tipo_msg = 9 then (TOPICO_HISTORICO, "EVENTO: Travamento automatico do sistema.")
  else if tipo_msg = 10 then (TOPICO_HISTORICO, "AVISO: Operacao cancelada pelo usuario.")
  else if tipo_msg = 11 then (TOPICO_HISTORICO, "ADMIN: Modo de alteracao de senha iniciado.")
  else if tipo_msg = 12 then
    (TOPICO_HISTORICO, "ADMIN: Senha para Cartao " ++ cor_str cor_id ++ " foi alterada.")
  else if tipo_msg = 13 then (TOPICO_HISTORICO, "EMERGENCIA: Alarme de incendio ATIVADO.")
  else if tipo_msg = 14 then (TOPICO_HISTORICO, "EMERGENCIA: Alarme de incendio desativado.")
  else if tipo_msg = 15 then (TOPICO_HEARTBEAT, "ok")
  else (e.base_topic_indefinido, e.msg_buffer_indefinido)

/-- A string cut to what fits a 100-byte array with its terminator. -/
def truncar99 (t : String) : String := String.mk (t.data.take 99)

/-- The entry built for a publish-request word: `snprintf` of the topic and `strncpy`
of the payload into the 100-byte fields. -/
def entrada_da_fila (e : EntradasNucleo1) (pacote : Nat) : publication_t :=
  let valor := ((pacote % 2 ^ 32) &&& 0xFFFF) % 2 ^ 16
  let tipo_msg := (valor &&& 0xFF) % 2 ^ 8
  let cor_id := ((valor >>> 8) &&& 0xFF) % 2 ^ 8
  let m := montar_mensagem e tipo_msg cor_id
  { topico := truncar99 (DEVICE_ID ++ "/" ++ m.1), mensagem := truncar99 m.2 }

/-- The enqueue step: `next_tail = (queue_tail + 1) % QUEUE_SIZE`, store and advance
unless `next_tail == queue_head`. -/
def enfileirar (p : publication_t) (q : Nucleo1) : Nucleo1 :=
  let next_tail := (q.queue_tail + 1) % QUEUE_SIZE
  if next_tail ≠ q.queue_head then
    { q with publication_queue := q.publication_queue.set q.queue_tail p, queue_tail := next_tail }
  else q

/-- The first half of a core-1 iteration: a publish-request word is decoded and enqueued. -/
def receber_fifo (e : EntradasNucleo1) (q : Nucleo1) : Nucleo1 :=
  match e.fifo with
  | none => q
  | some pacote =>
    let comando := ((pacote % 2 ^ 32) >>> 16) % 2 ^ 16
    if comando = FIFO_CMD_PUBLICAR_MQTT then enfileirar (entrada_da_fila e pacote) q
    else q

/-- An entry with empty strings (a zero-initialised `publication_t`). -/
def publication_vazia : publication_t := { topico := "", mensagem := "" }

/-- The second half of a core-1 iteration: the head entry is published when the client
is idle, the queue is non-empty and the inter-publish timer allows it. -/
def drenar_fila (e : EntradasNucleo1) (q : Nucleo1) : Nucleo1 :=
  if !e.mqtt_is_publishing && decide (q.queue_head ≠ q.queue_tail) then
    let r := timer_expirou q.timer_entre_publicacoes e.agora
    let q := { q with timer_entre_publicacoes := r.2 }
    if r.1 || !r.2.ativo then
      let pub := q.publication_queue.getD q.queue_head publication_vazia
      { q with
        publicadas := q.publicadas ++ [pub]
        queue_head := (q.queue_head + 1) % QUEUE_SIZE
        timer_entre_publicacoes := timer_iniciar e.agora MQTT_PUB_MIN_DELAY_US }
    else q
  else q

/-- One iteration of the `while (true)` loop of `funcao_wifi_nucleo1`. -/
def loop_nucleo1 (e : EntradasNucleo1) (q : Nucleo1) : Nucleo1 :=
  drenar_fila e (receber_fifo e q)

/-- The static variables of `funcao_wifi_nucleo1` when its loop starts. -/
def nucleo1_inicial : Nucleo1 :=
  { publication_queue := List.replicate QUEUE_SIZE publication_vazia
    queue_head := 0
    queue_tail := 0
    timer_entre_publicacoes := timer_zerado
    publicadas := [] }

/-- Number of entries held in the circular queue. -/
def fila_tamanho (q : Nucleo1) : Nat :=
  (q.queue_tail + QUEUE_SIZE - q.queue_head) % QUEUE_SIZE

/-- The entries held in the circular queue, oldest first. -/
def fila_conteudo (q : Nucleo1) : List publication_t :=
  (List.range (fila_tamanho q)).map
    (fun i => q.publication_queue.getD ((q.queue_head + i) % QUEUE_SIZE) publication_vazia)

/-! ## Reading a trace -/

/-- The driver calls made between state `s` and a later state `t`. -/
def novos_efeitos (s t : Sistema) : List Efeito := t.traco.drop s.traco.length

/-- The words pushed to the inter-core FIFO, in order. -/
def publicacoes (l : List Efeito) : List Nat :=
  l.filterMap (fun ef => match ef with
    | Efeito.multicore_fifo_push_blocking p => some p
    | _ => none)

/-- The angles passed to `servo_start_move`, in order. -/
def comandos_servo (l : List Efeito) : List Nat :=
  l.filterMap (fun ef => match ef with
    | Efeito.servo_start_move a => some a
    | _ => none)

/-- The word of a publish request for a message kind and a color. -/
def pedido (tipo_msg : MQTT_MSG_TYPE) (cor : CorDetectada) : Nat :=
  pacote_publicacao tipo_msg.toNat cor.toNat

/-- Runs the enqueue step for each entry of a list, in order, with no dequeue. -/
def enfileirar_todas (l : List publication_t) (q : Nucleo1) : Nucleo1 :=
  l.foldl (fun q p => enfileirar p q) q

/-- The entry the enqueue step of an iteration stores (none when there is no
publish-request word, or when the guard `next_tail != queue_head` fails). -/
def entrada_aceita (e : EntradasNucleo1) (q : Nucleo1) : List publication_t :=
  match e.fifo with
  | none => []
  | some pacote =>
    if ((pacote % 2 ^ 32) >>> 16) % 2 ^ 16 = FIFO_CMD_PUBLICAR_MQTT ∧
        (q.queue_tail + 1) % QUEUE_SIZE ≠ q.queue_head then
      [entrada_da_fila e pacote]
    else []

/-- Runs core-1 iterations for a list of inputs. -/
def executar_nucleo1 : Nucleo1 → List EntradasNucleo1 → Nucleo1
  | q, [] => q
  | q, e :: es => executar_nucleo1 (loop_nucleo1 e q) es

/-- The entries stored by the enqueue steps of a run, in the order of their arrival. -/
def entradas_retidas : Nucleo1 → List EntradasNucleo1 → List publication_t
  | _, [] => []
  | q, e :: es => entrada_aceita e q ++ entradas_retidas (loop_nucleo1 e q) es

/-- Well-formedness of the queue variables: ten slots, both indices inside. -/
def FilaOk (q : Nucleo1) : Prop :=
  q.publication_queue.length = QUEUE_SIZE ∧ q.queue_head < QUEUE_SIZE ∧ q.queue_tail < QUEUE_SIZE

/-! ## Runs and concrete scenarios -/

/-- Runs main-loop iterations for a list of inputs. -/
def executar : Sistema → List Entradas → Sistema
  | s, [] => s
  | s, e :: es => executar (loop_principal e s) es

/-- An iteration input with nothing happening: no FIFO word, a dark sensor, no key. -/
def entradas_base : Entradas :=
  { agora := 0
    fifo := none
    colors := { clear := 0, red := 0, green := 0, blue := 0 }
    tecla := NUL
    pulso_led := (0, 0, 0)
    pulso_ponto := (0, 0, 0)
    rand := fun _ => 0 }

/-- An iteration input at a given instant with a given key. -/
def entradas_tecla (agora : Nat) (tecla : Char) : Entradas :=
  { entradas_base with agora := agora, tecla := tecla }

/-- An iteration input at a given instant with a green card on the sensor. -/
def entradas_cartao_verde (agora : Nat) : Entradas :=
  { entradas_base with
    agora := agora, colors := { clear := 70, red := 10, green := 100, blue := 10 } }

/-- A green card, the keys `1` and `2`, then the cancel key. -/
def cenario_cancelamento : List Entradas :=
  [entradas_cartao_verde 1000, entradas_tecla 2000 '1', entradas_tecla 3000 '2',
   entradas_tecla 4000 '*']

/-- A state in AwaitingPassword for the green card with a typed buffer, on top of the
boot state. -/
def estado_aguarda_senha (digitada : List Char) (n : Nat) : Sistema :=
  { inicia_hardware with
    modo_atual := MODO_AGUARDA_SENHA
    cor_ativa := COR_VERDE
    senha_digitada := digitada
    digitos_count := n
    timer_timeout_senha := timer_iniciar 0 15000000 }

/-! ## Decoding a FIFO word on core 1 -/

/-- The command field of a FIFO word: `uint16_t comando = pacote >> 16`. -/
def comando_do_pacote (pacote : Nat) : Nat := ((pacote % 2 ^ 32) >>> 16) % 2 ^ 16

/-- The payload field of a FIFO word: `uint16_t valor = pacote & 0xFFFF`. -/
def valor_do_pacote (pacote : Nat) : Nat := ((pacote % 2 ^ 32) &&& 0xFFFF) % 2 ^ 16

/-- The message kind core 1 unpacks: `uint8_t tipo_msg = valor & 0xFF`. -/
def tipo_msg_do_pacote (pacote : Nat) : Nat := (valor_do_pacote pacote &&& 0xFF) % 2 ^ 8

/-- The color byte core 1 unpacks: `uint8_t cor_id = (valor >> 8) & 0xFF`. -/
def cor_id_do_pacote (pacote : Nat) : Nat := ((valor_do_pacote pacote >>> 8) &&& 0xFF) % 2 ^ 8

/-- A FIFO word with the mode-change command and a payload (`payload < 2^16`). -/
def pacote_mudar_estado (valor : Nat) : Nat := FIFO_CMD_MUDAR_ESTADO * 2 ^ 16 + valor

/-! ## Repeated polling of one timer -/

/-- Successive calls of `timer_expirou` on one timer at the given instants, with no
`timer_iniciar` in between: the flags returned, in order, and the timer left. -/
def timer_expirou_seq : TimerNaoBloqueante → List Nat → List Bool × TimerNaoBloqueante
  | t, [] => ([], t)
  | t, a :: as =>
    ((timer_expirou t a).1 :: (timer_expirou_seq (timer_expirou t a).2 as).1,
      (timer_expirou_seq (timer_expirou t a).2 as).2)

/-! ## More scenarios -/

/-- An iteration input at a given instant carrying a FIFO word. -/
def entradas_fifo (agora : Nat) (pacote : Nat) : Entradas :=
  { entradas_base with agora := agora, fifo := some pacote }

/-- A green card, the keys `1 3 3 7 #`, then one more tick (the Open entry tick). -/
def cenario_abertura : List Entradas :=
  [entradas_cartao_verde 1000, entradas_tecla 2000 '1', entradas_tecla 3000 '3',
   entradas_tecla 4000 '3', entradas_tecla 5000 '7', entradas_tecla 6000 '#',
   entradas_tecla 7000 NUL]

/-- A state in FireEmergency past its entry tick, on top of the boot state. -/
def estado_emergencia : Sistema :=
  { inicia_hardware with
    modo_atual := MODO_EMERGENCIA_INCENDIO
    modo_foi_inicializado := true
    animacao_fogo_ativa := true
    fogo_ativo := true
    efeito_pulso := { ativo := true, inicio := 0, r := 255, g := 0, b := 0 }
    timer_alarme_beep := timer_iniciar 0 1000000 }

/-- A state in AdminAwaitingNewPassword for the green card with a typed buffer. -/
def estado_admin_nova_senha (digitada : List Char) (n : Nat) : Sistema :=
  { inicia_hardware with
    modo_atual := MODO_ADMIN_AGUARDANDO_NOVA_SENHA
    modo_foi_inicializado := true
    cor_ativa := COR_VERDE
    senha_digitada := digitada
    digitos_count := n }

/-- A core-1 iteration input. -/
def entradas_nucleo1 (agora : Nat) (fifo : Option Nat) (publicando : Bool) : EntradasNucleo1 :=
  { agora := agora
    fifo := fifo
    mqtt_is_publishing := publicando
    base_topic_indefinido := ""
    msg_buffer_indefinido := "" }

/-- The opening scenario followed by three quiet ticks 200 ms apart, after which the
success animation has ended and only the countdown ring is active. -/
def cenario_aberto_estavel : List Entradas :=
  cenario_abertura ++
    [entradas_tecla 200000 NUL, entradas_tecla 400000 NUL, entradas_tecla 600000 NUL]

/-- The seven animation flags, in the order error, timeout, closing, success, typing,
countdown ring, fire. -/
def flags_animacao (s : Sistema) : List Bool :=
  [s.animacao_erro_ativa, s.animacao_timeout_ativa, s.animacao_fechando_ativa,
   s.animacao_sucesso_ativa, s.animacao_digitacao_ativa, s.animacao_circulo_tempo_ativa,
   s.animacao_fogo_ativa]

/-- The five message modes that share `handle_modo_mensagem`. -/
def modo_de_mensagem (m : Nat) : Prop :=
  m = MODO_MSG_TIMEOUT ∨ m = MODO_MSG_ACESSO_NEGADO ∨ m = MODO_ADMIN_MSG_SUCESSO ∨
    m = MODO_ADMIN_MSG_ERRO_FORMATO ∨ m = MODO_ADMIN_MSG_CANCELADO

/-- A state in MsgTimeout past its entry tick, with the generic timer armed at instant 0
and the timeout animation running. -/
def estado_msg_timeout : Sistema :=
  { inicia_hardware with
    modo_atual := MODO_MSG_TIMEOUT
    modo_foi_inicializado := true
    animacao_timeout_ativa := true
    timer_geral := timer_iniciar 0 TEMPO_MSG_PADRAO_US }

/-! ## Repeated calls of an update function -/

/-- Successive calls of an update function, one per input: the flags returned, in
order, and the state left. -/
def chamadas (f : Entradas → Sistema → Bool × Sistema) : Sistema → List Entradas → List Bool × Sistema
  | s, [] => ([], s)
  | s, e :: es => ((f e s).1 :: (chamadas f (f e s).2 es).1, (chamadas f (f e s).2 es).2)

/-! ## Shapes on the 5x5 matrix -/

/-- The cell at column `x`, row `y` of a matrix buffer. -/
def celula (buf : List Nat) (x y : Nat) : Nat := buf.getD (xy_to_index x y) 0

/-- A buffer shows a shape in one color: it has 25 cells, the cells of the shape hold
the color and every other cell is 0. -/
def mostra (buf : List Nat) (forma : Nat → Nat → Bool) (cor : Nat) : Prop :=
  buf.length = 25 ∧ ∀ x < 5, ∀ y < 5, celula buf x y = if forma x y then cor else 0

instance (buf : List Nat) (forma : Nat → Nat → Bool) (cor : Nat) : Decidable (mostra buf forma cor) := by
  unfold mostra
  exact inferInstance

/-- The center cell. -/
def forma_ponto (x y : Nat) : Bool := x == 2 && y == 2

/-- The center cell and its four neighbours. -/
def forma_mais (x y : Nat) : Bool :=
  (x == 2 && decide (1 ≤ y) && decide (y ≤ 3)) || (y == 2 && decide (1 ≤ x) && decide (x ≤ 3))

/-- The border of the matrix without its four corners. -/
def forma_anel (x y : Nat) : Bool :=
  ((y == 0 || y == 4) && decide (1 ≤ x) && decide (x ≤ 3)) ||
    ((x == 0 || x == 4) && decide (1 ≤ y) && decide (y ≤ 3))

/-! ## Topic categories, as the specification lists them -/

/-- The category of a message kind in the words of the specification: status for the
six status kinds, history for the nine log kinds, heartbeat for the heartbeat kind. -/
def categoria_ref : MQTT_MSG_TYPE → String
  | MSG_STATUS_AGUARDANDO_CARTAO => TOPICO_STATUS
  | MSG_STATUS_CARTAO_LIDO => TOPICO_STATUS
  | MSG_STATUS_AGUARDANDO_SENHA => TOPICO_STATUS
  | MSG_STATUS_SISTEMA_ABERTO => TOPICO_STATUS
  | MSG_STATUS_SISTEMA_FECHADO => TOPICO_STATUS
  | MSG_STATUS_MODO_ADMIN => TOPICO_STATUS
  | MSG_LOG_ACESSO_OK => TOPICO_HISTORICO
  | MSG_LOG_ACESSO_FALHA => TOPICO_HISTORICO
  | MSG_LOG_EVENTO_TIMEOUT_SENHA => TOPICO_HISTORICO
  | MSG_LOG_EVENTO_AUTO_LOCK => TOPICO_HISTORICO
  | MSG_LOG_OPERACAO_CANCELADA => TOPICO_HISTORICO
  | MSG_LOG_ADMIN_INICIADO => TOPICO_HISTORICO
  | MSG_LOG_ADMIN_SENHA_ALTERADA => TOPICO_HISTORICO
  | MSG_LOG_EMERGENCIA_INCENDIO_ON => TOPICO_HISTORICO
  | MSG_LOG_EMERGENCIA_INCENDIO_OFF => TOPICO_HISTORICO
  | MSG_LOG_HEARTBEAT => TOPICO_HEARTBEAT

/-- The opening scenario, the tick at which the auto-lock timer fires, and one more
tick (the Waiting entry tick, which starts the pulse while the closing animation runs). -/
def cenario_trava_automatica : List Entradas :=
  cenario_abertura ++ [entradas_tecla 20006000 NUL, entradas_tecla 20007000 NUL]

/-! ## Coordinates accessed by the drawing and animation functions -/

/-- Writes one color at each coordinate pair of a list, in order, into a zeroed buffer. -/
def desenhar (coords : List (Nat × Nat)) (cor : Nat) : List Nat :=
  coords.foldl (fun b p => b.set (xy_to_index p.1 p.2) cor) buffer_zerado

/-- The pairs passed to `xy_to_index` by `matriz_desenhar_x`: `(i, i)` and `(4 - i, i)`
for `i` from 0 to 4. -/
def coordenadas_x : List (Nat × Nat) :=
  (List.range 5).flatMap (fun i => [(i, i), (4 - i, i)])

/-- The pairs passed to `xy_to_index` by `matriz_desenhar_circulo`: `(x, 0)` and `(x, 4)`
for `x` from 1 to 3, then `(0, y)` and `(4, y)` for `y` from 1 to 3. -/
def coordenadas_circulo : List (Nat × Nat) :=
  [1, 2, 3].flatMap (fun x => [(x, 0), (x, 4)]) ++ [1, 2, 3].flatMap (fun y => [(0, y), (4, y)])

/-- The pairs passed to `xy_to_index` by `matriz_desenhar_exclamacao`. -/
def coordenadas_exclamacao : List (Nat × Nat) := [(2, 0), (2, 1), (2, 2), (2, 4)]

/-- The pair passed to `xy_to_index` by `matriz_desenhar_ponto_central` and by frame 0
of the success animation. -/
def coordenadas_ponto : List (Nat × Nat) := [(2, 2)]

/-- The pairs passed to `xy_to_index` by `matriz_desenhar_digitos`: `(i + 1, 2)` for
`i` below the quantity clamped to 4. -/
def coordenadas_digitos (quantidade : Nat) : List (Nat × Nat) :=
  (List.range (if quantidade > 4 then 4 else quantidade)).map (fun i => (i + 1, 2))

/-- The pairs passed to `xy_to_index` by frame 1 of the success animation. -/
def coordenadas_mais : List (Nat × Nat) := [(2, 1), (1, 2), (3, 2), (2, 3), (2, 2)]

/-- The pairs passed to `xy_to_index` by `matriz_atualizar_animacao_fogo`: for `y` from
0 to 3 and `x` from 0 to 4 the cell read `(x, y + 1)` and the cell written `(x, y)`,
then the base cells `(x, 4)`. -/
def coordenadas_fogo : List (Nat × Nat) :=
  (List.range 4).flatMap (fun y => (List.range 5).flatMap (fun x => [(x, y + 1), (x, y)])) ++
    (List.range 5).map (fun x => (x, 4))

/-! ## Countdown bands, as the specification lists them -/

/-- The three color bands of the countdown. -/
inductive Faixa where
  | verde
  | ambar
  | vermelha
  deriving DecidableEq, Repr

/-- The band of a number of remaining seconds in the words of the specification:
green above 10 s, amber from 6 s to 10 s, red at 5 s and below. -/
def faixa_ref (t : Int) : Faixa :=
  if t > 10 then Faixa.verde else if 6 ≤ t ∧ t ≤ 10 then Faixa.ambar else Faixa.vermelha

/-- The ring color of a band: the arguments of `urgb_u32` in
`matriz_animacao_circulo_tempo_update`. -/
def cor_anel (f : Faixa) : Nat × Nat × Nat :=
  match f with
  | Faixa.verde => (0, 150, 0)
  | Faixa.ambar => (255, 150, 0)
  | Faixa.vermelha => (255, 0, 0)

/-- The solid indicator color of a band: the arguments of `set_rgb_solid` in the
countdown block of the main loop. -/
def cor_led (f : Faixa) : Nat × Nat × Nat :=
  match f with
  | Faixa.verde => (0, PWM_MAX_DUTY, 0)
  | Faixa.ambar => (PWM_MAX_DUTY, 20000, 0)
  | Faixa.vermelha => (PWM_MAX_DUTY, 0, 0)

/-- The arguments of the last `rgb_led_set_color` call of a list of driver calls. -/
def ultima_cor_led (l : List Efeito) : Option (Nat × Nat × Nat) :=
  l.foldl (fun acc ef => match ef with
    | Efeito.rgb_led_set_color r g b => some (r, g, b)
    | _ => acc) none

/-- The red, green and blue bytes of a packed color, as the animation functions unpack
them: `(cor >> 8) & 0xFF`, `(cor >> 16) & 0xFF`, `cor & 0xFF`. -/
def canais (cor : Nat) : Nat × Nat × Nat :=
  ((cor >>> 8) &&& 0xFF, (cor >>> 16) &&& 0xFF, cor &&& 0xFF)

/-- A state in FireEmergency with one lit base cell (column 2, row 4, red 230, green 90)
and the previous fire frame at instant 0. -/
def estado_fogo : Sistema :=
  { estado_emergencia with
    matriz_buffer := buffer_zerado.set (xy_to_index 2 4) (urgb_u32 230 90 0)
    fogo_ultimo_frame_tempo := 0 }

/-! ## Password fields and their well-formedness -/

/-- The typed buffer, the digit count and the three stored passwords. -/
def campos_senha (s : Sistema) :=
  (s.senha_digitada, s.digitos_count, s.SENHA_VERDE, s.SENHA_VERMELHA, s.SENHA_AZUL)

/-- The three stored passwords. -/
def senhas (s : Sistema) := (s.SENHA_VERDE, s.SENHA_VERMELHA, s.SENHA_AZUL)

/-- A stored password is a string of exactly 4 characters with neither `#` nor `*`. -/
def senha_bem_formada (p : List Char) : Prop :=
  (cstr p).length = 4 ∧ '#' ∉ cstr p ∧ '*' ∉ cstr p

/-- The typed buffer is a 5-byte array whose string has as many characters as the digit
count says, at most 4, with neither `#` nor `*`. -/
def buffer_bem_formado (s : Sistema) : Prop :=
  s.senha_digitada.length = 5 ∧ s.digitos_count ≤ 4 ∧
    (cstr s.senha_digitada).length = s.digitos_count ∧
    '#' ∉ cstr s.senha_digitada ∧ '*' ∉ cstr s.senha_digitada

/-- The invariant of the password fields. -/
def InvSenhas (s : Sistema) : Prop :=
  buffer_bem_formado s ∧ senha_bem_formada s.SENHA_VERDE ∧
    senha_bem_formada s.SENHA_VERMELHA ∧ senha_bem_formada s.SENHA_AZUL

/-- How one dispatch of the state machine can change the password fields: not at all,
by clearing the buffer, by the digit branch, or by the admin confirmation. -/
def TransicaoSenha (e : Entradas) (s t : Sistema) : Prop :=
  campos_senha t = campos_senha s ∨
  campos_senha t = campos_senha { s with senha_digitada := senha_vazia, digitos_count := 0 } ∨
  (e.tecla ≠ NUL ∧ e.tecla ≠ '#' ∧ e.tecla ≠ '*' ∧
    campos_senha t = campos_senha (adicionar_digito e.tecla s)) ∨
  (s.modo_atual = MODO_ADMIN_AGUARDANDO_NOVA_SENHA ∧ e.tecla = '#' ∧ s.digitos_count = 4 ∧
    campos_senha t = campos_senha (admin_confirmar s))

/-! ## The open flag and the auto-lock timer -/

/-- The open flag and the auto-lock timer. -/
def campos_abertura (s : Sistema) := (s.status_aberto, s.timer_auto_trava)

/-- The open flag is set exactly in Open mode, and in Open mode the auto-lock timer is
armed for 20 s. -/
def InvAberto (s : Sistema) : Prop :=
  (s.status_aberto = true ↔ s.modo_atual = MODO_ABERTO) ∧
  (s.modo_atual = MODO_ABERTO →
    s.timer_auto_trava.ativo = true ∧ s.timer_auto_trava.duracao_us = 20000000)

/-- How one dispatch of the state machine can change the mode, the open flag and the
auto-lock timer: the mode and both fields kept, the open sequence, the close sequence
from Open, or a change between modes other than Open with the open flag kept. -/
def TransicaoAbertura (e : Entradas) (s t : Sistema) : Prop :=
  (t.modo_atual = s.modo_atual ∧ campos_abertura t = campos_abertura s) ∨
  (t.modo_atual = MODO_ABERTO ∧ t.status_aberto = true ∧
    t.timer_auto_trava = timer_iniciar e.agora 20000000) ∨
  (s.modo_atual = MODO_ABERTO ∧ t.modo_atual = MODO_ESPERA ∧ t.status_aberto = false) ∨
  (s.modo_atual ≠ MODO_ABERTO ∧ t.modo_atual ≠ MODO_ABERTO ∧ t.status_aberto = s.status_aberto)

/-- States the main loop can be in at the top of an iteration when no iteration so far
received a mode-change word. -/
inductive AlcancavelSemComando : Sistema → Prop where
  | inicio : AlcancavelSemComando estado_inicial
  | passo (e : Entradas) (s : Sistema) : AlcancavelSemComando s →
      (∀ pacote, e.fifo = some pacote → comando_do_pacote pacote ≠ FIFO_CMD_MUDAR_ESTADO) →
      AlcancavelSemComando (loop_principal e s)

/-! ## The stored password of a color -/

/-- The stored password the `switch` on the active color selects (none for
`COR_NENHUMA`, rendered as the empty array). -/
def senha_da_cor (s : Sistema) (cor : CorDetectada) : List Char :=
  match cor with
  | COR_VERDE => s.SENHA_VERDE
  | COR_VERMELHA => s.SENHA_VERMELHA
  | COR_AZUL => s.SENHA_AZUL
  | COR_NENHUMA => []

/-- A run that changes the green password to `9999`: the admin mode-change word, a green
card, the keys `9 9 9 9`. The next key `#` commits. -/
def cenario_admin_digitado : List Entradas :=
  [entradas_fifo 1000 (pacote_mudar_estado 3), entradas_cartao_verde 2000,
   entradas_tecla 3000 '9', entradas_tecla 4000 '9', entradas_tecla 5000 '9',
   entradas_tecla 6000 '9']

/-- The run continued: the commit, the 4 s of the success message, a green card and the
keys `9 9 9 9` in AwaitingPassword. The next key `#` confirms. -/
def cenario_nova_senha_digitada : List Entradas :=
  cenario_admin_digitado ++
    [entradas_tecla 7000 '#', entradas_tecla 8000 NUL, entradas_tecla 4008000 NUL,
     entradas_cartao_verde 4009000, entradas_tecla 4010000 '9', entradas_tecla 4011000 '9',
     entradas_tecla 4012000 '9', entradas_tecla 4013000 '9']

/-- A run that reaches AdminAwaitingNewPassword with no card read: the mode-change word
with payload 4 received in the initial state, then the keys `9 9 9 9`. The next key `#`
confirms. -/
def cenario_admin_sem_cartao : List Entradas :=
  [entradas_fifo 1000 (pacote_mudar_estado 4), entradas_tecla 2000 '9',
   entradas_tecla 3000 '9', entradas_tecla 4000 '9', entradas_tecla 5000 '9']

/-! # Theorems -/

/-! ## Trace bookkeeping -/

theorem novos_efeitos_append (s t : Sistema) (l : List Efeito) (h : t.traco = s.traco ++ l) :
    novos_efeitos s t = l := by
  unfold novos_efeitos
  rw [h, List.drop_left]

theorem publicacoes_append (l m : List Efeito) :
    publicacoes (l ++ m) = publicacoes l ++ publicacoes m := by
  simp [publicacoes, List.filterMap_append]

theorem comandos_servo_append (l m : List Efeito) :
    comandos_servo (l ++ m) = comandos_servo l ++ comandos_servo m := by
  simp [comandos_servo, List.filterMap_append]

theorem publicacoes_render (buf : List Nat) :
    publicacoes (buf.map (fun p => Efeito.pio_sm_put_blocking ((p <<< 8) % 2 ^ 32))) = [] := by
  induction buf with
  | nil => rfl
  | cons a l ih => simp [publicacoes]

theorem comandos_servo_render (buf : List Nat) :
    comandos_servo (buf.map (fun p => Efeito.pio_sm_put_blocking ((p <<< 8) % 2 ^ 32))) = [] := by
  induction buf with
  | nil => rfl
  | cons a l ih => simp [comandos_servo]

theorem timer_expirou_false (t : TimerNaoBloqueante) (agora : Nat)
    (h : (timer_expirou t agora).1 = false) : (timer_expirou t agora).2 = t := by
  unfold timer_expirou at h ⊢
  by_cases h1 : (!t.ativo) = true
  · rw [if_pos h1]
  · by_cases h2 : t.duracao_us ≤ (absolute_time_diff_us t.inicio agora % 2 ^ 64).toNat
    · rw [if_neg h1, if_pos h2] at h
      exact absurd h (by simp)
    · rw [if_neg h1, if_neg h2]

theorem novos_efeitos_trans (s t u : Sistema) (h1 : s.traco <+: t.traco)
    (h2 : t.traco <+: u.traco) :
    novos_efeitos s u = novos_efeitos s t ++ novos_efeitos t u := by
  obtain ⟨l, hl⟩ := h1
  obtain ⟨m, hm⟩ := h2
  unfold novos_efeitos
  rw [← hm, ← hl]
  simp [List.append_assoc, List.drop_left]

/-! ## Double-precision products of 16-bit readings -/

theorem bits_descartados_le (k : Nat) : ∀ (p j : Nat), p < 2 ^ (53 + j) → bits_descartados k p ≤ j := by
  induction k with
  | zero => intro p j _; simp [bits_descartados]
  | succ k ih =>
    intro p j h
    unfold bits_descartados
    split
    · exact Nat.zero_le _
    · rename_i hp
      cases j with
      | zero => exact absurd h hp
      | succ j =>
        have h2 : p / 2 < 2 ^ (53 + j) := by
          have : (2:Nat) ^ (53 + (j + 1)) = 2 * 2 ^ (53 + j) := by
            rw [← Nat.add_assoc, Nat.pow_succ, Nat.mul_comm]
          omega
        have := ih (p / 2) j h2
        omega

theorem arredondar_binary64_bounds (p : Nat) (hp : p < 2 ^ 69) :
    ∃ sh, sh ≤ 16 ∧ (p / 2 ^ sh) * 2 ^ sh ≤ arredondar_binary64 p ∧
      arredondar_binary64 p ≤ p + 2 ^ 15 ∧ p ≤ arredondar_binary64 p + 2 ^ 15 := by
  have hsh : bits_descartados p p ≤ 16 := bits_descartados_le p p 16 (by simpa using hp)
  refine ⟨bits_descartados p p, hsh, ?_⟩
  generalize hs : bits_descartados p p = sh at hsh
  have hdm := Nat.div_add_mod p (2 ^ sh)
  have hmod : p % 2 ^ sh < 2 ^ sh := Nat.mod_lt _ (by positivity)
  have hmul : 2 ^ sh * (p / 2 ^ sh) = (p / 2 ^ sh) * 2 ^ sh := Nat.mul_comm _ _
  unfold arredondar_binary64
  simp only [hs]
  by_cases h0 : sh = 0
  · subst h0
    simp
  · have hpow : (2:Nat) ^ sh = 2 * 2 ^ (sh - 1) := by
      obtain ⟨m, rfl⟩ : ∃ m, sh = m + 1 := ⟨sh - 1, by omega⟩
      simp [Nat.pow_succ, Nat.mul_comm]
    have hle : (2:Nat) ^ (sh - 1) ≤ 2 ^ 15 := Nat.pow_le_pow_right (by norm_num) (by omega)
    rw [if_neg h0]
    split
    · rename_i hup
      rw [Nat.add_mul]
      refine ⟨by omega, ?_, by omega⟩
      rcases hup with hup | ⟨hup, _⟩ <;> omega
    · rename_i hdn
      have hr : p % 2 ^ sh ≤ 2 ^ (sh - 1) := by
        by_contra hc
        exact hdn (Or.inl (by omega))
      refine ⟨le_refl _, by omega, by omega⟩

theorem arredondar_binary64_exato (p : Nat) (hp : p < 2 ^ 69) (hd : 2 ^ 16 ∣ p) :
    arredondar_binary64 p = p := by
  have hsh : bits_descartados p p ≤ 16 := bits_descartados_le p p 16 (by simpa using hp)
  generalize hs : bits_descartados p p = sh at hsh
  have hdvd : 2 ^ sh ∣ p := Dvd.dvd.trans (Nat.pow_dvd_pow 2 hsh) hd
  have hmod : p % 2 ^ sh = 0 := Nat.mod_eq_zero_of_dvd hdvd
  unfold arredondar_binary64
  simp only [hs, hmod]
  by_cases h0 : sh = 0
  · simp [h0]
  · have hpos : 0 < 2 ^ (sh - 1) := by positivity
    rw [if_neg h0, if_neg (by omega)]
    exact Nat.div_mul_cancel hdvd

theorem double_gt_mul_1_8 (g x : Nat) (hx : x < 2 ^ 16) :
    double_gt g (double_mul x DOUBLE_1_8) = decide (9 * x < 5 * g) := by
  have hp : x * DOUBLE_1_8 < 2 ^ 69 := by
    unfold DOUBLE_1_8; norm_num at hx ⊢; omega
  obtain ⟨sh, hsh, hfl, hup, hdn⟩ := arredondar_binary64_bounds _ hp
  unfold double_gt double_mul
  rw [decide_eq_decide]
  generalize arredondar_binary64 (x * DOUBLE_1_8) = R at *
  unfold DOUBLE_1_8 at *
  norm_num at hx hup hdn ⊢
  constructor
  · intro h
    by_contra hc
    have hc2 : 5 * g ≤ 9 * x := by omega
    by_cases heq : 5 * g = 9 * x
    · -- the exact product is at least g, and g is representable
      have hge : g * 2 ^ 52 ≤ x * 8106479329266893 := by norm_num; omega
      have h52 : (2:Nat) ^ 52 = 2 ^ (52 - sh) * 2 ^ sh := by
        rw [← Nat.pow_add]; congr 1; omega
      have hq : g * 2 ^ (52 - sh) ≤ x * 8106479329266893 / 2 ^ sh := by
        rw [Nat.le_div_iff_mul_le (by positivity)]
        rw [Nat.mul_assoc, ← h52]; exact hge
      have : g * 2 ^ (52 - sh) * 2 ^ sh ≤ R := le_trans (Nat.mul_le_mul_right _ hq) hfl
      rw [Nat.mul_assoc, ← h52] at this
      norm_num at this
      omega
    · omega
  · intro h
    omega

theorem double_mul_2_0 (x : Nat) (hx : x < 2 ^ 16) : double_mul x DOUBLE_2_0 = x * 2 ^ 53 := by
  unfold double_mul DOUBLE_2_0
  have e : x * (2 * 2 ^ 52) = x * 2 ^ 53 := by ring
  rw [e]
  apply arredondar_binary64_exato
  · norm_num at hx ⊢; omega
  · exact Dvd.dvd.mul_left (Nat.pow_dvd_pow 2 (by norm_num)) x

theorem double_mul_1_5 (x : Nat) (hx : x < 2 ^ 16) : double_mul x DOUBLE_1_5 = x * 3 * 2 ^ 51 := by
  unfold double_mul DOUBLE_1_5
  rw [← Nat.mul_assoc]
  apply arredondar_binary64_exato
  · norm_num at hx ⊢; omega
  · exact Dvd.dvd.mul_left (Nat.pow_dvd_pow 2 (by norm_num)) _

theorem double_gt_mul_2_0 (g x : Nat) (hx : x < 2 ^ 16) :
    double_gt g (double_mul x DOUBLE_2_0) = decide (2 * x < g) := by
  rw [double_mul_2_0 x hx]
  unfold double_gt
  rw [decide_eq_decide]
  norm_num
  omega

theorem double_gt_mul_1_5 (g x : Nat) (hx : x < 2 ^ 16) :
    double_gt g (double_mul x DOUBLE_1_5) = decide (3 * x < 2 * g) := by
  rw [double_mul_1_5 x hx]
  unfold double_gt
  rw [decide_eq_decide]
  norm_num
  omega


/-! ## Card classifier -/

theorem teste_verde_exato (c : tcs34725_color_data_t) (hr : c.red < 2 ^ 16)
    (hb : c.blue < 2 ^ 16) :
    teste_verde c = (decide (9 * c.red < 5 * c.green) && decide (9 * c.blue < 5 * c.green)) := by
  unfold teste_verde
  rw [double_gt_mul_1_8 _ _ hr, double_gt_mul_1_8 _ _ hb]

theorem teste_vermelho_exato (c : tcs34725_color_data_t) (hg : c.green < 2 ^ 16)
    (hb : c.blue < 2 ^ 16) :
    teste_vermelho c = (decide (2 * c.green < c.red) && decide (2 * c.blue < c.red)) := by
  unfold teste_vermelho
  rw [double_gt_mul_2_0 _ _ hg, double_gt_mul_2_0 _ _ hb]

theorem teste_azul_exato (c : tcs34725_color_data_t) (hr : c.red < 2 ^ 16)
    (hg : c.green < 2 ^ 16) :
    teste_azul c = (decide (3 * c.green < 2 * c.blue) && decide (2 * c.red < c.blue)) := by
  unfold teste_azul
  rw [double_gt_mul_1_5 _ _ hg, double_gt_mul_2_0 _ _ hr]

/-- C4: for all 16-bit readings `detectar_cor_cartao`, which computes the ratio tests in
binary64 arithmetic, equals the reference classifier in exact arithmetic (None when
clear < 70, else Green if 5 green > 9 red and 5 green > 9 blue, else Red if
red > 2 green and red > 2 blue, else Blue if 2 blue > 3 green and blue > 2 red, else
None); clear = 69 gives None whatever the other channels are, and with clear at least 70
the readings (green 100, red 10, blue 10), (red 100, green 10, blue 10),
(blue 100, green 10, red 40) and (red 100, green 60, blue 60) give Green, Red, Blue and
None. -/
theorem C4_classificador_exato (c : tcs34725_color_data_t)
    (hr : c.red < 2 ^ 16) (hg : c.green < 2 ^ 16) (hb : c.blue < 2 ^ 16) :
    detectar_cor_cartao c = detectar_cor_cartao_ref c ∧
    detectar_cor_cartao { c with clear := 69 } = COR_NENHUMA ∧
    detectar_cor_cartao { clear := 70, red := 10, green := 100, blue := 10 } = COR_VERDE ∧
    (70 ≤ c.clear →
      detectar_cor_cartao { clear := c.clear, red := 10, green := 100, blue := 10 } = COR_VERDE ∧
      detectar_cor_cartao { clear := c.clear, red := 100, green := 10, blue := 10 }
        = COR_VERMELHA ∧
      detectar_cor_cartao { clear := c.clear, red := 40, green := 10, blue := 100 } = COR_AZUL ∧
      detectar_cor_cartao { clear := c.clear, red := 100, green := 60, blue := 60 }
        = COR_NENHUMA) := by
  have key : ∀ d : tcs34725_color_data_t, d.red < 2 ^ 16 → d.green < 2 ^ 16 → d.blue < 2 ^ 16 →
      detectar_cor_cartao d = detectar_cor_cartao_ref d := by
    intro d hr hg hb
    unfold detectar_cor_cartao detectar_cor_cartao_ref CLEAR_THRESHOLD
    rw [teste_verde_exato d hr hb, teste_vermelho_exato d hg hb, teste_azul_exato d hr hg]
    simp only [Bool.and_eq_true, decide_eq_true_eq, gt_iff_lt]
  refine ⟨key c hr hg hb, ?_, by decide, ?_⟩
  · simp [detectar_cor_cartao, CLEAR_THRESHOLD]
  · intro hcl
    have hn : ¬ c.clear < 70 := by omega
    refine ⟨?_, ?_, ?_, ?_⟩ <;>
    · rw [key _ (by norm_num) (by norm_num) (by norm_num)]
      simp [detectar_cor_cartao_ref, hn]

/-- C5 (negation of the claim as stated): no 16-bit reading with clear at least 70
passes the green ratio test together with the red or the blue ratio test. -/
theorem C5_nenhuma_leitura_ambigua :
    ¬ ∃ c : tcs34725_color_data_t, c.red < 2 ^ 16 ∧ c.green < 2 ^ 16 ∧ c.blue < 2 ^ 16 ∧
      70 ≤ c.clear ∧ teste_verde c = true ∧ (teste_vermelho c = true ∨ teste_azul c = true) := by
  rintro ⟨c, hr, hg, hb, _, hv, h⟩
  rw [teste_verde_exato c hr hb] at hv
  rw [teste_vermelho_exato c hg hb, teste_azul_exato c hr hg] at h
  simp only [Bool.and_eq_true, decide_eq_true_eq] at hv h
  omega

/-- C5 (amended): for every 16-bit reading at most one of the three ratio tests holds,
so with clear at least 70 the verdict is Green exactly when the green test holds, Red
exactly when the red test holds and Blue exactly when the blue test holds, whatever the
order in which the tests are tried. -/
theorem C5_testes_exclusivos (c : tcs34725_color_data_t)
    (hr : c.red < 2 ^ 16) (hg : c.green < 2 ^ 16) (hb : c.blue < 2 ^ 16) :
    ¬ (teste_verde c = true ∧ teste_vermelho c = true) ∧
    ¬ (teste_verde c = true ∧ teste_azul c = true) ∧
    ¬ (teste_vermelho c = true ∧ teste_azul c = true) ∧
    (70 ≤ c.clear →
      (detectar_cor_cartao c = COR_VERDE ↔ teste_verde c = true) ∧
      (detectar_cor_cartao c = COR_VERMELHA ↔ teste_vermelho c = true) ∧
      (detectar_cor_cartao c = COR_AZUL ↔ teste_azul c = true)) := by
  have e1 := teste_verde_exato c hr hb
  have e2 := teste_vermelho_exato c hg hb
  have e3 := teste_azul_exato c hr hg
  have x12 : ¬ (teste_verde c = true ∧ teste_vermelho c = true) := by
    rw [e1, e2]; simp only [Bool.and_eq_true, decide_eq_true_eq]; omega
  have x13 : ¬ (teste_verde c = true ∧ teste_azul c = true) := by
    rw [e1, e3]; simp only [Bool.and_eq_true, decide_eq_true_eq]; omega
  have x23 : ¬ (teste_vermelho c = true ∧ teste_azul c = true) := by
    rw [e2, e3]; simp only [Bool.and_eq_true, decide_eq_true_eq]; omega
  refine ⟨x12, x13, x23, ?_⟩
  intro hcl
  have hn : ¬ c.clear < CLEAR_THRESHOLD := by unfold CLEAR_THRESHOLD; omega
  unfold detectar_cor_cartao
  rw [if_neg hn]
  cases hv : teste_verde c <;> cases hm : teste_vermelho c <;> cases ha : teste_azul c <;>
    simp_all

/-! ## AwaitingPassword handler -/

theorem aguarda_senha_prologo_campos (e : Entradas) (s : Sistema) :
    (aguarda_senha_display e (aguarda_senha_inicializacao s)).cor_ativa = s.cor_ativa ∧
    (aguarda_senha_display e (aguarda_senha_inicializacao s)).senha_digitada = s.senha_digitada ∧
    (aguarda_senha_display e (aguarda_senha_inicializacao s)).SENHA_VERDE = s.SENHA_VERDE ∧
    (aguarda_senha_display e (aguarda_senha_inicializacao s)).SENHA_VERMELHA = s.SENHA_VERMELHA ∧
    (aguarda_senha_display e (aguarda_senha_inicializacao s)).SENHA_AZUL = s.SENHA_AZUL ∧
    (aguarda_senha_display e (aguarda_senha_inicializacao s)).timer_timeout_senha
      = s.timer_timeout_senha ∧
    (aguarda_senha_display e (aguarda_senha_inicializacao s)).status_aberto = s.status_aberto ∧
    (aguarda_senha_display e (aguarda_senha_inicializacao s)).digitos_count = s.digitos_count ∧
    (aguarda_senha_display e (aguarda_senha_inicializacao s)).modo_atual = s.modo_atual := by
  simp only [aguarda_senha_display, aguarda_senha_inicializacao, display_deve_atualizar,
    solicitar_publicacao_mqtt, set_rgb_solid, led_parar_pulso, emitir]
  split <;> split <;> simp

/-- The driver calls of the prologue of `handle_modo_aguarda_senha`: no servo command,
and a publish request only on the entry tick. -/
theorem aguarda_senha_prologo_traco (e : Entradas) (s : Sistema) :
    s.traco <+: (aguarda_senha_display e (aguarda_senha_inicializacao s)).traco ∧
    comandos_servo (novos_efeitos s (aguarda_senha_display e (aguarda_senha_inicializacao s))) = [] ∧
    publicacoes (novos_efeitos s (aguarda_senha_display e (aguarda_senha_inicializacao s))) =
      if s.modo_foi_inicializado then [] else [pedido MSG_STATUS_AGUARDANDO_SENHA s.cor_ativa] := by
  simp only [aguarda_senha_display, aguarda_senha_inicializacao, display_deve_atualizar,
    solicitar_publicacao_mqtt, set_rgb_solid, led_parar_pulso, emitir, novos_efeitos]
  by_cases hi : s.modo_foi_inicializado = true
  · simp only [hi, Bool.not_true, Bool.false_eq_true, if_false]
    split <;> simp [comandos_servo, publicacoes]
  · simp only [Bool.not_eq_true] at hi
    simp only [hi, Bool.not_false, if_true]
    split <;> simp [comandos_servo, publicacoes, pedido]

theorem handle_modo_aguarda_senha_sem_timeout (e : Entradas) (s : Sistema)
    (htimer : (timer_expirou s.timer_timeout_senha e.agora).1 = false) :
    handle_modo_aguarda_senha e s =
      aguarda_senha_teclado e (aguarda_senha_display e (aguarda_senha_inicializacao s)) := by
  have hc := (aguarda_senha_prologo_campos e s).2.2.2.2.2.1
  unfold handle_modo_aguarda_senha
  simp only [hc, htimer, timer_expirou_false _ _ htimer]
  rw [← hc]
  rfl

theorem senha_valida_iff (s : Sistema) :
    senha_valida s = true ↔
      ((s.cor_ativa = COR_VERDE ∧ cstr s.senha_digitada = cstr s.SENHA_VERDE) ∨
       (s.cor_ativa = COR_VERMELHA ∧ cstr s.senha_digitada = cstr s.SENHA_VERMELHA) ∨
       (s.cor_ativa = COR_AZUL ∧ cstr s.senha_digitada = cstr s.SENHA_AZUL)) := by
  unfold senha_valida strcmp_igual
  cases s.cor_ativa <;> simp

theorem senha_valida_congr (s t : Sistema) (hc : t.cor_ativa = s.cor_ativa)
    (hb : t.senha_digitada = s.senha_digitada) (h1 : t.SENHA_VERDE = s.SENHA_VERDE)
    (h2 : t.SENHA_VERMELHA = s.SENHA_VERMELHA) (h3 : t.SENHA_AZUL = s.SENHA_AZUL) :
    senha_valida t = senha_valida s := by
  unfold senha_valida
  rw [hc, hb, h1, h2, h3]

/-- With the password timer not expired and key `#`, the handler either runs the open
sequence or takes the wrong-password branch, as `senha_valida` decides. -/
theorem handle_modo_aguarda_senha_cerquilha (e : Entradas) (s : Sistema)
    (htimer : (timer_expirou s.timer_timeout_senha e.agora).1 = false)
    (htecla : e.tecla = '#') :
    handle_modo_aguarda_senha e s =
      if senha_valida s then
        acionar_abertura e (emitir (Efeito.buzzer_play_tone 1500 50)
          (aguarda_senha_display e (aguarda_senha_inicializacao s)))
      else
        aguarda_senha_negado (emitir (Efeito.buzzer_play_tone 1500 50)
          (aguarda_senha_display e (aguarda_senha_inicializacao s))) := by
  rw [handle_modo_aguarda_senha_sem_timeout e s htimer]
  obtain ⟨hc, hb, h1, h2, h3, _, _, _, _⟩ := aguarda_senha_prologo_campos e s
  generalize aguarda_senha_display e (aguarda_senha_inicializacao s) = p at *
  have hnul : ¬ ('#' : Char) = NUL := by decide
  have hv : senha_valida (emitir (Efeito.buzzer_play_tone 1500 50) p) = senha_valida s :=
    senha_valida_congr _ _ hc hb h1 h2 h3
  unfold aguarda_senha_teclado
  simp only [htecla, ne_eq, hnul, not_false_eq_true, if_true, hv]

theorem maquina_estados_aguarda_senha (e : Entradas) (s : Sistema)
    (hmodo : s.modo_atual = MODO_AGUARDA_SENHA) :
    maquina_estados e s = handle_modo_aguarda_senha e s := by
  simp [maquina_estados, hmodo]

/-- Fields and driver calls of the open sequence. -/
theorem acionar_abertura_efeito (e : Entradas) (p : Sistema) :
    (acionar_abertura e p).modo_atual = MODO_ABERTO ∧
    (acionar_abertura e p).modo_foi_inicializado = false ∧
    (acionar_abertura e p).status_aberto = true ∧
    (acionar_abertura e p).timer_servo = timer_iniciar e.agora 500000 ∧
    (acionar_abertura e p).timer_auto_trava = timer_iniciar e.agora 20000000 ∧
    p.traco <+: (acionar_abertura e p).traco ∧
    comandos_servo (novos_efeitos p (acionar_abertura e p)) = [150] ∧
    publicacoes (novos_efeitos p (acionar_abertura e p)) =
      [pedido MSG_STATUS_SISTEMA_ABERTO COR_NENHUMA, pedido MSG_LOG_ACESSO_OK p.cor_ativa] := by
  simp [acionar_abertura, feedback_tocar_sucesso, solicitar_publicacao_mqtt, set_rgb_solid,
    led_parar_pulso, emitir, matriz_limpar, matriz_renderizar, novos_efeitos,
    comandos_servo_append, publicacoes_append, comandos_servo_render, publicacoes_render,
    SERVO_MOVE_DURATION_US, TEMPO_AUTO_TRAVA_S, pedido]
  constructor <;> simp [comandos_servo, publicacoes]

/-- C1: in AwaitingPassword with the password timer not expired, a tick with key `#`
runs the open sequence exactly when the active color is Green, Red or Blue and the typed
buffer equals (as a C string) the stored password of that color; otherwise the mode
becomes MsgAccessDenied with the error animation on and the typing indicator off, an
access-failure publish request with the active color is pushed, no servo command is
issued and the open flag keeps its value. -/
theorem C1_confirmacao_de_senha (e : Entradas) (s : Sistema)
    (hmodo : s.modo_atual = MODO_AGUARDA_SENHA)
    (htimer : (timer_expirou s.timer_timeout_senha e.agora).1 = false)
    (htecla : e.tecla = '#') :
    (maquina_estados e s =
        acionar_abertura e (emitir (Efeito.buzzer_play_tone 1500 50)
          (aguarda_senha_display e (aguarda_senha_inicializacao s))) ↔
      ((s.cor_ativa = COR_VERDE ∧ cstr s.senha_digitada = cstr s.SENHA_VERDE) ∨
       (s.cor_ativa = COR_VERMELHA ∧ cstr s.senha_digitada = cstr s.SENHA_VERMELHA) ∨
       (s.cor_ativa = COR_AZUL ∧ cstr s.senha_digitada = cstr s.SENHA_AZUL))) ∧
    (¬ ((s.cor_ativa = COR_VERDE ∧ cstr s.senha_digitada = cstr s.SENHA_VERDE) ∨
        (s.cor_ativa = COR_VERMELHA ∧ cstr s.senha_digitada = cstr s.SENHA_VERMELHA) ∨
        (s.cor_ativa = COR_AZUL ∧ cstr s.senha_digitada = cstr s.SENHA_AZUL)) →
      (maquina_estados e s).modo_atual = MODO_MSG_ACESSO_NEGADO ∧
      (maquina_estados e s).animacao_erro_ativa = true ∧
      (maquina_estados e s).animacao_digitacao_ativa = false ∧
      pedido MSG_LOG_ACESSO_FALHA s.cor_ativa
        ∈ publicacoes (novos_efeitos s (maquina_estados e s)) ∧
      comandos_servo (novos_efeitos s (maquina_estados e s)) = [] ∧
      (maquina_estados e s).status_aberto = s.status_aberto) := by
  rw [maquina_estados_aguarda_senha e s hmodo, handle_modo_aguarda_senha_cerquilha e s htimer htecla]
  obtain ⟨hc, _, _, _, _, _, hst, _, _⟩ := aguarda_senha_prologo_campos e s
  obtain ⟨hpre, hservo, _⟩ := aguarda_senha_prologo_traco e s
  generalize aguarda_senha_display e (aguarda_senha_inicializacao s) = p at *
  rw [← senha_valida_iff]
  have hneg : novos_efeitos s (aguarda_senha_negado (emitir (Efeito.buzzer_play_tone 1500 50) p))
      = novos_efeitos s p ++ novos_efeitos p
          (aguarda_senha_negado (emitir (Efeito.buzzer_play_tone 1500 50) p)) := by
    apply novos_efeitos_trans _ _ _ hpre
    simp [aguarda_senha_negado, feedback_tocar_erro, solicitar_publicacao_mqtt, set_rgb_solid,
      led_parar_pulso, emitir]
  constructor
  · constructor
    · intro h
      by_contra hne
      simp only [hne, Bool.false_eq_true, if_false] at h
      have := congrArg (fun t => t.modo_atual) h
      simp [aguarda_senha_negado, acionar_abertura, feedback_tocar_erro, feedback_tocar_sucesso,
        solicitar_publicacao_mqtt, set_rgb_solid, led_parar_pulso, emitir, matriz_limpar,
        matriz_renderizar] at this
    · intro h
      simp [h]
  · intro h
    simp only [h, Bool.false_eq_true, if_false]
    rw [hneg, publicacoes_append, comandos_servo_append, hservo]
    refine ⟨?_, ?_, ?_, ?_, ?_, ?_⟩
    · simp [aguarda_senha_negado]
    · simp [aguarda_senha_negado]
    · simp [aguarda_senha_negado]
    · apply List.mem_append_right
      simp [aguarda_senha_negado, feedback_tocar_erro, solicitar_publicacao_mqtt, set_rgb_solid,
        led_parar_pulso, emitir, novos_efeitos, publicacoes, pedido, hc]
    · simp [aguarda_senha_negado, feedback_tocar_erro, solicitar_publicacao_mqtt, set_rgb_solid,
        led_parar_pulso, emitir, novos_efeitos, comandos_servo]
    · simp [aguarda_senha_negado, feedback_tocar_erro, solicitar_publicacao_mqtt, set_rgb_solid,
        led_parar_pulso, emitir, hst]

/-- C2: in AwaitingPassword with active color Green, typed buffer "1337", stored green
password "1337" and the password timer not expired, a tick with key `#` ends in mode Open
with the initialised flag false and the open flag set; the servo is commanded once, to
150 degrees; the servo timer is armed for 500000 us and the auto-lock timer for
20000000 us; the publish requests of the tick are the entry request (only when the tick
is the entry tick) followed by system-open with color None and access-ok with color
Green, which are the two requests of the open sequence. -/
theorem C2_abertura_com_senha_verde (e : Entradas) (s : Sistema)
    (hmodo : s.modo_atual = MODO_AGUARDA_SENHA)
    (hcor : s.cor_ativa = COR_VERDE)
    (hbuf : cstr s.senha_digitada = ['1', '3', '3', '7'])
    (hsenha : cstr s.SENHA_VERDE = ['1', '3', '3', '7'])
    (htimer : (timer_expirou s.timer_timeout_senha e.agora).1 = false)
    (htecla : e.tecla = '#') :
    (maquina_estados e s).modo_atual = MODO_ABERTO ∧
    (maquina_estados e s).modo_foi_inicializado = false ∧
    (maquina_estados e s).status_aberto = true ∧
    comandos_servo (novos_efeitos s (maquina_estados e s)) = [150] ∧
    (maquina_estados e s).timer_servo = { ativo := true, inicio := e.agora, duracao_us := 500000 } ∧
    (maquina_estados e s).timer_auto_trava =
      { ativo := true, inicio := e.agora, duracao_us := 20000000 } ∧
    publicacoes (novos_efeitos s (maquina_estados e s)) =
      (if s.modo_foi_inicializado then [] else [pedido MSG_STATUS_AGUARDANDO_SENHA COR_VERDE]) ++
      [pedido MSG_STATUS_SISTEMA_ABERTO COR_NENHUMA, pedido MSG_LOG_ACESSO_OK COR_VERDE] ∧
    publicacoes (novos_efeitos
        (emitir (Efeito.buzzer_play_tone 1500 50)
          (aguarda_senha_display e (aguarda_senha_inicializacao s)))
        (maquina_estados e s)) =
      [pedido MSG_STATUS_SISTEMA_ABERTO COR_NENHUMA, pedido MSG_LOG_ACESSO_OK COR_VERDE] := by
  have hv : senha_valida s = true := by
    rw [senha_valida_iff]
    exact Or.inl ⟨hcor, by rw [hbuf, hsenha]⟩
  rw [maquina_estados_aguarda_senha e s hmodo,
    handle_modo_aguarda_senha_cerquilha e s htimer htecla]
  simp only [hv, if_true]
  obtain ⟨hc, _, _, _, _, _, _, _, _⟩ := aguarda_senha_prologo_campos e s
  obtain ⟨hpre, hservo, hpub⟩ := aguarda_senha_prologo_traco e s
  generalize aguarda_senha_display e (aguarda_senha_inicializacao s) = p at *
  obtain ⟨a1, a2, a3, a4, a5, a6, a7, a8⟩ :=
    acionar_abertura_efeito e (emitir (Efeito.buzzer_play_tone 1500 50) p)
  have hpre2 : p.traco <+: (emitir (Efeito.buzzer_play_tone 1500 50) p).traco := by
    simp [emitir]
  have hb : novos_efeitos p (emitir (Efeito.buzzer_play_tone 1500 50) p)
      = [Efeito.buzzer_play_tone 1500 50] := by
    simp [novos_efeitos, emitir]
  have hcor2 : (emitir (Efeito.buzzer_play_tone 1500 50) p).cor_ativa = COR_VERDE := by
    simp [emitir, hc, hcor]
  rw [hcor2] at a8
  have htr : novos_efeitos s (acionar_abertura e (emitir (Efeito.buzzer_play_tone 1500 50) p))
      = novos_efeitos s p ++ ([Efeito.buzzer_play_tone 1500 50] ++
          novos_efeitos (emitir (Efeito.buzzer_play_tone 1500 50) p)
            (acionar_abertura e (emitir (Efeito.buzzer_play_tone 1500 50) p))) := by
    rw [novos_efeitos_trans s p _ hpre (List.IsPrefix.trans hpre2 a6),
      novos_efeitos_trans p _ _ hpre2 a6, hb]
  refine ⟨a1, a2, a3, ?_, a4, a5, ?_, a8⟩
  · rw [htr, comandos_servo_append, comandos_servo_append, hservo, a7]
    simp [comandos_servo]
  · rw [htr, publicacoes_append, publicacoes_append, hpub, a8, hcor]
    simp [publicacoes]

/-! ## Waiting handler -/

theorem maquina_estados_espera (e : Entradas) (s : Sistema) (hmodo : s.modo_atual = MODO_ESPERA) :
    maquina_estados e s = handle_modo_espera e s := by
  simp [maquina_estados, hmodo]

/-- The driver calls of the first two blocks of `handle_modo_espera`. -/
theorem espera_prologo_traco (e : Entradas) (s : Sistema) :
    s.traco <+: (espera_display e (espera_inicializacao e s)).traco ∧
    comandos_servo (novos_efeitos s (espera_display e (espera_inicializacao e s))) = [] ∧
    publicacoes (novos_efeitos s (espera_display e (espera_inicializacao e s))) =
      if s.modo_foi_inicializado then [] else [pedido MSG_STATUS_AGUARDANDO_CARTAO COR_NENHUMA] := by
  simp only [espera_display, espera_inicializacao, display_deve_atualizar,
    solicitar_publicacao_mqtt, start_rgb_pulse_and_matrix_center, led_iniciar_pulso,
    matriz_limpar, matriz_renderizar, emitir, novos_efeitos]
  by_cases hi : s.modo_foi_inicializado = true
  · simp only [hi, Bool.not_true, Bool.false_eq_true, if_false]
    split <;> simp [comandos_servo, publicacoes]
  · simp only [Bool.not_eq_true] at hi
    simp only [hi, Bool.not_false, if_true]
    split <;> simp [comandos_servo_append, publicacoes_append, comandos_servo_render,
      publicacoes_render, pedido] <;> simp [comandos_servo, publicacoes]

/-- C3: in Waiting mode, when the classifier maps the sensor reading to a color other
than None, one tick ends in AwaitingPassword with the initialised flag false, the active
color equal to the verdict, the password buffer zeroed with digit count 0, the password
timer armed for 15000000 us, and the publish requests of the tick are the entry request
(only on the entry tick) followed by card-read carrying the verdict. -/
theorem C3_cartao_detectado (e : Entradas) (s : Sistema)
    (hmodo : s.modo_atual = MODO_ESPERA)
    (hcor : detectar_cor_cartao e.colors ≠ COR_NENHUMA) :
    (maquina_estados e s).modo_atual = MODO_AGUARDA_SENHA ∧
    (maquina_estados e s).modo_foi_inicializado = false ∧
    (maquina_estados e s).cor_ativa = detectar_cor_cartao e.colors ∧
    (maquina_estados e s).senha_digitada = [NUL, NUL, NUL, NUL, NUL] ∧
    cstr (maquina_estados e s).senha_digitada = [] ∧
    (maquina_estados e s).digitos_count = 0 ∧
    (maquina_estados e s).timer_timeout_senha =
      { ativo := true, inicio := e.agora, duracao_us := 15000000 } ∧
    publicacoes (novos_efeitos s (maquina_estados e s)) =
      (if s.modo_foi_inicializado then [] else [pedido MSG_STATUS_AGUARDANDO_CARTAO COR_NENHUMA])
        ++ [pedido MSG_STATUS_CARTAO_LIDO (detectar_cor_cartao e.colors)] := by
  rw [maquina_estados_espera e s hmodo]
  unfold handle_modo_espera
  obtain ⟨hpre, _, hpub⟩ := espera_prologo_traco e s
  generalize espera_display e (espera_inicializacao e s) = p at *
  have hpre2 : p.traco <+: (espera_sensor e p).traco := by
    simp [espera_sensor, hcor, solicitar_publicacao_mqtt, emitir]
  rw [novos_efeitos_trans s p _ hpre hpre2, publicacoes_append, hpub]
  refine ⟨?_, ?_, ?_, ?_, ?_, ?_, ?_, ?_⟩
  · simp [espera_sensor, hcor, solicitar_publicacao_mqtt, emitir]
  · simp [espera_sensor, hcor, solicitar_publicacao_mqtt, emitir]
  · simp [espera_sensor, hcor, solicitar_publicacao_mqtt, emitir]
  · simp [espera_sensor, hcor, solicitar_publicacao_mqtt, emitir, senha_vazia]
  · simp [espera_sensor, hcor, solicitar_publicacao_mqtt, emitir, senha_vazia, cstr]
  · simp [espera_sensor, hcor, solicitar_publicacao_mqtt, emitir]
  · simp [espera_sensor, hcor, solicitar_publicacao_mqtt, emitir, timer_iniciar, TIMEOUT_SENHA_S]
  · simp [espera_sensor, hcor, solicitar_publicacao_mqtt, emitir, novos_efeitos, publicacoes,
      pedido]

/-! ## Frame lemmas: what the animation and timer blocks leave alone -/

theorem controle_matriz_renderizar (s : Sistema) : controle (matriz_renderizar s) = controle s := rfl

theorem controle_emitir (ef : Efeito) (s : Sistema) : controle (emitir ef s) = controle s := rfl

theorem controle_matriz_limpar (s : Sistema) : controle (matriz_limpar s) = controle s := rfl

theorem controle_matriz_desenhar_x (s : Sistema) : controle (matriz_desenhar_x s) = controle s := rfl

theorem controle_matriz_desenhar_circulo (r g b : Nat) (s : Sistema) :
    controle (matriz_desenhar_circulo r g b s) = controle s := rfl

theorem controle_matriz_desenhar_exclamacao (s : Sistema) :
    controle (matriz_desenhar_exclamacao s) = controle s := rfl

theorem controle_set_rgb_solid (r g b : Nat) (s : Sistema) :
    controle (set_rgb_solid r g b s) = controle s := rfl

theorem controle_animar_erro (e : Entradas) (s : Sistema) :
    controle (animar_erro e s) = controle s := by
  unfold animar_erro feedback_visual_erro_update
  try dsimp only
  split_ifs <;> rfl

theorem controle_animar_timeout (e : Entradas) (s : Sistema) :
    controle (animar_timeout e s) = controle s := by
  unfold animar_timeout feedback_visual_timeout_update
  try dsimp only
  split_ifs <;> rfl

theorem controle_animar_fechando (e : Entradas) (s : Sistema) :
    controle (animar_fechando e s) = controle s := by
  unfold animar_fechando feedback_visual_fechando_update
  try dsimp only
  split_ifs <;> rfl

theorem controle_animar_sucesso (e : Entradas) (s : Sistema) :
    controle (animar_sucesso e s) = controle s := by
  unfold animar_sucesso matriz_animacao_sucesso_update
  try dsimp only
  split_ifs <;> rfl

theorem controle_animar_digitacao (s : Sistema) :
    controle (animar_digitacao s) = controle s := by
  unfold animar_digitacao
  try dsimp only
  split_ifs <;> rfl

theorem controle_animar_circulo_tempo (e : Entradas) (s : Sistema) :
    controle (animar_circulo_tempo e s) = controle s := by
  unfold animar_circulo_tempo matriz_animacao_circulo_tempo_update
  try dsimp only
  split_ifs <;> rfl

theorem controle_animar_fogo (e : Entradas) (s : Sistema) :
    controle (animar_fogo e s) = controle s := by
  unfold animar_fogo matriz_atualizar_animacao_fogo
  try dsimp only
  split_ifs <;> rfl

theorem controle_atualizar_animacoes (e : Entradas) (s : Sistema) :
    controle (atualizar_animacoes e s) = controle s := by
  unfold atualizar_animacoes
  rw [controle_animar_fogo, controle_animar_circulo_tempo, controle_animar_digitacao,
    controle_animar_sucesso, controle_animar_fechando, controle_animar_timeout,
    controle_animar_erro]

theorem controle_atualizar_pulso (e : Entradas) (s : Sistema) :
    controle (atualizar_pulso e s) = controle s := by
  unfold atualizar_pulso
  try dsimp only
  split_ifs <;> rfl

theorem controle_timers_globais (e : Entradas) (s : Sistema) :
    controle (timers_globais e s) = controle s := by
  unfold timers_globais
  try dsimp only
  split_ifs <;> rfl

/-- After the remote-command check and the `switch`, the rest of a loop iteration leaves
the control fields alone. -/
theorem controle_loop_principal (e : Entradas) (s : Sistema) :
    controle (loop_principal e s) = controle (maquina_estados e (verificar_fifo e s)) := by
  unfold loop_principal
  rw [controle_timers_globais, controle_atualizar_pulso, controle_atualizar_animacoes]

/-! ## The initialised flag and the digit count under each handler -/

theorem handle_modo_espera_resumo (e : Entradas) (s : Sistema) :
    ((handle_modo_espera e s).modo_atual = s.modo_atual ∧
      (handle_modo_espera e s).modo_foi_inicializado = true ∧
      (handle_modo_espera e s).digitos_count = s.digitos_count) ∨
    ((handle_modo_espera e s).modo_atual = MODO_AGUARDA_SENHA ∧
      (handle_modo_espera e s).modo_foi_inicializado = false ∧
      (handle_modo_espera e s).digitos_count = 0) := by
  simp only [handle_modo_espera, espera_sensor, espera_display, espera_inicializacao,
    display_deve_atualizar, solicitar_publicacao_mqtt, start_rgb_pulse_and_matrix_center,
    led_iniciar_pulso, matriz_limpar, matriz_renderizar, emitir]
  split_ifs <;> simp_all

theorem adicionar_digito_resumo (tecla : Char) (s : Sistema) :
    (adicionar_digito tecla s).modo_atual = s.modo_atual ∧
    (adicionar_digito tecla s).modo_foi_inicializado = s.modo_foi_inicializado ∧
    (s.digitos_count ≤ 4 → (adicionar_digito tecla s).digitos_count ≤ 4) := by
  unfold adicionar_digito
  split_ifs
  · simp; omega
  · simp

theorem acionar_abertura_resumo (e : Entradas) (s : Sistema) :
    (acionar_abertura e s).modo_atual = MODO_ABERTO ∧
    (acionar_abertura e s).modo_foi_inicializado = false ∧
    (acionar_abertura e s).digitos_count = s.digitos_count := by
  simp [acionar_abertura, feedback_tocar_sucesso, solicitar_publicacao_mqtt, set_rgb_solid,
    led_parar_pulso, emitir, matriz_limpar, matriz_renderizar]

theorem acionar_fechamento_resumo (e : Entradas) (s : Sistema) :
    (acionar_fechamento e s).modo_atual = MODO_ESPERA ∧
    (acionar_fechamento e s).modo_foi_inicializado = false ∧
    (acionar_fechamento e s).digitos_count = s.digitos_count := by
  simp [acionar_fechamento, solicitar_publicacao_mqtt, set_rgb_solid, led_parar_pulso, emitir]

theorem reset_visual_state_resumo (s : Sistema) :
    controle (reset_visual_state s) = controle s := rfl

theorem desativar_modo_emergencia_resumo (e : Entradas) (s : Sistema) :
    (desativar_modo_emergencia e s).modo_atual = MODO_ESPERA ∧
    (desativar_modo_emergencia e s).modo_foi_inicializado = false ∧
    (desativar_modo_emergencia e s).digitos_count = s.digitos_count := by
  refine ⟨rfl, rfl, ?_⟩
  unfold desativar_modo_emergencia
  simp only []
  rw [(acionar_fechamento_resumo e _).2.2]
  rfl

theorem aguarda_senha_negado_resumo (s : Sistema) :
    (aguarda_senha_negado s).modo_atual = MODO_MSG_ACESSO_NEGADO ∧
    (aguarda_senha_negado s).modo_foi_inicializado = false ∧
    (aguarda_senha_negado s).digitos_count = s.digitos_count := ⟨rfl, rfl, rfl⟩

theorem aguarda_senha_timeout_resumo (s : Sistema) :
    (aguarda_senha_timeout s).modo_atual = MODO_MSG_TIMEOUT ∧
    (aguarda_senha_timeout s).modo_foi_inicializado = false ∧
    (aguarda_senha_timeout s).digitos_count = s.digitos_count := ⟨rfl, rfl, rfl⟩

theorem aguarda_senha_teclado_resumo (e : Entradas) (p : Sistema) :
    (((aguarda_senha_teclado e p).modo_atual = p.modo_atual ∧
      (aguarda_senha_teclado e p).modo_foi_inicializado = p.modo_foi_inicializado) ∨
     (((aguarda_senha_teclado e p).modo_atual = MODO_ABERTO ∨
       (aguarda_senha_teclado e p).modo_atual = MODO_MSG_ACESSO_NEGADO ∨
       (aguarda_senha_teclado e p).modo_atual = MODO_ESPERA) ∧
      (aguarda_senha_teclado e p).modo_foi_inicializado = false)) ∧
    (p.digitos_count ≤ 4 → (aguarda_senha_teclado e p).digitos_count ≤ 4) := by
  unfold aguarda_senha_teclado
  simp only []
  split_ifs
  · obtain ⟨h1, h2, h3⟩ := acionar_abertura_resumo e (emitir (Efeito.buzzer_play_tone 1500 50) p)
    exact ⟨Or.inr ⟨Or.inl h1, h2⟩, fun h => by rw [h3]; exact h⟩
  · obtain ⟨h1, h2, h3⟩ := aguarda_senha_negado_resumo (emitir (Efeito.buzzer_play_tone 1500 50) p)
    exact ⟨Or.inr ⟨Or.inr (Or.inl h1), h2⟩, fun h => by rw [h3]; exact h⟩
  · exact ⟨Or.inr ⟨Or.inr (Or.inr rfl), rfl⟩, fun h => h⟩
  · obtain ⟨h1, h2, h3⟩ := adicionar_digito_resumo e.tecla
      (emitir (Efeito.buzzer_play_tone 1500 50) p)
    exact ⟨Or.inl ⟨h1, h2⟩, h3⟩
  · exact ⟨Or.inl ⟨rfl, rfl⟩, fun h => h⟩

theorem aguarda_senha_prologo_flag (e : Entradas) (s : Sistema) :
    (aguarda_senha_display e (aguarda_senha_inicializacao s)).modo_foi_inicializado = true := by
  simp only [aguarda_senha_display, aguarda_senha_inicializacao, display_deve_atualizar,
    solicitar_publicacao_mqtt, set_rgb_solid, led_parar_pulso, emitir]
  split_ifs <;> simp_all

theorem handle_modo_aguarda_senha_resumo (e : Entradas) (s : Sistema) :
    (((handle_modo_aguarda_senha e s).modo_atual = s.modo_atual ∧
      (handle_modo_aguarda_senha e s).modo_foi_inicializado = true) ∨
     (((handle_modo_aguarda_senha e s).modo_atual = MODO_MSG_TIMEOUT ∨
       (handle_modo_aguarda_senha e s).modo_atual = MODO_ABERTO ∨
       (handle_modo_aguarda_senha e s).modo_atual = MODO_MSG_ACESSO_NEGADO ∨
       (handle_modo_aguarda_senha e s).modo_atual = MODO_ESPERA) ∧
      (handle_modo_aguarda_senha e s).modo_foi_inicializado = false)) ∧
    (s.digitos_count ≤ 4 → (handle_modo_aguarda_senha e s).digitos_count ≤ 4) := by
  obtain ⟨_, _, _, _, _, _, _, hcount, hmodo⟩ := aguarda_senha_prologo_campos e s
  have hflag := aguarda_senha_prologo_flag e s
  unfold handle_modo_aguarda_senha
  generalize aguarda_senha_display e (aguarda_senha_inicializacao s) = p at *
  simp only []
  split_ifs
  · refine ⟨Or.inr ⟨Or.inl rfl, rfl⟩, fun h => ?_⟩
    rw [(aguarda_senha_timeout_resumo _).2.2]
    simpa [hcount] using h
  · obtain ⟨h1, h2⟩ := aguarda_senha_teclado_resumo e
      { p with timer_timeout_senha := (timer_expirou p.timer_timeout_senha e.agora).2 }
    constructor
    · rcases h1 with ⟨a, b⟩ | ⟨a, b⟩
      · exact Or.inl ⟨by rw [a]; exact hmodo, by rw [b]; exact hflag⟩
      · exact Or.inr ⟨by tauto, b⟩
    · intro h
      exact h2 (by simpa [hcount] using h)

theorem handle_modo_aberto_resumo (e : Entradas) (s : Sistema) :
    (((handle_modo_aberto e s).modo_atual = s.modo_atual ∧
      (handle_modo_aberto e s).modo_foi_inicializado = true) ∨
     ((handle_modo_aberto e s).modo_atual = MODO_ESPERA ∧
      (handle_modo_aberto e s).modo_foi_inicializado = false)) ∧
    (handle_modo_aberto e s).digitos_count = s.digitos_count := by
  unfold handle_modo_aberto
  simp only [display_deve_atualizar]
  split_ifs <;>
    simp_all [acionar_fechamento, solicitar_publicacao_mqtt, set_rgb_solid, led_parar_pulso, emitir]

theorem handle_admin_aguardando_cartao_resumo (e : Entradas) (s : Sistema) :
    ((handle_admin_aguardando_cartao e s).modo_atual = s.modo_atual ∧
      (handle_admin_aguardando_cartao e s).modo_foi_inicializado = true ∧
      (handle_admin_aguardando_cartao e s).digitos_count = s.digitos_count) ∨
    ((handle_admin_aguardando_cartao e s).modo_atual = MODO_ADMIN_AGUARDANDO_NOVA_SENHA ∧
      (handle_admin_aguardando_cartao e s).modo_foi_inicializado = false ∧
      (handle_admin_aguardando_cartao e s).digitos_count = 0) := by
  simp only [handle_admin_aguardando_cartao, solicitar_publicacao_mqtt,
    start_rgb_pulse_and_matrix_center, led_iniciar_pulso, matriz_limpar, matriz_renderizar, emitir]
  split_ifs <;> simp_all

theorem admin_confirmar_resumo (s : Sistema) :
    ((admin_confirmar s).modo_atual = MODO_ADMIN_MSG_SUCESSO ∨
      (admin_confirmar s).modo_atual = MODO_ADMIN_MSG_ERRO_FORMATO) ∧
    (admin_confirmar s).modo_foi_inicializado = false ∧
    (admin_confirmar s).digitos_count = s.digitos_count := by
  unfold admin_confirmar
  split_ifs
  · refine ⟨Or.inl rfl, rfl, ?_⟩
    cases h : s.cor_ativa <;>
      simp [h, feedback_tocar_sucesso, solicitar_publicacao_mqtt, set_rgb_solid, led_parar_pulso,
        emitir]
  · exact ⟨Or.inr rfl, rfl, rfl⟩

theorem admin_nova_senha_teclado_resumo (e : Entradas) (p : Sistema) :
    (((admin_nova_senha_teclado e p).modo_atual = p.modo_atual ∧
      (admin_nova_senha_teclado e p).modo_foi_inicializado = p.modo_foi_inicializado) ∨
     (((admin_nova_senha_teclado e p).modo_atual = MODO_ADMIN_MSG_SUCESSO ∨
       (admin_nova_senha_teclado e p).modo_atual = MODO_ADMIN_MSG_ERRO_FORMATO ∨
       (admin_nova_senha_teclado e p).modo_atual = MODO_ADMIN_MSG_CANCELADO) ∧
      (admin_nova_senha_teclado e p).modo_foi_inicializado = false)) ∧
    (p.digitos_count ≤ 4 → (admin_nova_senha_teclado e p).digitos_count ≤ 4) := by
  unfold admin_nova_senha_teclado
  simp only []
  split_ifs
  · obtain ⟨h1, h2, h3⟩ := admin_confirmar_resumo (emitir (Efeito.buzzer_play_tone 1500 50) p)
    exact ⟨Or.inr ⟨by tauto, h2⟩, fun h => by rw [h3]; exact h⟩
  · exact ⟨Or.inr ⟨Or.inr (Or.inr rfl), rfl⟩, fun h => h⟩
  · obtain ⟨h1, h2, h3⟩ := adicionar_digito_resumo e.tecla
      (emitir (Efeito.buzzer_play_tone 1500 50) p)
    exact ⟨Or.inl ⟨h1, h2⟩, h3⟩
  · exact ⟨Or.inl ⟨rfl, rfl⟩, fun h => h⟩

theorem handle_admin_aguardando_nova_senha_resumo (e : Entradas) (s : Sistema) :
    (((handle_admin_aguardando_nova_senha e s).modo_atual = s.modo_atual ∧
      (handle_admin_aguardando_nova_senha e s).modo_foi_inicializado = true) ∨
     (((handle_admin_aguardando_nova_senha e s).modo_atual = MODO_ADMIN_MSG_SUCESSO ∨
       (handle_admin_aguardando_nova_senha e s).modo_atual = MODO_ADMIN_MSG_ERRO_FORMATO ∨
       (handle_admin_aguardando_nova_senha e s).modo_atual = MODO_ADMIN_MSG_CANCELADO) ∧
      (handle_admin_aguardando_nova_senha e s).modo_foi_inicializado = false)) ∧
    (s.digitos_count ≤ 4 → (handle_admin_aguardando_nova_senha e s).digitos_count ≤ 4) := by
  unfold handle_admin_aguardando_nova_senha
  simp only [display_deve_atualizar]
  have key : ∀ p : Sistema, p.modo_atual = s.modo_atual → p.modo_foi_inicializado = true →
      p.digitos_count = s.digitos_count →
      (((admin_nova_senha_teclado e p).modo_atual = s.modo_atual ∧
        (admin_nova_senha_teclado e p).modo_foi_inicializado = true) ∨
       (((admin_nova_senha_teclado e p).modo_atual = MODO_ADMIN_MSG_SUCESSO ∨
         (admin_nova_senha_teclado e p).modo_atual = MODO_ADMIN_MSG_ERRO_FORMATO ∨
         (admin_nova_senha_teclado e p).modo_atual = MODO_ADMIN_MSG_CANCELADO) ∧
        (admin_nova_senha_teclado e p).modo_foi_inicializado = false)) ∧
      (s.digitos_count ≤ 4 → (admin_nova_senha_teclado e p).digitos_count ≤ 4) := by
    intro p hm hf hc
    obtain ⟨h1, h2⟩ := admin_nova_senha_teclado_resumo e p
    rw [hm, hf] at h1
    rw [hc] at h2
    exact ⟨h1, h2⟩
  split_ifs <;> apply key <;>
    simp_all [set_rgb_solid, led_parar_pulso, emitir]

theorem handle_modo_mensagem_resumo (e : Entradas) (s : Sistema) :
    (((handle_modo_mensagem e s).modo_atual = s.modo_atual ∧
      (handle_modo_mensagem e s).modo_foi_inicializado = true) ∨
     ((handle_modo_mensagem e s).modo_atual = MODO_ESPERA ∧
      (handle_modo_mensagem e s).modo_foi_inicializado = false)) ∧
    (handle_modo_mensagem e s).digitos_count = s.digitos_count := by
  unfold handle_modo_mensagem
  simp only []
  split_ifs <;>
    simp_all [reset_visual_state, led_parar_pulso, matriz_limpar, matriz_renderizar, emitir]

theorem handle_modo_emergencia_resumo (e : Entradas) (s : Sistema) :
    (handle_modo_emergencia e s).modo_atual = s.modo_atual ∧
    (handle_modo_emergencia e s).modo_foi_inicializado = true ∧
    (handle_modo_emergencia e s).digitos_count = s.digitos_count := by
  unfold handle_modo_emergencia
  simp only []
  split_ifs <;>
    simp_all [solicitar_publicacao_mqtt, start_rgb_pulse_and_matrix_center, led_iniciar_pulso,
      matriz_iniciar_animacao_fogo, emitir]

/-- After the `switch`, the initialised flag is false exactly when the mode changed. -/
theorem maquina_estados_flag (e : Entradas) (s : Sistema) :
    (maquina_estados e s).modo_foi_inicializado = false ↔
      (maquina_estados e s).modo_atual ≠ s.modo_atual := by
  unfold maquina_estados
  split_ifs with h0 h1 h2 h3 h4 h5 h6
  · rcases handle_modo_espera_resumo e s with ⟨a, b, _⟩ | ⟨a, b, _⟩
    · simp [a, b]
    · simp [a, b, h0]
  · rcases (handle_modo_aguarda_senha_resumo e s).1 with ⟨a, b⟩ | ⟨a, b⟩
    · simp [a, b]
    · rcases a with a | a | a | a <;> simp [a, b, h1]
  · rcases (handle_modo_aberto_resumo e s).1 with ⟨a, b⟩ | ⟨a, b⟩
    · simp [a, b]
    · simp [a, b, h2]
  · rcases handle_admin_aguardando_cartao_resumo e s with ⟨a, b, _⟩ | ⟨a, b, _⟩
    · simp [a, b]
    · simp [a, b, h3]
  · rcases (handle_admin_aguardando_nova_senha_resumo e s).1 with ⟨a, b⟩ | ⟨a, b⟩
    · simp [a, b]
    · rcases a with a | a | a <;> simp [a, b, h4]
  · rcases (handle_modo_mensagem_resumo e s).1 with ⟨a, b⟩ | ⟨a, b⟩
    · simp [a, b]
    · rcases h5 with h5 | h5 | h5 | h5 | h5 <;> simp [a, b, h5]
  · obtain ⟨a, b, _⟩ := handle_modo_emergencia_resumo e s
    simp [a, b]
  · simp only [handle_modo_invalido, true_iff]
    exact fun h => h0 h.symm

theorem maquina_estados_digitos (e : Entradas) (s : Sistema) (h : s.digitos_count ≤ 4) :
    (maquina_estados e s).digitos_count ≤ 4 := by
  unfold maquina_estados
  split_ifs
  · rcases handle_modo_espera_resumo e s with ⟨_, _, c⟩ | ⟨_, _, c⟩ <;> omega
  · exact (handle_modo_aguarda_senha_resumo e s).2 h
  · rw [(handle_modo_aberto_resumo e s).2]; exact h
  · rcases handle_admin_aguardando_cartao_resumo e s with ⟨_, _, c⟩ | ⟨_, _, c⟩ <;> omega
  · exact (handle_admin_aguardando_nova_senha_resumo e s).2 h
  · rw [(handle_modo_mensagem_resumo e s).2]; exact h
  · rw [(handle_modo_emergencia_resumo e s).2.2]; exact h
  · exact h

theorem verificar_fifo_digitos (e : Entradas) (s : Sistema) (h : s.digitos_count ≤ 4) :
    (verificar_fifo e s).digitos_count ≤ 4 := by
  unfold verificar_fifo
  cases e.fifo with
  | none => exact h
  | some pacote =>
    simp only []
    split_ifs
    · rw [(desativar_modo_emergencia_resumo e s).2.2]; exact h
    · exact h
    · exact Nat.zero_le _
    · exact h

theorem loop_principal_digitos (e : Entradas) (s : Sistema) (h : s.digitos_count ≤ 4) :
    (loop_principal e s).digitos_count ≤ 4 := by
  have hc := controle_loop_principal e s
  have : (loop_principal e s).digitos_count
      = (maquina_estados e (verificar_fifo e s)).digitos_count :=
    congrArg (fun c => c.2.2.2.2.2.1) hc
  rw [this]
  exact maquina_estados_digitos e _ (verificar_fifo_digitos e s h)

theorem alcancavel_digitos (s : Sistema) (h : Alcancavel s) : s.digitos_count ≤ 4 := by
  induction h with
  | inicio => decide
  | passo e s _ ih => exact loop_principal_digitos e s ih

/-! ## Password buffer -/

theorem aguarda_senha_teclado_digito (e : Entradas) (p : Sistema)
    (h0 : e.tecla ≠ NUL) (h1 : e.tecla ≠ '#') (h2 : e.tecla ≠ '*') :
    aguarda_senha_teclado e p
      = adicionar_digito e.tecla (emitir (Efeito.buzzer_play_tone 1500 50) p) := by
  unfold aguarda_senha_teclado
  simp only [ne_eq, h0, not_false_eq_true, if_true, h1, h2, if_false]

theorem admin_nova_senha_teclado_digito (e : Entradas) (p : Sistema)
    (h0 : e.tecla ≠ NUL) (h1 : e.tecla ≠ '#') (h2 : e.tecla ≠ '*') :
    admin_nova_senha_teclado e p
      = adicionar_digito e.tecla (emitir (Efeito.buzzer_play_tone 1500 50) p) := by
  unfold admin_nova_senha_teclado
  simp only [ne_eq, h0, not_false_eq_true, if_true, h1, h2, if_false]

/-- The digit branch on a state whose buffer and count are those of `s`. -/
theorem adicionar_digito_efeito (tecla : Char) (s p : Sistema)
    (hb : p.senha_digitada = s.senha_digitada) (hc : p.digitos_count = s.digitos_count) :
    (4 ≤ s.digitos_count →
      (adicionar_digito tecla p).senha_digitada = s.senha_digitada ∧
      (adicionar_digito tecla p).digitos_count = s.digitos_count) ∧
    (s.digitos_count < 4 →
      (adicionar_digito tecla p).senha_digitada
        = (s.senha_digitada.set s.digitos_count tecla).set (s.digitos_count + 1) NUL ∧
      (adicionar_digito tecla p).digitos_count = s.digitos_count + 1 ∧
      (s.senha_digitada.length = 5 →
        (adicionar_digito tecla p).senha_digitada[s.digitos_count]? = some tecla)) := by
  unfold adicionar_digito
  rw [hb, hc]
  constructor
  · intro h
    rw [if_neg (by omega)]
    exact ⟨hb, hc⟩
  · intro h
    rw [if_pos h]
    refine ⟨rfl, rfl, ?_⟩
    intro hlen
    simp only []
    rw [List.getElem?_set_ne (by omega), List.getElem?_set_self (by omega)]

theorem admin_nova_senha_prologo (e : Entradas) (s : Sistema) :
    ∃ p : Sistema, handle_admin_aguardando_nova_senha e s = admin_nova_senha_teclado e p ∧
      p.senha_digitada = s.senha_digitada ∧ p.digitos_count = s.digitos_count := by
  unfold handle_admin_aguardando_nova_senha
  simp only [display_deve_atualizar]
  split_ifs <;> exact ⟨_, rfl, rfl, rfl⟩

/-- C6: in every reachable state the digit count lies in [0,4]; in AwaitingPassword (on
a tick that reads the keypad, that is with the password timer not expired) and in
AdminAwaitingNewPassword, a tick with a key other than `#` and `*` leaves the password
buffer and the digit count unchanged when the count is already 4, and with count n < 4
writes the key at position n (and the terminator after it) and makes the count n + 1. -/
theorem C6_buffer_de_senha (e : Entradas) (s : Sistema) :
    (Alcancavel s → 0 ≤ s.digitos_count ∧ s.digitos_count ≤ 4) ∧
    (e.tecla ≠ NUL → e.tecla ≠ '#' → e.tecla ≠ '*' →
      ((s.modo_atual = MODO_AGUARDA_SENHA ∧
          (timer_expirou s.timer_timeout_senha e.agora).1 = false) ∨
        s.modo_atual = MODO_ADMIN_AGUARDANDO_NOVA_SENHA) →
      (4 ≤ s.digitos_count →
        (maquina_estados e s).senha_digitada = s.senha_digitada ∧
        (maquina_estados e s).digitos_count = s.digitos_count) ∧
      (s.digitos_count < 4 →
        (maquina_estados e s).senha_digitada
          = (s.senha_digitada.set s.digitos_count e.tecla).set (s.digitos_count + 1) NUL ∧
        (maquina_estados e s).digitos_count = s.digitos_count + 1 ∧
        (s.senha_digitada.length = 5 →
          (maquina_estados e s).senha_digitada[s.digitos_count]? = some e.tecla))) := by
  refine ⟨fun h => ⟨Nat.zero_le _, alcancavel_digitos s h⟩, ?_⟩
  intro h0 h1 h2 hm
  rcases hm with ⟨hm, ht⟩ | hm
  · rw [maquina_estados_aguarda_senha e s hm, handle_modo_aguarda_senha_sem_timeout e s ht,
      aguarda_senha_teclado_digito e _ h0 h1 h2]
    obtain ⟨_, hb, _, _, _, _, _, hc, _⟩ := aguarda_senha_prologo_campos e s
    exact adicionar_digito_efeito e.tecla s _ hb hc
  · have hd : maquina_estados e s = handle_admin_aguardando_nova_senha e s := by
      simp [maquina_estados, hm]
    obtain ⟨p, hp, hb, hc⟩ := admin_nova_senha_prologo e s
    rw [hd, hp, admin_nova_senha_teclado_digito e _ h0 h1 h2]
    exact adicionar_digito_efeito e.tecla s _ hb hc

/-! ## The initialised flag -/

theorem controle_modo (s t : Sistema) (h : controle s = controle t) :
    s.modo_atual = t.modo_atual ∧ s.modo_foi_inicializado = t.modo_foi_inicializado ∧
    s.cor_ativa = t.cor_ativa ∧ s.senha_digitada = t.senha_digitada ∧
    s.digitos_count = t.digitos_count := by
  unfold controle at h
  simp only [Prod.mk.injEq] at h
  exact ⟨h.1, h.2.1, h.2.2.1, h.2.2.2.2.1, h.2.2.2.2.2.1⟩

theorem verificar_fifo_mudar_estado (e : Entradas) (s : Sistema) (pacote : Nat)
    (hf : e.fifo = some pacote)
    (hc : ((pacote % 2 ^ 32) >>> 16) % 2 ^ 16 = FIFO_CMD_MUDAR_ESTADO) :
    (verificar_fifo e s).modo_foi_inicializado = false := by
  unfold verificar_fifo
  rw [hf]
  simp only [hc, if_true]
  split_ifs
  · exact (desativar_modo_emergencia_resumo e s).2.1
  · rfl
  · rfl

theorem verificar_fifo_sem_comando (e : Entradas) (s : Sistema)
    (h : ∀ pacote, e.fifo = some pacote →
      ((pacote % 2 ^ 32) >>> 16) % 2 ^ 16 ≠ FIFO_CMD_MUDAR_ESTADO) :
    verificar_fifo e s = s := by
  unfold verificar_fifo
  cases hf : e.fifo with
  | none => rfl
  | some pacote =>
    simp only []
    rw [if_neg (h pacote hf)]

/-- C7: the open sequence, the close sequence, emergency deactivation, the invalid-mode
recovery and a remote mode-change word all leave the initialised flag false; a FIFO word
that is not a mode-change command leaves the state as it is; after the `switch` of a tick
the flag is false exactly when the handler changed the mode, so a tick that starts with
the flag false and keeps the mode ends with the flag true, and the flag then stays true
on every tick that keeps the mode; the rest of the loop iteration touches neither the
mode nor the flag. -/
theorem C7_flag_de_inicializacao (e : Entradas) (s : Sistema) :
    (acionar_abertura e s).modo_foi_inicializado = false ∧
    (acionar_fechamento e s).modo_foi_inicializado = false ∧
    (desativar_modo_emergencia e s).modo_foi_inicializado = false ∧
    (handle_modo_invalido s).modo_foi_inicializado = false ∧
    (∀ pacote, e.fifo = some pacote →
      ((pacote % 2 ^ 32) >>> 16) % 2 ^ 16 = FIFO_CMD_MUDAR_ESTADO →
      (verificar_fifo e s).modo_foi_inicializado = false) ∧
    ((∀ pacote, e.fifo = some pacote →
      ((pacote % 2 ^ 32) >>> 16) % 2 ^ 16 ≠ FIFO_CMD_MUDAR_ESTADO) →
      verificar_fifo e s = s) ∧
    ((maquina_estados e s).modo_foi_inicializado = false ↔
      (maquina_estados e s).modo_atual ≠ s.modo_atual) ∧
    ((maquina_estados e s).modo_atual = s.modo_atual →
      (maquina_estados e s).modo_foi_inicializado = true) ∧
    (loop_principal e s).modo_atual = (maquina_estados e (verificar_fifo e s)).modo_atual ∧
    (loop_principal e s).modo_foi_inicializado
      = (maquina_estados e (verificar_fifo e s)).modo_foi_inicializado := by
  have hflag := maquina_estados_flag e s
  have hloop := controle_modo _ _ (controle_loop_principal e s)
  refine ⟨(acionar_abertura_resumo e s).2.1, (acionar_fechamento_resumo e s).2.1,
    (desativar_modo_emergencia_resumo e s).2.1, rfl,
    fun pacote hf hc => verificar_fifo_mudar_estado e s pacote hf hc,
    verificar_fifo_sem_comando e s, hflag, ?_, hloop.1, hloop.2.1⟩
  intro hm
  cases hb : (maquina_estados e s).modo_foi_inicializado with
  | true => rfl
  | false => exact absurd hm (hflag.mp hb)

/-! ## Re-entering Waiting -/

theorem espera_sem_cartao (e : Entradas) (s : Sistema)
    (hn : detectar_cor_cartao e.colors = COR_NENHUMA) :
    (handle_modo_espera e s).modo_atual = s.modo_atual ∧
    (handle_modo_espera e s).modo_foi_inicializado = true ∧
    (handle_modo_espera e s).cor_ativa = s.cor_ativa ∧
    (handle_modo_espera e s).senha_digitada = s.senha_digitada ∧
    (handle_modo_espera e s).digitos_count = s.digitos_count := by
  simp only [handle_modo_espera, espera_sensor, espera_display, espera_inicializacao,
    display_deve_atualizar, solicitar_publicacao_mqtt, start_rgb_pulse_and_matrix_center,
    led_iniciar_pulso, matriz_limpar, matriz_renderizar, emitir, hn]
  split_ifs <;> simp_all

/-- C8 (the claim as stated fails): from the initial state, a green card, the keys `1`
and `2` and then `*` bring the mode back to Waiting with the initialised flag false; on
the Waiting entry tick that follows, with no card on the sensor, the mode is Waiting and
the flag is set, but the active color is still Green and the buffer still holds "12"
with digit count 2. -/
theorem C8_espera_nao_limpa_a_transacao :
    (executar estado_inicial cenario_cancelamento).modo_atual = MODO_ESPERA ∧
    (executar estado_inicial cenario_cancelamento).modo_foi_inicializado = false ∧
    detectar_cor_cartao (entradas_tecla 5000 NUL).colors = COR_NENHUMA ∧
    (loop_principal (entradas_tecla 5000 NUL)
      (executar estado_inicial cenario_cancelamento)).modo_atual = MODO_ESPERA ∧
    (loop_principal (entradas_tecla 5000 NUL)
      (executar estado_inicial cenario_cancelamento)).modo_foi_inicializado = true ∧
    (loop_principal (entradas_tecla 5000 NUL)
      (executar estado_inicial cenario_cancelamento)).cor_ativa = COR_VERDE ∧
    cstr (loop_principal (entradas_tecla 5000 NUL)
      (executar estado_inicial cenario_cancelamento)).senha_digitada = ['1', '2'] ∧
    (loop_principal (entradas_tecla 5000 NUL)
      (executar estado_inicial cenario_cancelamento)).digitos_count = 2 := by
  decide

/-- C8 (amended): a tick in Waiting with no card on the sensor and no remote mode-change
word keeps the mode, sets the initialised flag and leaves the active color, the password
buffer and the digit count as they were when Waiting was entered; they are overwritten
when a card is next detected in Waiting: the active color becomes the verdict and the
buffer is zeroed with digit count 0. -/
theorem C8_transacao_limpa_na_deteccao (e : Entradas) (s : Sistema)
    (hmodo : s.modo_atual = MODO_ESPERA) (hfifo : e.fifo = none) :
    (detectar_cor_cartao e.colors = COR_NENHUMA →
      (loop_principal e s).modo_atual = MODO_ESPERA ∧
      (loop_principal e s).modo_foi_inicializado = true ∧
      (loop_principal e s).cor_ativa = s.cor_ativa ∧
      (loop_principal e s).senha_digitada = s.senha_digitada ∧
      (loop_principal e s).digitos_count = s.digitos_count) ∧
    (detectar_cor_cartao e.colors ≠ COR_NENHUMA →
      (loop_principal e s).modo_atual = MODO_AGUARDA_SENHA ∧
      (loop_principal e s).cor_ativa = detectar_cor_cartao e.colors ∧
      (loop_principal e s).senha_digitada = [NUL, NUL, NUL, NUL, NUL] ∧
      (loop_principal e s).digitos_count = 0) := by
  have hv : verificar_fifo e s = s := by
    apply verificar_fifo_sem_comando
    intro pacote hp
    rw [hfifo] at hp
    exact absurd hp (by simp)
  obtain ⟨l1, l2, l3, l4, l5⟩ := controle_modo _ _ (controle_loop_principal e s)
  rw [l1, l2, l3, l4, l5, hv, maquina_estados_espera e s hmodo]
  constructor
  · intro hn
    obtain ⟨a, b, c, d, f⟩ := espera_sem_cartao e s hn
    exact ⟨by rw [a, hmodo], b, c, d, f⟩
  · intro hc
    simp [handle_modo_espera, espera_sensor, hc, solicitar_publicacao_mqtt, emitir, senha_vazia]

/-! ## Publish queue -/

theorem filaOk_inicial : FilaOk nucleo1_inicial := by
  simp [FilaOk, nucleo1_inicial, QUEUE_SIZE]

theorem enfileirar_cheia (p : publication_t) (q : Nucleo1) (hq : FilaOk q)
    (hn : fila_tamanho q = 9) : enfileirar p q = q := by
  obtain ⟨_, hh, ht⟩ := hq
  unfold fila_tamanho QUEUE_SIZE at *
  unfold enfileirar QUEUE_SIZE
  have : (q.queue_tail + 1) % 10 = q.queue_head := by omega
  simp [this]

theorem enfileirar_livre (p : publication_t) (q : Nucleo1) (hq : FilaOk q)
    (hn : fila_tamanho q ≠ 9) :
    FilaOk (enfileirar p q) ∧ fila_tamanho (enfileirar p q) = fila_tamanho q + 1 ∧
    fila_conteudo (enfileirar p q) = fila_conteudo q ++ [p] ∧
    (enfileirar p q).publicadas = q.publicadas ∧
    (q.queue_tail + 1) % QUEUE_SIZE ≠ q.queue_head := by
  obtain ⟨hl, hh, ht⟩ := hq
  unfold fila_tamanho QUEUE_SIZE at hn
  unfold QUEUE_SIZE at hl hh ht
  have hne : (q.queue_tail + 1) % 10 ≠ q.queue_head := by omega
  have hsize : (((q.queue_tail + 1) % 10) + 10 - q.queue_head) % 10
      = (q.queue_tail + 10 - q.queue_head) % 10 + 1 := by omega
  have he : enfileirar p q = { q with
      publication_queue := q.publication_queue.set q.queue_tail p,
      queue_tail := (q.queue_tail + 1) % 10 } := by
    unfold enfileirar QUEUE_SIZE
    simp [hne]
  rw [he]
  refine ⟨⟨?_, ?_, ?_⟩, ?_, ?_, rfl, ?_⟩
  · simp [QUEUE_SIZE, hl]
  · simpa [QUEUE_SIZE] using hh
  · simp only [QUEUE_SIZE]; omega
  · simp only [fila_tamanho, QUEUE_SIZE]; exact hsize
  · simp only [fila_conteudo, fila_tamanho, QUEUE_SIZE, hsize, List.range_succ, List.map_append,
      List.map_cons, List.map_nil]
    congr 1
    · apply List.map_congr_left
      intro i hi
      rw [List.mem_range] at hi
      have hidx : q.queue_tail ≠ (q.queue_head + i) % 10 := by omega
      simp [List.getD_eq_getElem?_getD, List.getElem?_set_ne hidx]
    · have hidx : (q.queue_head + (q.queue_tail + 10 - q.queue_head) % 10) % 10 = q.queue_tail := by
        omega
      have hlt : q.queue_tail < q.publication_queue.length := by omega
      simp [hidx, List.getD_eq_getElem?_getD, hlt]
  · simpa [QUEUE_SIZE] using hne

theorem fila_tamanho_le (q : Nucleo1) : fila_tamanho q ≤ 9 := by
  unfold fila_tamanho QUEUE_SIZE
  omega

/-- Enqueueing a list with no dequeue keeps as many entries as fit below nine. -/
theorem enfileirar_todas_conteudo (l : List publication_t) :
    ∀ q : Nucleo1, FilaOk q →
      fila_conteudo (enfileirar_todas l q) = fila_conteudo q ++ l.take (9 - fila_tamanho q) ∧
      fila_tamanho (enfileirar_todas l q) = min 9 (fila_tamanho q + l.length) := by
  induction l with
  | nil =>
    intro q _
    have := fila_tamanho_le q
    simp [enfileirar_todas]
    omega
  | cons p l ih =>
    intro q hq
    have hle := fila_tamanho_le q
    have hstep : enfileirar_todas (p :: l) q = enfileirar_todas l (enfileirar p q) := rfl
    rw [hstep]
    by_cases hn : fila_tamanho q = 9
    · rw [enfileirar_cheia p q hq hn]
      obtain ⟨h1, h2⟩ := ih q hq
      rw [h1, h2, hn]
      simp
    · obtain ⟨hok, hsz, hct, _, _⟩ := enfileirar_livre p q hq hn
      obtain ⟨h1, h2⟩ := ih _ hok
      rw [h1, h2, hsz, hct]
      have h9 : 9 - fila_tamanho q = (9 - (fila_tamanho q + 1)) + 1 := by omega
      constructor
      · rw [h9, List.take_succ_cons, List.append_assoc]
        rfl
      · simp only [List.length_cons]
        omega

theorem fila_conteudo_inicial : fila_conteudo nucleo1_inicial = [] := by
  simp [fila_conteudo, fila_tamanho, nucleo1_inicial, QUEUE_SIZE]

theorem fila_tamanho_inicial : fila_tamanho nucleo1_inicial = 0 := by
  simp [fila_tamanho, nucleo1_inicial, QUEUE_SIZE]

/-- C9 (the claim as stated fails): eleven heartbeat entries enqueued into the empty
queue with no dequeue leave nine entries in it, not ten. -/
theorem C9_onze_entradas_retem_nove :
    fila_tamanho (enfileirar_todas
      (List.replicate 11 { topico := "bitdoglab_02/heartbeat", mensagem := "ok" })
      nucleo1_inicial) = 9 ∧
    fila_tamanho (enfileirar_todas
      (List.replicate 11 { topico := "bitdoglab_02/heartbeat", mensagem := "ok" })
      nucleo1_inicial) ≠ 10 := by
  constructor <;> decide

/-- C9 (amended): starting from the empty queue, enqueueing 11 entries with no dequeue
in between leaves exactly 9 entries in the queue, the first nine in their order; the
10th and the 11th are dropped. -/
theorem C9_capacidade_efetiva (l : List publication_t) (hl : l.length = 11) :
    fila_tamanho (enfileirar_todas l nucleo1_inicial) = 9 ∧
    fila_conteudo (enfileirar_todas l nucleo1_inicial) = l.take 9 := by
  obtain ⟨h1, h2⟩ := enfileirar_todas_conteudo l nucleo1_inicial filaOk_inicial
  rw [fila_conteudo_inicial, fila_tamanho_inicial] at h1
  rw [fila_tamanho_inicial, hl] at h2
  exact ⟨by simpa using h2, by simpa using h1⟩

theorem receber_fifo_conteudo (e : EntradasNucleo1) (q : Nucleo1) (hq : FilaOk q) :
    FilaOk (receber_fifo e q) ∧
    (receber_fifo e q).publicadas = q.publicadas ∧
    fila_conteudo (receber_fifo e q) = fila_conteudo q ++ entrada_aceita e q := by
  unfold receber_fifo entrada_aceita
  cases hf : e.fifo with
  | none => simp [hq]
  | some pacote =>
    simp only
    by_cases hcmd : ((pacote % 2 ^ 32) >>> 16) % 2 ^ 16 = FIFO_CMD_PUBLICAR_MQTT
    · rw [if_pos hcmd]
      by_cases hn : fila_tamanho q = 9
      · rw [enfileirar_cheia _ q hq hn]
        have hfull : (q.queue_tail + 1) % QUEUE_SIZE = q.queue_head := by
          obtain ⟨_, hh, ht⟩ := hq
          unfold fila_tamanho QUEUE_SIZE at *
          omega
        simp [hq, hfull]
      · obtain ⟨hok, _, hct, hpub, hne⟩ := enfileirar_livre (entrada_da_fila e pacote) q hq hn
        refine ⟨hok, hpub, ?_⟩
        rw [hct, if_pos ⟨hcmd, hne⟩]
    · have hnot : ¬ (((pacote % 2 ^ 32) >>> 16) % 2 ^ 16 = FIFO_CMD_PUBLICAR_MQTT ∧
          (q.queue_tail + 1) % QUEUE_SIZE ≠ q.queue_head) := fun h => hcmd h.1
      rw [if_neg hcmd, if_neg hnot]
      simp [hq]

theorem drenar_fila_conteudo (e : EntradasNucleo1) (q : Nucleo1) (hq : FilaOk q) :
    FilaOk (drenar_fila e q) ∧
    (drenar_fila e q).publicadas ++ fila_conteudo (drenar_fila e q)
      = q.publicadas ++ fila_conteudo q := by
  obtain ⟨hl, hh, ht⟩ := hq
  unfold drenar_fila
  split
  · rename_i hcond
    simp only [Bool.and_eq_true, decide_eq_true_eq] at hcond
    obtain ⟨_, hne⟩ := hcond
    simp only []
    by_cases hc : ((timer_expirou q.timer_entre_publicacoes e.agora).1
        || !(timer_expirou q.timer_entre_publicacoes e.agora).2.ativo) = true
    · simp only [hc, if_true]
      unfold QUEUE_SIZE at hl hh ht
      refine ⟨⟨by simpa [QUEUE_SIZE] using hl, by simp only [QUEUE_SIZE]; omega,
        by simpa [QUEUE_SIZE] using ht⟩, ?_⟩
      have hsz : (q.queue_tail + 10 - q.queue_head) % 10
          = (q.queue_tail + 10 - (q.queue_head + 1) % 10) % 10 + 1 := by omega
      simp only [fila_conteudo, fila_tamanho, QUEUE_SIZE, List.append_assoc]
      congr 1
      rw [hsz, List.range_succ_eq_map, List.map_cons, List.map_map]
      simp only [List.singleton_append, Nat.add_zero]
      congr 1
      · rw [Nat.mod_eq_of_lt hh]
      · apply List.map_congr_left
        intro i _
        have : (q.queue_head + (i + 1)) % 10 = ((q.queue_head + 1) % 10 + i) % 10 := by omega
        simp [this]
    · simp only [hc, Bool.false_eq_true, if_false]
      exact ⟨⟨hl, hh, ht⟩, rfl⟩
  · exact ⟨⟨hl, hh, ht⟩, rfl⟩

theorem loop_nucleo1_conteudo (e : EntradasNucleo1) (q : Nucleo1) (hq : FilaOk q) :
    FilaOk (loop_nucleo1 e q) ∧
    (loop_nucleo1 e q).publicadas ++ fila_conteudo (loop_nucleo1 e q)
      = q.publicadas ++ fila_conteudo q ++ entrada_aceita e q := by
  obtain ⟨h1, h2, h3⟩ := receber_fifo_conteudo e q hq
  obtain ⟨h4, h5⟩ := drenar_fila_conteudo e _ h1
  unfold loop_nucleo1
  refine ⟨h4, ?_⟩
  rw [h5, h2, h3, List.append_assoc]

theorem executar_nucleo1_conteudo (es : List EntradasNucleo1) :
    ∀ q : Nucleo1, FilaOk q →
      (executar_nucleo1 q es).publicadas ++ fila_conteudo (executar_nucleo1 q es)
        = q.publicadas ++ fila_conteudo q ++ entradas_retidas q es := by
  induction es with
  | nil => intro q _; simp [executar_nucleo1, entradas_retidas]
  | cons e es ih =>
    intro q hq
    obtain ⟨hok, hstep⟩ := loop_nucleo1_conteudo e q hq
    simp only [executar_nucleo1, entradas_retidas]
    rw [ih _ hok, hstep]
    simp only [List.append_assoc]

/-- C10: for every sequence of core-1 iterations from the initial state (each may
enqueue, dequeue, both or neither), the entries handed to `publicar_mensagem_mqtt`,
followed by the entries still waiting in the queue, are exactly the entries the enqueue
steps stored, in the order they were enqueued: what has been published is an initial
segment of the retained entries, each once, in FIFO order. -/
theorem C10_ordem_fifo (es : List EntradasNucleo1) :
    (executar_nucleo1 nucleo1_inicial es).publicadas
        ++ fila_conteudo (executar_nucleo1 nucleo1_inicial es)
      = entradas_retidas nucleo1_inicial es ∧
    (executar_nucleo1 nucleo1_inicial es).publicadas <+: entradas_retidas nucleo1_inicial es := by
  have h := executar_nucleo1_conteudo es nucleo1_inicial filaOk_inicial
  rw [fila_conteudo_inicial] at h
  have h2 : (executar_nucleo1 nucleo1_inicial es).publicadas
        ++ fila_conteudo (executar_nucleo1 nucleo1_inicial es)
      = entradas_retidas nucleo1_inicial es := by
    rw [h]; simp [nucleo1_inicial]
  exact ⟨h2, ⟨_, h2⟩⟩

/-! ## Publish queue: full queue and drain conditions -/

theorem entrada_da_fila_desempacota (e : EntradasNucleo1) (pacote : Nat) :
    entrada_da_fila e pacote =
      { topico := truncar99 (DEVICE_ID ++ "/" ++
          (montar_mensagem e (tipo_msg_do_pacote pacote) (cor_id_do_pacote pacote)).1)
        mensagem := truncar99
          (montar_mensagem e (tipo_msg_do_pacote pacote) (cor_id_do_pacote pacote)).2 } := rfl

/-- C11: when the publish queue is full (`(queue_tail + 1) % QUEUE_SIZE == queue_head`)
an enqueue attempt leaves the queue exactly as it was: head index, tail index and all
stored entries; the same holds for the whole receive step of a core-1 iteration,
whatever word arrives. With ten slots and both indices in range, full means nine
entries held. -/
theorem C11_fila_cheia_descarta (e : EntradasNucleo1) (p : publication_t) (q : Nucleo1)
    (hcheia : (q.queue_tail + 1) % QUEUE_SIZE = q.queue_head) :
    enfileirar p q = q ∧
    (enfileirar p q).queue_head = q.queue_head ∧
    (enfileirar p q).queue_tail = q.queue_tail ∧
    (enfileirar p q).publication_queue = q.publication_queue ∧
    receber_fifo e q = q ∧
    (FilaOk q → fila_tamanho q = 9 ∧ fila_conteudo (enfileirar p q) = fila_conteudo q) := by
  have h1 : ∀ p', enfileirar p' q = q := by
    intro p'
    unfold enfileirar
    simp [hcheia]
  have h2 : receber_fifo e q = q := by
    unfold receber_fifo
    cases e.fifo with
    | none => rfl
    | some pacote =>
      simp only []
      split_ifs
      · exact h1 _
      · rfl
  refine ⟨h1 p, by rw [h1], by rw [h1], by rw [h1], h2, ?_⟩
  rintro ⟨_, hh, ht⟩
  rw [h1]
  refine ⟨?_, rfl⟩
  unfold fila_tamanho QUEUE_SIZE at *
  omega

theorem receber_fifo_resto (e : EntradasNucleo1) (q : Nucleo1) :
    (receber_fifo e q).publicadas = q.publicadas ∧
    (receber_fifo e q).queue_head = q.queue_head ∧
    (receber_fifo e q).timer_entre_publicacoes = q.timer_entre_publicacoes := by
  unfold receber_fifo enfileirar
  cases e.fifo with
  | none => exact ⟨rfl, rfl, rfl⟩
  | some pacote =>
    simp only []
    split_ifs <;> exact ⟨rfl, rfl, rfl⟩

/-- What the drain step does: either it publishes the head entry, advances the head and
re-arms the timer, and then all three conditions held; or it leaves published list,
head and timer as they were. -/
theorem drenar_fila_casos (e : EntradasNucleo1) (q : Nucleo1) :
    ((drenar_fila e q).publicadas
        = q.publicadas ++ [q.publication_queue.getD q.queue_head publication_vazia] ∧
      (drenar_fila e q).queue_head = (q.queue_head + 1) % QUEUE_SIZE ∧
      (drenar_fila e q).timer_entre_publicacoes = timer_iniciar e.agora MQTT_PUB_MIN_DELAY_US ∧
      e.mqtt_is_publishing = false ∧ q.queue_head ≠ q.queue_tail ∧
      (q.timer_entre_publicacoes.ativo = false ∨
        (timer_expirou q.timer_entre_publicacoes e.agora).1 = true)) ∨
    ((drenar_fila e q).publicadas = q.publicadas ∧
      (drenar_fila e q).queue_head = q.queue_head ∧
      (drenar_fila e q).timer_entre_publicacoes = q.timer_entre_publicacoes) := by
  unfold drenar_fila
  by_cases hc : (!e.mqtt_is_publishing && decide (q.queue_head ≠ q.queue_tail)) = true
  · rw [if_pos hc]
    simp only [Bool.and_eq_true, Bool.not_eq_true', decide_eq_true_eq] at hc
    simp only []
    by_cases ht : ((timer_expirou q.timer_entre_publicacoes e.agora).1
        || !(timer_expirou q.timer_entre_publicacoes e.agora).2.ativo) = true
    · rw [if_pos ht]
      refine Or.inl ⟨rfl, rfl, rfl, hc.1, hc.2, ?_⟩
      cases h1 : (timer_expirou q.timer_entre_publicacoes e.agora).1 with
      | true => exact Or.inr rfl
      | false =>
        left
        rw [h1, timer_expirou_false _ _ h1] at ht
        simpa using ht
    · rw [if_neg ht]
      refine Or.inr ⟨rfl, rfl, ?_⟩
      have h1 : (timer_expirou q.timer_entre_publicacoes e.agora).1 = false := by
        cases h : (timer_expirou q.timer_entre_publicacoes e.agora).1 with
        | true => rw [h] at ht; simp at ht
        | false => rfl
      exact timer_expirou_false _ _ h1
  · rw [if_neg hc]
    exact Or.inr ⟨rfl, rfl, rfl⟩

theorem loop_nucleo1_sem_publicar (e : EntradasNucleo1) (q : Nucleo1)
    (h : (loop_nucleo1 e q).publicadas = q.publicadas) :
    (loop_nucleo1 e q).timer_entre_publicacoes = q.timer_entre_publicacoes := by
  obtain ⟨r1, _, r3⟩ := receber_fifo_resto e q
  unfold loop_nucleo1 at h ⊢
  rcases drenar_fila_casos e (receber_fifo e q) with ⟨a, _⟩ | ⟨_, _, c⟩
  · rw [a, r1] at h
    simp at h
  · rw [c, r3]

theorem loop_nucleo1_publicadas (e : EntradasNucleo1) (q : Nucleo1) :
    ∃ l, (loop_nucleo1 e q).publicadas = q.publicadas ++ l := by
  obtain ⟨r1, _, _⟩ := receber_fifo_resto e q
  unfold loop_nucleo1
  rcases drenar_fila_casos e (receber_fifo e q) with ⟨a, _⟩ | ⟨a, _⟩
  · exact ⟨_, by rw [a, r1]⟩
  · exact ⟨[], by rw [a, r1, List.append_nil]⟩

theorem executar_nucleo1_publicadas (es : List EntradasNucleo1) :
    ∀ q : Nucleo1, ∃ l, (executar_nucleo1 q es).publicadas = q.publicadas ++ l := by
  induction es with
  | nil => intro q; exact ⟨[], by simp [executar_nucleo1]⟩
  | cons e es ih =>
    intro q
    obtain ⟨l1, h1⟩ := loop_nucleo1_publicadas e q
    obtain ⟨l2, h2⟩ := ih (loop_nucleo1 e q)
    exact ⟨l1 ++ l2, by simp only [executar_nucleo1]; rw [h2, h1, List.append_assoc]⟩

/-- Iterations that publish nothing leave the inter-publish timer as it was. -/
theorem executar_nucleo1_sem_publicar (es : List EntradasNucleo1) :
    ∀ q : Nucleo1, (executar_nucleo1 q es).publicadas = q.publicadas →
      (executar_nucleo1 q es).timer_entre_publicacoes = q.timer_entre_publicacoes := by
  induction es with
  | nil => intro q _; rfl
  | cons e es ih =>
    intro q h
    simp only [executar_nucleo1] at h ⊢
    obtain ⟨l1, h1⟩ := loop_nucleo1_publicadas e q
    obtain ⟨l2, h2⟩ := executar_nucleo1_publicadas es (loop_nucleo1 e q)
    rw [h2, h1, List.append_assoc] at h
    have hl : l1 = [] ∧ l2 = [] := by simpa using h
    have hq : (loop_nucleo1 e q).publicadas = q.publicadas := by
      rw [h1, hl.1, List.append_nil]
    rw [ih (loop_nucleo1 e q) (by rw [h2, hl.2, List.append_nil]),
      loop_nucleo1_sem_publicar e q hq]

/-- C12: a core-1 iteration hands the head entry to the publish client only if the
client reports no publish in flight, the queue is non-empty and the inter-publish timer
is unarmed or has expired; a dequeue publishes the head entry, advances the head and
re-arms the timer for 50000 us; hence nothing is dequeued while a publish is in flight,
and with a clock that does not run backwards two consecutive dequeues are at least
50000 us apart. -/
theorem C12_drenagem_limitada (e : EntradasNucleo1) (q : Nucleo1) :
    ((loop_nucleo1 e q).publicadas ≠ q.publicadas →
      e.mqtt_is_publishing = false ∧
      (receber_fifo e q).queue_head ≠ (receber_fifo e q).queue_tail ∧
      (q.timer_entre_publicacoes.ativo = false ∨
        (timer_expirou q.timer_entre_publicacoes e.agora).1 = true) ∧
      (loop_nucleo1 e q).publicadas = q.publicadas ++
        [(receber_fifo e q).publication_queue.getD q.queue_head publication_vazia] ∧
      (loop_nucleo1 e q).queue_head = (q.queue_head + 1) % QUEUE_SIZE ∧
      (loop_nucleo1 e q).timer_entre_publicacoes
        = { ativo := true, inicio := e.agora, duracao_us := 50000 }) ∧
    (e.mqtt_is_publishing = true → (loop_nucleo1 e q).publicadas = q.publicadas) ∧
    (∀ (es : List EntradasNucleo1) (e2 : EntradasNucleo1),
      (loop_nucleo1 e q).publicadas ≠ q.publicadas →
      (executar_nucleo1 (loop_nucleo1 e q) es).publicadas = (loop_nucleo1 e q).publicadas →
      (loop_nucleo1 e2 (executar_nucleo1 (loop_nucleo1 e q) es)).publicadas
        ≠ (executar_nucleo1 (loop_nucleo1 e q) es).publicadas →
      e.agora ≤ e2.agora →
      e.agora + 50000 ≤ e2.agora) := by
  obtain ⟨r1, r2, r3⟩ := receber_fifo_resto e q
  have hdeq : ∀ (e' : EntradasNucleo1) (q' : Nucleo1),
      (loop_nucleo1 e' q').publicadas ≠ q'.publicadas →
      e'.mqtt_is_publishing = false ∧
      (receber_fifo e' q').queue_head ≠ (receber_fifo e' q').queue_tail ∧
      (q'.timer_entre_publicacoes.ativo = false ∨
        (timer_expirou q'.timer_entre_publicacoes e'.agora).1 = true) ∧
      (loop_nucleo1 e' q').publicadas = q'.publicadas ++
        [(receber_fifo e' q').publication_queue.getD q'.queue_head publication_vazia] ∧
      (loop_nucleo1 e' q').queue_head = (q'.queue_head + 1) % QUEUE_SIZE ∧
      (loop_nucleo1 e' q').timer_entre_publicacoes
        = { ativo := true, inicio := e'.agora, duracao_us := 50000 } := by
    intro e' q' h
    obtain ⟨s1, s2, s3⟩ := receber_fifo_resto e' q'
    unfold loop_nucleo1 at h ⊢
    rcases drenar_fila_casos e' (receber_fifo e' q') with ⟨a, b, c, d, f, g⟩ | ⟨a, _, _⟩
    · rw [s3] at g
      rw [s1, s2] at a
      rw [s2] at b
      exact ⟨d, f, g, a, b, c⟩
    · rw [a, s1] at h
      exact absurd rfl h
  refine ⟨hdeq e q, ?_, ?_⟩
  · intro hp
    by_contra hne
    have := (hdeq e q hne).1
    rw [hp] at this
    exact absurd this (by simp)
  · intro es e2 h1 h2 h3 hle
    have t1 := (hdeq e q h1).2.2.2.2.2
    have t2 := executar_nucleo1_sem_publicar es _ h2
    have t3 := (hdeq e2 _ h3).2.2.1
    rw [t2, t1] at t3
    rcases t3 with t3 | t3
    · exact absurd t3 (by simp)
    · unfold timer_expirou absolute_time_diff_us at t3
      simp only [Bool.not_true, Bool.false_eq_true, if_false] at t3
      split_ifs at t3 with hd
      omega

/-! ## The inter-core word of a publish request -/

theorem and_0xFF (n : Nat) : n &&& 0xFF = n % 256 :=
  Nat.and_pow_two_sub_one_eq_mod n 8

theorem and_0xFFFF (n : Nat) : n &&& 0xFFFF = n % 65536 :=
  Nat.and_pow_two_sub_one_eq_mod n 16

theorem pacote_publicacao_valor (k c : Nat) :
    pacote_publicacao k c = 0xADD0 * 2 ^ 16 + (c % 256) * 2 ^ 8 + k % 256 := by
  unfold pacote_publicacao FIFO_CMD_PUBLICAR_MQTT
  simp only [and_0xFF, Nat.shiftLeft_eq]
  have h1 : k % 256 ||| c % 256 * 2 ^ 8 = c % 256 * 2 ^ 8 + k % 256 := by
    rw [Nat.lor_comm, Nat.mul_comm (c % 256) (2 ^ 8)]
    exact (Nat.mul_add_lt_is_or (by omega) _).symm
  rw [h1]
  have h2 : (c % 256 * 2 ^ 8 + k % 256) % 2 ^ 16 = c % 256 * 2 ^ 8 + k % 256 := by
    apply Nat.mod_eq_of_lt; omega
  rw [h2]
  have h3 : 0xADD0 * 2 ^ 16 ||| (c % 256 * 2 ^ 8 + k % 256)
      = 0xADD0 * 2 ^ 16 + (c % 256 * 2 ^ 8 + k % 256) := by
    rw [Nat.mul_comm 0xADD0 (2 ^ 16)]
    exact (Nat.mul_add_lt_is_or (by omega) _).symm
  rw [h3]
  rw [Nat.mod_eq_of_lt (by omega)]
  omega

theorem desempacotar_valor (w : Nat) :
    comando_do_pacote w = w % 2 ^ 32 / 2 ^ 16 ∧
    tipo_msg_do_pacote w = w % 256 ∧
    cor_id_do_pacote w = w / 256 % 256 := by
  unfold comando_do_pacote tipo_msg_do_pacote cor_id_do_pacote valor_do_pacote
  simp only [and_0xFF, and_0xFFFF, Nat.shiftRight_eq_div_pow]
  refine ⟨?_, ?_, ?_⟩ <;> omega

/-- C14: the word `solicitar_publicacao_mqtt` builds for kind `k` and color `c` is, as
an unsigned 32-bit value, `0xADD0 * 2^16 + (c mod 256) * 2^8 + (k mod 256)`: bits 31-16
hold the command code, bits 15-8 the color byte and bits 7-0 the kind byte; this is the
word the function pushes to the FIFO. -/
theorem C14_formato_do_pacote (k c : Nat) :
    pacote_publicacao k c = 0xADD0 * 2 ^ 16 + (c % 256) * 2 ^ 8 + k % 256 ∧
    pacote_publicacao k c < 2 ^ 32 ∧
    pacote_publicacao k c / 2 ^ 16 = 0xADD0 ∧
    pacote_publicacao k c / 2 ^ 8 % 2 ^ 8 = c % 256 ∧
    pacote_publicacao k c % 2 ^ 8 = k % 256 ∧
    (∀ (tipo_msg : MQTT_MSG_TYPE) (cor : CorDetectada) (s : Sistema),
      novos_efeitos s (solicitar_publicacao_mqtt tipo_msg cor s)
        = [Efeito.multicore_fifo_push_blocking
            (0xADD0 * 2 ^ 16 + cor.toNat * 2 ^ 8 + tipo_msg.toNat)]) := by
  have h := pacote_publicacao_valor k c
  refine ⟨h, ?_, ?_, ?_, ?_, ?_⟩
  · rw [h]; omega
  · rw [h]; omega
  · rw [h]; omega
  · rw [h]; omega
  · intro tipo_msg cor s
    have hc : cor.toNat % 256 = cor.toNat := by cases cor <;> rfl
    have ht : tipo_msg.toNat % 256 = tipo_msg.toNat := by cases tipo_msg <;> rfl
    simp only [solicitar_publicacao_mqtt, emitir, novos_efeitos, List.drop_left,
      pacote_publicacao_valor, hc, ht]

/-- C13: for every kind `k` and color `c` that fit in one byte, the word built by
`solicitar_publicacao_mqtt` decodes on core 1 to the publish-request command and to the
same pair `(k, c)`, so the entry enqueued is the one composed for `(k, c)`; in
particular for the heartbeat kind with color None. -/
theorem C13_ida_e_volta_do_pacote (k c : Nat) (hk : k < 256) (hc : c < 256) :
    comando_do_pacote (pacote_publicacao k c) = FIFO_CMD_PUBLICAR_MQTT ∧
    tipo_msg_do_pacote (pacote_publicacao k c) = k ∧
    cor_id_do_pacote (pacote_publicacao k c) = c ∧
    (∀ (e : EntradasNucleo1) (q : Nucleo1), e.fifo = some (pacote_publicacao k c) →
      receber_fifo e q = enfileirar
        { topico := truncar99 (DEVICE_ID ++ "/" ++ (montar_mensagem e k c).1)
          mensagem := truncar99 (montar_mensagem e k c).2 } q) ∧
    comando_do_pacote (pedido MSG_LOG_HEARTBEAT COR_NENHUMA) = FIFO_CMD_PUBLICAR_MQTT ∧
    tipo_msg_do_pacote (pedido MSG_LOG_HEARTBEAT COR_NENHUMA) = MSG_LOG_HEARTBEAT.toNat ∧
    cor_id_do_pacote (pedido MSG_LOG_HEARTBEAT COR_NENHUMA) = COR_NENHUMA.toNat := by
  obtain ⟨d1, d2, d3⟩ := desempacotar_valor (pacote_publicacao k c)
  have h := pacote_publicacao_valor k c
  have e1 : comando_do_pacote (pacote_publicacao k c) = FIFO_CMD_PUBLICAR_MQTT := by
    rw [d1, h]; unfold FIFO_CMD_PUBLICAR_MQTT; omega
  have e2 : tipo_msg_do_pacote (pacote_publicacao k c) = k := by rw [d2, h]; omega
  have e3 : cor_id_do_pacote (pacote_publicacao k c) = c := by rw [d3, h]; omega
  refine ⟨e1, e2, e3, ?_, by decide, by decide, by decide⟩
  intro e q hf
  have hcmd : ((pacote_publicacao k c % 2 ^ 32) >>> 16) % 2 ^ 16 = FIFO_CMD_PUBLICAR_MQTT := e1
  unfold receber_fifo
  rw [hf]
  simp only [hcmd, if_true]
  rw [entrada_da_fila_desempacota, e2, e3]

/-! ## Timers -/

theorem timer_expirou_desarmado (t : TimerNaoBloqueante) (agora : Nat) (h : t.ativo = false) :
    timer_expirou t agora = (false, t) := by
  unfold timer_expirou
  simp [h]

theorem timer_expirou_true (t : TimerNaoBloqueante) (agora : Nat)
    (h : (timer_expirou t agora).1 = true) :
    t.ativo = true ∧ (timer_expirou t agora).2 = { t with ativo := false } := by
  unfold timer_expirou at h ⊢
  by_cases h1 : (!t.ativo) = true
  · rw [if_pos h1] at h
    exact absurd h (by simp)
  · by_cases h2 : t.duracao_us ≤ (absolute_time_diff_us t.inicio agora % 2 ^ 64).toNat
    · rw [if_neg h1, if_pos h2]
      exact ⟨by simpa using h1, rfl⟩
    · rw [if_neg h1, if_neg h2] at h
      exact absurd h (by simp)

/-- C15: `timer_expirou` returns false for every unarmed timer; for an armed timer
started at or before the current instant (64-bit clock) it returns true exactly when the
time elapsed since the start is at least the duration; when it returns true the timer is
left unarmed with start and duration kept, and when it returns false the timer is
unchanged. -/
theorem C15_timer_expirou (t : TimerNaoBloqueante) (agora : Nat) :
    (t.ativo = false → (timer_expirou t agora).1 = false) ∧
    (t.ativo = true → t.inicio ≤ agora → agora < 2 ^ 64 →
      ((timer_expirou t agora).1 = true ↔ t.duracao_us ≤ agora - t.inicio)) ∧
    ((timer_expirou t agora).1 = true →
      (timer_expirou t agora).2 = { t with ativo := false } ∧
      (timer_expirou t agora).2.ativo = false) ∧
    ((timer_expirou t agora).1 = false → (timer_expirou t agora).2 = t) := by
  refine ⟨?_, ?_, ?_, timer_expirou_false t agora⟩
  · intro h
    rw [timer_expirou_desarmado t agora h]
  · intro ha hle hlt
    have hd : (absolute_time_diff_us t.inicio agora % 2 ^ 64).toNat = agora - t.inicio := by
      unfold absolute_time_diff_us
      omega
    unfold timer_expirou
    rw [hd]
    simp only [ha, Bool.not_true, Bool.false_eq_true, if_false]
    split_ifs with h <;> simp [h]
  · intro h
    obtain ⟨_, h2⟩ := timer_expirou_true t agora h
    exact ⟨h2, by rw [h2]⟩

theorem timer_expirou_seq_desarmado (as : List Nat) :
    ∀ t : TimerNaoBloqueante, t.ativo = false →
      (timer_expirou_seq t as).1 = List.replicate as.length false ∧
      (timer_expirou_seq t as).2 = t := by
  induction as with
  | nil => intro t _; exact ⟨rfl, rfl⟩
  | cons a as ih =>
    intro t h
    have h1 := timer_expirou_desarmado t a h
    obtain ⟨i1, i2⟩ := ih t h
    simp only [timer_expirou_seq, h1, List.length_cons, List.replicate_succ]
    exact ⟨by rw [i1], i2⟩

/-- C16: once `timer_expirou` has returned true for a timer, every later call on it, at
any instants, returns false and leaves it as it is, as long as `timer_iniciar` is not
called; `timer_iniciar(t, d)` leaves the timer armed with start = now and duration = d
whatever it held before, after which it fires again (once) when polled at or after
now + d. -/
theorem C16_timer_dispara_uma_vez (t : TimerNaoBloqueante) (agora : Nat) (as : List Nat)
    (h : (timer_expirou t agora).1 = true) :
    (timer_expirou_seq (timer_expirou t agora).2 as).1 = List.replicate as.length false ∧
    (∀ b ∈ (timer_expirou_seq (timer_expirou t agora).2 as).1, b = false) ∧
    (timer_expirou_seq (timer_expirou t agora).2 as).2 = (timer_expirou t agora).2 ∧
    (∀ (now d : Nat), timer_iniciar now d = { ativo := true, inicio := now, duracao_us := d }) ∧
    (∀ (now d depois : Nat), now + d ≤ depois → depois < 2 ^ 64 →
      (timer_expirou (timer_iniciar now d) depois).1 = true) := by
  have hoff : (timer_expirou t agora).2.ativo = false := by
    rw [(timer_expirou_true t agora h).2]
  obtain ⟨s1, s2⟩ := timer_expirou_seq_desarmado as _ hoff
  refine ⟨s1, ?_, s2, fun _ _ => rfl, ?_⟩
  · intro b hb
    rw [s1] at hb
    exact List.eq_of_mem_replicate hb
  · intro now d depois hle hlt
    unfold timer_expirou timer_iniciar absolute_time_diff_us
    simp only [Bool.not_true, Bool.false_eq_true, if_false]
    rw [if_pos (by omega)]

/-! ## Emergency toggle -/

theorem verificar_fifo_emergencia_desliga (e : Entradas) (s : Sistema) (pacote : Nat)
    (hmodo : s.modo_atual = MODO_EMERGENCIA_INCENDIO) (hf : e.fifo = some pacote)
    (hc : comando_do_pacote pacote = FIFO_CMD_MUDAR_ESTADO)
    (hv : valor_do_pacote pacote = MODO_EMERGENCIA_INCENDIO) :
    verificar_fifo e s = desativar_modo_emergencia e s := by
  unfold comando_do_pacote at hc
  unfold valor_do_pacote at hv
  unfold verificar_fifo
  rw [hf]
  simp only [hc, hv, hmodo, if_true]

theorem comandos_servo_map_pio (f : Nat → Nat) (buf : List Nat) :
    comandos_servo (buf.map (fun p => Efeito.pio_sm_put_blocking (f p))) = [] := by
  induction buf with
  | nil => rfl
  | cons a l ih => simp [comandos_servo]

theorem publicacoes_map_pio (f : Nat → Nat) (buf : List Nat) :
    publicacoes (buf.map (fun p => Efeito.pio_sm_put_blocking (f p))) = [] := by
  induction buf with
  | nil => rfl
  | cons a l ih => simp [publicacoes]

theorem comandos_servo_nil : comandos_servo [] = [] := rfl

theorem publicacoes_nil : publicacoes [] = [] := rfl

theorem comandos_servo_cons (ef : Efeito) (l : List Efeito) :
    comandos_servo (ef :: l) =
      (match ef with
        | Efeito.servo_start_move a => [a]
        | _ => []) ++ comandos_servo l := by
  cases ef <;> simp [comandos_servo]

theorem publicacoes_cons (ef : Efeito) (l : List Efeito) :
    publicacoes (ef :: l) =
      (match ef with
        | Efeito.multicore_fifo_push_blocking p => [p]
        | _ => []) ++ publicacoes l := by
  cases ef <;> simp [publicacoes]

/-- Fields and driver calls of `desativar_modo_emergencia`. -/
theorem desativar_modo_emergencia_efeito (e : Entradas) (s : Sistema) :
    (desativar_modo_emergencia e s).modo_atual = MODO_ESPERA ∧
    (desativar_modo_emergencia e s).modo_foi_inicializado = false ∧
    (desativar_modo_emergencia e s).animacao_fogo_ativa = false ∧
    (desativar_modo_emergencia e s).fogo_ativo = false ∧
    (desativar_modo_emergencia e s).efeito_pulso.ativo = false ∧
    (desativar_modo_emergencia e s).timer_alarme_beep.ativo = false ∧
    (desativar_modo_emergencia e s).status_aberto = false ∧
    comandos_servo (novos_efeitos s (desativar_modo_emergencia e s)) = [0] ∧
    publicacoes (novos_efeitos s (desativar_modo_emergencia e s)) =
      [pedido MSG_LOG_EMERGENCIA_INCENDIO_OFF COR_NENHUMA,
       pedido MSG_STATUS_SISTEMA_FECHADO COR_NENHUMA] := by
  simp [desativar_modo_emergencia, reset_visual_state, acionar_fechamento,
    matriz_parar_animacao_fogo, solicitar_publicacao_mqtt, set_rgb_solid,
    led_parar_pulso, emitir, matriz_limpar, matriz_renderizar, novos_efeitos,
    comandos_servo_append, publicacoes_append, comandos_servo_map_pio, publicacoes_map_pio,
    comandos_servo_cons, publicacoes_cons, comandos_servo_nil, publicacoes_nil, pedido]

/-- C17: in FireEmergency, handling a mode-change word whose payload is the
FireEmergency ordinal leaves mode Waiting with the initialised flag false, the fire
animation flag and the pulse effect inactive, the beep timer disarmed and the open flag
false; the servo is commanded once, to the closed angle 0, and the publish requests are
alarm-off followed by system-closed. -/
theorem C17_desligar_emergencia (e : Entradas) (s : Sistema) (pacote : Nat)
    (hmodo : s.modo_atual = MODO_EMERGENCIA_INCENDIO) (hf : e.fifo = some pacote)
    (hc : comando_do_pacote pacote = FIFO_CMD_MUDAR_ESTADO)
    (hv : valor_do_pacote pacote = MODO_EMERGENCIA_INCENDIO) :
    (verificar_fifo e s).modo_atual = MODO_ESPERA ∧
    (verificar_fifo e s).modo_foi_inicializado = false ∧
    (verificar_fifo e s).animacao_fogo_ativa = false ∧
    (verificar_fifo e s).fogo_ativo = false ∧
    (verificar_fifo e s).efeito_pulso.ativo = false ∧
    (verificar_fifo e s).timer_alarme_beep.ativo = false ∧
    (verificar_fifo e s).status_aberto = false ∧
    comandos_servo (novos_efeitos s (verificar_fifo e s)) = [0] ∧
    publicacoes (novos_efeitos s (verificar_fifo e s)) =
      [pedido MSG_LOG_EMERGENCIA_INCENDIO_OFF COR_NENHUMA,
       pedido MSG_STATUS_SISTEMA_FECHADO COR_NENHUMA] := by
  rw [verificar_fifo_emergencia_desliga e s pacote hmodo hf hc hv]
  exact desativar_modo_emergencia_efeito e s

/-! ## The mode field holds one byte -/

theorem handle_modo_emergencia_modo (e : Entradas) (s : Sistema) :
    (handle_modo_emergencia e s).modo_atual = s.modo_atual := by
  unfold handle_modo_emergencia
  simp only []
  split_ifs <;> rfl

theorem maquina_estados_modo_byte (e : Entradas) (s : Sistema) (hm : s.modo_atual < 2 ^ 8) :
    (maquina_estados e s).modo_atual < 2 ^ 8 := by
  unfold maquina_estados
  split_ifs
  · rcases handle_modo_espera_resumo e s with ⟨a, _, _⟩ | ⟨a, _, _⟩ <;> rw [a]
    · exact hm
    · decide
  · rcases (handle_modo_aguarda_senha_resumo e s).1 with ⟨a, _⟩ | ⟨a, _⟩
    · rw [a]; exact hm
    · rcases a with a | a | a | a <;> rw [a] <;> decide
  · rcases (handle_modo_aberto_resumo e s).1 with ⟨a, _⟩ | ⟨a, _⟩ <;> rw [a]
    · exact hm
    · decide
  · rcases handle_admin_aguardando_cartao_resumo e s with ⟨a, _, _⟩ | ⟨a, _, _⟩ <;> rw [a]
    · exact hm
    · decide
  · rcases (handle_admin_aguardando_nova_senha_resumo e s).1 with ⟨a, _⟩ | ⟨a, _⟩
    · rw [a]; exact hm
    · rcases a with a | a | a <;> rw [a] <;> decide
  · rcases (handle_modo_mensagem_resumo e s).1 with ⟨a, _⟩ | ⟨a, _⟩ <;> rw [a]
    · exact hm
    · decide
  · rw [handle_modo_emergencia_modo]; exact hm
  · simp only [handle_modo_invalido]
    decide

theorem verificar_fifo_modo_byte (e : Entradas) (s : Sistema) (hm : s.modo_atual < 2 ^ 8) :
    (verificar_fifo e s).modo_atual < 2 ^ 8 := by
  unfold verificar_fifo
  cases hp : e.fifo with
  | none => exact hm
  | some pacote =>
    simp only []
    split_ifs with h1 h2 h3
    · rw [(desativar_modo_emergencia_efeito e s).1]; decide
    · exact Nat.mod_lt _ (by decide)
    · exact Nat.mod_lt _ (by decide)
    · exact hm

/-- The mode of every state the main loop can be in fits the one-byte field that holds
it in the C structure. -/
theorem alcancavel_modo_byte (s : Sistema) (h : Alcancavel s) : s.modo_atual < 2 ^ 8 := by
  induction h with
  | inicio => decide
  | passo e s _ ih =>
    rw [(controle_modo _ _ (controle_loop_principal e s)).1]
    exact maquina_estados_modo_byte e _ (verificar_fifo_modo_byte e s ih)

/-! ## Entering FireEmergency -/

/-- C19 (the code at a failing input): from the initial state, a green card, the keys
`1 3 3 7 #` and four quiet ticks lead to Open with the countdown ring as the only active
animation; the iteration that then receives the FireEmergency mode-change word ends in
FireEmergency with the initialised flag and the fire flag set, but the countdown flag is
still set and the pulse effect is inactive: the entry block does not reset the visuals,
and the countdown block of the same iteration calls `set_rgb_solid`, which stops the red
pulse the entry block has just started. -/
theorem C19_emergencia_a_partir_de_aberto :
    (executar estado_inicial cenario_aberto_estavel).modo_atual = MODO_ABERTO ∧
    (executar estado_inicial cenario_aberto_estavel).animacao_circulo_tempo_ativa = true ∧
    (executar estado_inicial cenario_aberto_estavel).animacao_sucesso_ativa = false ∧
    (executar estado_inicial cenario_aberto_estavel).animacao_erro_ativa = false ∧
    (executar estado_inicial cenario_aberto_estavel).animacao_timeout_ativa = false ∧
    (executar estado_inicial cenario_aberto_estavel).animacao_fechando_ativa = false ∧
    (executar estado_inicial cenario_aberto_estavel).animacao_digitacao_ativa = false ∧
    comando_do_pacote (pacote_mudar_estado 10) = FIFO_CMD_MUDAR_ESTADO ∧
    valor_do_pacote (pacote_mudar_estado 10) = MODO_EMERGENCIA_INCENDIO ∧
    (loop_principal (entradas_fifo 1000000 (pacote_mudar_estado 10))
      (executar estado_inicial cenario_aberto_estavel)).modo_atual = MODO_EMERGENCIA_INCENDIO ∧
    (loop_principal (entradas_fifo 1000000 (pacote_mudar_estado 10))
      (executar estado_inicial cenario_aberto_estavel)).modo_foi_inicializado = true ∧
    (loop_principal (entradas_fifo 1000000 (pacote_mudar_estado 10))
      (executar estado_inicial cenario_aberto_estavel)).animacao_fogo_ativa = true ∧
    (loop_principal (entradas_fifo 1000000 (pacote_mudar_estado 10))
      (executar estado_inicial cenario_aberto_estavel)).animacao_circulo_tempo_ativa = true ∧
    (loop_principal (entradas_fifo 1000000 (pacote_mudar_estado 10))
      (executar estado_inicial cenario_aberto_estavel)).efeito_pulso.ativo = false := by
  decide

/-! ## Admin: committing a new password -/

theorem cstr_strcpy (dst src : List Char) : cstr (strcpy dst src) = cstr src := by
  unfold strcpy cstr
  rw [List.append_assoc, List.takeWhile_append_of_pos]
  · simp
  · intro c hc
    exact List.mem_takeWhile_imp (p := fun c => c != NUL) hc

theorem admin_nova_senha_prologo_completo (e : Entradas) (s : Sistema) :
    ∃ p : Sistema, handle_admin_aguardando_nova_senha e s = admin_nova_senha_teclado e p ∧
      p.senha_digitada = s.senha_digitada ∧ p.digitos_count = s.digitos_count ∧
      p.cor_ativa = s.cor_ativa ∧ p.SENHA_VERDE = s.SENHA_VERDE ∧
      p.SENHA_VERMELHA = s.SENHA_VERMELHA ∧ p.SENHA_AZUL = s.SENHA_AZUL ∧
      s.traco <+: p.traco ∧ publicacoes (novos_efeitos s p) = [] := by
  unfold handle_admin_aguardando_nova_senha
  simp only [display_deve_atualizar]
  split_ifs <;> refine ⟨_, rfl, rfl, rfl, rfl, rfl, rfl, rfl, ?_, ?_⟩ <;>
    simp [set_rgb_solid, led_parar_pulso, emitir, novos_efeitos, publicacoes_cons,
      publicacoes_nil]

/-- The `#` branch of the admin handler on a state whose relevant fields are those of
`s`. -/
theorem admin_confirmar_efeito (s p : Sistema)
    (hb : p.senha_digitada = s.senha_digitada) (hn : p.digitos_count = s.digitos_count)
    (hc : p.cor_ativa = s.cor_ativa) (h1 : p.SENHA_VERDE = s.SENHA_VERDE)
    (h2 : p.SENHA_VERMELHA = s.SENHA_VERMELHA) (h3 : p.SENHA_AZUL = s.SENHA_AZUL) :
    (s.digitos_count = 4 →
      (admin_confirmar p).modo_atual = MODO_ADMIN_MSG_SUCESSO ∧
      publicacoes (novos_efeitos p (admin_confirmar p))
        = [pedido MSG_LOG_ADMIN_SENHA_ALTERADA s.cor_ativa] ∧
      (s.cor_ativa = COR_VERDE →
        (admin_confirmar p).SENHA_VERDE = strcpy s.SENHA_VERDE s.senha_digitada ∧
        (admin_confirmar p).SENHA_VERMELHA = s.SENHA_VERMELHA ∧
        (admin_confirmar p).SENHA_AZUL = s.SENHA_AZUL) ∧
      (s.cor_ativa = COR_VERMELHA →
        (admin_confirmar p).SENHA_VERMELHA = strcpy s.SENHA_VERMELHA s.senha_digitada ∧
        (admin_confirmar p).SENHA_VERDE = s.SENHA_VERDE ∧
        (admin_confirmar p).SENHA_AZUL = s.SENHA_AZUL) ∧
      (s.cor_ativa = COR_AZUL →
        (admin_confirmar p).SENHA_AZUL = strcpy s.SENHA_AZUL s.senha_digitada ∧
        (admin_confirmar p).SENHA_VERDE = s.SENHA_VERDE ∧
        (admin_confirmar p).SENHA_VERMELHA = s.SENHA_VERMELHA)) ∧
    (s.digitos_count ≠ 4 →
      (admin_confirmar p).modo_atual = MODO_ADMIN_MSG_ERRO_FORMATO ∧
      publicacoes (novos_efeitos p (admin_confirmar p)) = [] ∧
      (admin_confirmar p).SENHA_VERDE = s.SENHA_VERDE ∧
      (admin_confirmar p).SENHA_VERMELHA = s.SENHA_VERMELHA ∧
      (admin_confirmar p).SENHA_AZUL = s.SENHA_AZUL) ∧
    p.traco <+: (admin_confirmar p).traco := by
  unfold admin_confirmar
  rw [hn]
  refine ⟨?_, ?_, ?_⟩
  · intro h4
    rw [if_pos h4]
    cases hcor : s.cor_ativa <;> rw [hcor] at hc <;>
      simp [hc, hb, h1, h2, h3, feedback_tocar_sucesso, solicitar_publicacao_mqtt, set_rgb_solid,
        led_parar_pulso, emitir, novos_efeitos, publicacoes_cons, publicacoes_nil, pedido]
  · intro h4
    rw [if_neg h4]
    simp [h1, h2, h3, feedback_tocar_erro, set_rgb_solid, led_parar_pulso, emitir,
      novos_efeitos, publicacoes_cons, publicacoes_nil]
  · split_ifs
    · cases hcor : p.cor_ativa <;>
        simp [feedback_tocar_sucesso, solicitar_publicacao_mqtt, set_rgb_solid,
          led_parar_pulso, emitir]
    · simp [feedback_tocar_erro, set_rgb_solid, led_parar_pulso, emitir]

theorem admin_nova_senha_teclado_cerquilha (e : Entradas) (p : Sistema) (ht : e.tecla = '#') :
    admin_nova_senha_teclado e p
      = admin_confirmar (emitir (Efeito.buzzer_play_tone 1500 50) p) := by
  have hnul : ¬ ('#' : Char) = NUL := by decide
  unfold admin_nova_senha_teclado
  simp only [ht, ne_eq, hnul, not_false_eq_true, if_true]

/-- The commit with a card color: in AdminAwaitingNewPassword, a dispatch with key `#`:
when the digit count is 4, the only publish request is password-changed with the active
color and the mode becomes AdminMsgSuccess, and when the active color is Green, Red or
Blue, `strcpy` writes the typed buffer over the stored password of that color, so that
password equals the buffer as a C string, and the other two are unchanged; when the
digit count is not 4, no stored password changes, nothing is published and the mode
becomes AdminMsgFormatError. -/
theorem admin_confirma_senha_do_cartao (e : Entradas) (s : Sistema)
    (hmodo : s.modo_atual = MODO_ADMIN_AGUARDANDO_NOVA_SENHA) (htecla : e.tecla = '#') :
    (s.digitos_count = 4 →
      (maquina_estados e s).modo_atual = MODO_ADMIN_MSG_SUCESSO ∧
      publicacoes (novos_efeitos s (maquina_estados e s))
        = [pedido MSG_LOG_ADMIN_SENHA_ALTERADA s.cor_ativa] ∧
      (s.cor_ativa = COR_VERDE →
        cstr (maquina_estados e s).SENHA_VERDE = cstr s.senha_digitada ∧
        (maquina_estados e s).SENHA_VERMELHA = s.SENHA_VERMELHA ∧
        (maquina_estados e s).SENHA_AZUL = s.SENHA_AZUL) ∧
      (s.cor_ativa = COR_VERMELHA →
        cstr (maquina_estados e s).SENHA_VERMELHA = cstr s.senha_digitada ∧
        (maquina_estados e s).SENHA_VERDE = s.SENHA_VERDE ∧
        (maquina_estados e s).SENHA_AZUL = s.SENHA_AZUL) ∧
      (s.cor_ativa = COR_AZUL →
        cstr (maquina_estados e s).SENHA_AZUL = cstr s.senha_digitada ∧
        (maquina_estados e s).SENHA_VERDE = s.SENHA_VERDE ∧
        (maquina_estados e s).SENHA_VERMELHA = s.SENHA_VERMELHA)) ∧
    (s.digitos_count ≠ 4 →
      (maquina_estados e s).modo_atual = MODO_ADMIN_MSG_ERRO_FORMATO ∧
      publicacoes (novos_efeitos s (maquina_estados e s)) = [] ∧
      (maquina_estados e s).SENHA_VERDE = s.SENHA_VERDE ∧
      (maquina_estados e s).SENHA_VERMELHA = s.SENHA_VERMELHA ∧
      (maquina_estados e s).SENHA_AZUL = s.SENHA_AZUL) := by
  have hd : maquina_estados e s = handle_admin_aguardando_nova_senha e s := by
    simp [maquina_estados, hmodo]
  obtain ⟨p, hp, hb, hn, hc, h1, h2, h3, hpre, hpub⟩ := admin_nova_senha_prologo_completo e s
  rw [hd, hp, admin_nova_senha_teclado_cerquilha e p htecla]
  obtain ⟨k4, kn, kpre⟩ := admin_confirmar_efeito s (emitir (Efeito.buzzer_play_tone 1500 50) p)
    hb hn hc h1 h2 h3
  have hpre2 : p.traco <+: (emitir (Efeito.buzzer_play_tone 1500 50) p).traco := by
    simp [emitir]
  have hbeep : publicacoes (novos_efeitos p (emitir (Efeito.buzzer_play_tone 1500 50) p)) = [] := by
    simp [novos_efeitos, emitir, publicacoes_cons, publicacoes_nil]
  have htr : publicacoes (novos_efeitos s
      (admin_confirmar (emitir (Efeito.buzzer_play_tone 1500 50) p)))
      = publicacoes (novos_efeitos (emitir (Efeito.buzzer_play_tone 1500 50) p)
          (admin_confirmar (emitir (Efeito.buzzer_play_tone 1500 50) p))) := by
    rw [novos_efeitos_trans s p _ hpre (List.IsPrefix.trans hpre2 kpre),
      novos_efeitos_trans p _ _ hpre2 kpre, publicacoes_append, publicacoes_append, hpub, hbeep]
    rfl
  rw [htr]
  constructor
  · intro h4
    obtain ⟨a, b, c1, c2, c3⟩ := k4 h4
    refine ⟨a, b, ?_, ?_, ?_⟩
    · intro hv
      obtain ⟨x, y, z⟩ := c1 hv
      exact ⟨by rw [x, cstr_strcpy], y, z⟩
    · intro hv
      obtain ⟨x, y, z⟩ := c2 hv
      exact ⟨by rw [x, cstr_strcpy], y, z⟩
    · intro hv
      obtain ⟨x, y, z⟩ := c3 hv
      exact ⟨by rw [x, cstr_strcpy], y, z⟩
  · intro h4
    exact kn h4

/-- C20 (the code at a failing input): from the initial state, the mode-change word with
payload 4 puts the lock in AdminAwaitingNewPassword with no card read, so the active
color is still None; the keys `9 9 9 9` fill the buffer. On the iteration with key `#`
the digit count is 4, the `switch` on the active color takes its `default` case and
copies nothing: the three stored passwords are as at boot and none equals the buffer,
yet the display shows `SUCESSO!` / `Senha Salva.`, the only publish request is
password-changed with color None and the mode becomes AdminMsgSuccess. -/
theorem C20_confirmacao_sem_cartao :
    comando_do_pacote (pacote_mudar_estado 4) = FIFO_CMD_MUDAR_ESTADO ∧
    valor_do_pacote (pacote_mudar_estado 4) = MODO_ADMIN_AGUARDANDO_NOVA_SENHA ∧
    (executar estado_inicial cenario_admin_sem_cartao).modo_atual
      = MODO_ADMIN_AGUARDANDO_NOVA_SENHA ∧
    (executar estado_inicial cenario_admin_sem_cartao).cor_ativa = COR_NENHUMA ∧
    (executar estado_inicial cenario_admin_sem_cartao).digitos_count = 4 ∧
    cstr (executar estado_inicial cenario_admin_sem_cartao).senha_digitada
      = ['9', '9', '9', '9'] ∧
    (loop_principal (entradas_tecla 6000 '#')
      (executar estado_inicial cenario_admin_sem_cartao)).modo_atual = MODO_ADMIN_MSG_SUCESSO ∧
    publicacoes (novos_efeitos (executar estado_inicial cenario_admin_sem_cartao)
      (loop_principal (entradas_tecla 6000 '#')
        (executar estado_inicial cenario_admin_sem_cartao)))
      = [pedido MSG_LOG_ADMIN_SENHA_ALTERADA COR_NENHUMA] ∧
    Efeito.display_show_message (some "SUCESSO!") (some "Senha Salva.") none ∈
      novos_efeitos (executar estado_inicial cenario_admin_sem_cartao)
        (loop_principal (entradas_tecla 6000 '#')
          (executar estado_inicial cenario_admin_sem_cartao)) ∧
    senhas (loop_principal (entradas_tecla 6000 '#')
      (executar estado_inicial cenario_admin_sem_cartao))
      = (['1', '3', '3', '7', NUL], ['8', '0', '0', '8', NUL], ['4', '2', '4', '2', NUL]) ∧
    senhas (loop_principal (entradas_tecla 6000 '#')
      (executar estado_inicial cenario_admin_sem_cartao)) = senhas estado_inicial := by
  decide

/-! ## Open handler: auto-lock -/

theorem maquina_estados_aberto (e : Entradas) (s : Sistema) (hmodo : s.modo_atual = MODO_ABERTO) :
    maquina_estados e s = handle_modo_aberto e s := by
  simp [maquina_estados, hmodo]

/-- When the auto-lock timer has expired, the Open handler publishes the auto-lock
event and runs the close sequence. -/
theorem handle_modo_aberto_expirado (e : Entradas) (s : Sistema)
    (h : (timer_expirou s.timer_auto_trava e.agora).1 = true) :
    (handle_modo_aberto e s).modo_atual = MODO_ESPERA ∧
    (handle_modo_aberto e s).modo_foi_inicializado = false ∧
    (handle_modo_aberto e s).animacao_circulo_tempo_ativa = false ∧
    (handle_modo_aberto e s).animacao_fechando_ativa = true ∧
    (handle_modo_aberto e s).status_aberto = false ∧
    (handle_modo_aberto e s).timer_servo = timer_iniciar e.agora 500000 ∧
    comandos_servo (novos_efeitos s (handle_modo_aberto e s)) = [0] ∧
    publicacoes (novos_efeitos s (handle_modo_aberto e s)) =
      [pedido MSG_LOG_EVENTO_AUTO_LOCK COR_NENHUMA,
       pedido MSG_STATUS_SISTEMA_FECHADO COR_NENHUMA] := by
  unfold handle_modo_aberto
  simp only [display_deve_atualizar]
  split_ifs <;>
    simp_all [acionar_fechamento, solicitar_publicacao_mqtt, set_rgb_solid, led_parar_pulso,
      emitir, novos_efeitos, comandos_servo_cons, publicacoes_cons, comandos_servo_nil,
      publicacoes_nil, SERVO_MOVE_DURATION_US, pedido]

theorem handle_modo_aberto_nao_expirado (e : Entradas) (s : Sistema)
    (h : (timer_expirou s.timer_auto_trava e.agora).1 = false) :
    (handle_modo_aberto e s).modo_atual = s.modo_atual ∧
    (handle_modo_aberto e s).status_aberto = s.status_aberto ∧
    comandos_servo (novos_efeitos s (handle_modo_aberto e s)) = [] ∧
    publicacoes (novos_efeitos s (handle_modo_aberto e s)) = [] := by
  unfold handle_modo_aberto
  simp only [display_deve_atualizar]
  split_ifs <;>
    simp_all [emitir, novos_efeitos, comandos_servo_cons, publicacoes_cons,
      comandos_servo_nil, publicacoes_nil]

/-- C21: in Open mode, on a tick at which the auto-lock timer has expired, the state
machine emits the auto-lock publish request and then the system-closed publish request,
and ends with the countdown flag false, the closing-animation flag true, exactly one
actuator command, to angle 0, the servo timer armed at the current instant for
500000 us, the open flag false, and mode Waiting with the initialised flag false; on a
tick at which the timer has not expired the mode remains Open, with no publish request
and no actuator command. -/
theorem C21_trava_automatica (e : Entradas) (s : Sistema) (hmodo : s.modo_atual = MODO_ABERTO) :
    ((timer_expirou s.timer_auto_trava e.agora).1 = true →
      publicacoes (novos_efeitos s (maquina_estados e s)) =
        [pedido MSG_LOG_EVENTO_AUTO_LOCK COR_NENHUMA,
         pedido MSG_STATUS_SISTEMA_FECHADO COR_NENHUMA] ∧
      (maquina_estados e s).animacao_circulo_tempo_ativa = false ∧
      (maquina_estados e s).animacao_fechando_ativa = true ∧
      comandos_servo (novos_efeitos s (maquina_estados e s)) = [0] ∧
      (maquina_estados e s).timer_servo =
        { ativo := true, inicio := e.agora, duracao_us := 500000 } ∧
      (maquina_estados e s).status_aberto = false ∧
      (maquina_estados e s).modo_atual = MODO_ESPERA ∧
      (maquina_estados e s).modo_foi_inicializado = false) ∧
    ((timer_expirou s.timer_auto_trava e.agora).1 = false →
      (maquina_estados e s).modo_atual = MODO_ABERTO ∧
      publicacoes (novos_efeitos s (maquina_estados e s)) = [] ∧
      comandos_servo (novos_efeitos s (maquina_estados e s)) = []) := by
  rw [maquina_estados_aberto e s hmodo]
  constructor
  · intro h
    obtain ⟨h1, h2, h3, h4, h5, h6, h7, h8⟩ := handle_modo_aberto_expirado e s h
    exact ⟨h8, h3, h4, h7, h6, h5, h1, h2⟩
  · intro h
    obtain ⟨h1, _, h3, h4⟩ := handle_modo_aberto_nao_expirado e s h
    exact ⟨h1.trans hmodo, h4, h3⟩

/-! ## Message modes -/

theorem maquina_estados_mensagem (e : Entradas) (s : Sistema) (hmodo : modo_de_mensagem s.modo_atual) :
    maquina_estados e s = handle_modo_mensagem e s := by
  unfold modo_de_mensagem at hmodo
  unfold maquina_estados
  rcases hmodo with h | h | h | h | h <;> simp [h]

theorem timer_expirou_recem_armado (agora duracao : Nat) (h : 0 < duracao) :
    timer_expirou (timer_iniciar agora duracao) agora = (false, timer_iniciar agora duracao) := by
  unfold timer_expirou timer_iniciar absolute_time_diff_us
  simp
  omega

theorem handle_modo_mensagem_entrada (e : Entradas) (s : Sistema)
    (hflag : s.modo_foi_inicializado = false) :
    handle_modo_mensagem e s =
      { s with modo_foi_inicializado := true,
               timer_geral := timer_iniciar e.agora TEMPO_MSG_PADRAO_US } := by
  unfold handle_modo_mensagem
  simp only [hflag, Bool.not_false, if_true]
  rw [timer_expirou_recem_armado e.agora TEMPO_MSG_PADRAO_US (by decide)]
  simp

theorem handle_modo_mensagem_expirado (e : Entradas) (s : Sistema)
    (hflag : s.modo_foi_inicializado = true)
    (h : (timer_expirou s.timer_geral e.agora).1 = true) :
    handle_modo_mensagem e s =
      { reset_visual_state { s with timer_geral := (timer_expirou s.timer_geral e.agora).2 }
        with modo_atual := MODO_ESPERA, modo_foi_inicializado := false } := by
  unfold handle_modo_mensagem
  simp only [hflag, Bool.not_true, Bool.false_eq_true, if_false, h, if_true]

theorem handle_modo_mensagem_espera (e : Entradas) (s : Sistema)
    (hflag : s.modo_foi_inicializado = true)
    (h : (timer_expirou s.timer_geral e.agora).1 = false) :
    handle_modo_mensagem e s = s := by
  have hn : ¬ ((!s.modo_foi_inicializado) = true) := by simp [hflag]
  unfold handle_modo_mensagem
  simp only [if_neg hn, h, timer_expirou_false _ _ h, Bool.false_eq_true, if_false]

/-- C22: in each of the five message modes, the entry tick (initialised flag false) arms
the generic timer at the current instant for 4000000 us and keeps the mode, and the
timer cannot fire on that tick; on a tick past the entry at which the generic timer has
expired, the state machine ends with all seven animation flags false, the pulse effect
inactive, and mode Waiting with the initialised flag false; on a tick past the entry at
which the timer has not expired the state machine changes nothing, and with no
mode-change word on the FIFO the mode at the end of the iteration is unchanged. -/
theorem C22_modos_de_mensagem (e : Entradas) (s : Sistema)
    (hmodo : modo_de_mensagem s.modo_atual) :
    (s.modo_foi_inicializado = false →
      (maquina_estados e s).timer_geral =
        { ativo := true, inicio := e.agora, duracao_us := 4000000 } ∧
      (maquina_estados e s).modo_atual = s.modo_atual ∧
      (maquina_estados e s).modo_foi_inicializado = true) ∧
    (s.modo_foi_inicializado = true → (timer_expirou s.timer_geral e.agora).1 = true →
      flags_animacao (maquina_estados e s) = [false, false, false, false, false, false, false] ∧
      (maquina_estados e s).efeito_pulso.ativo = false ∧
      (maquina_estados e s).modo_atual = MODO_ESPERA ∧
      (maquina_estados e s).modo_foi_inicializado = false) ∧
    (s.modo_foi_inicializado = true → (timer_expirou s.timer_geral e.agora).1 = false →
      maquina_estados e s = s ∧
      ((∀ pacote, e.fifo = some pacote → comando_do_pacote pacote ≠ FIFO_CMD_MUDAR_ESTADO) →
        (loop_principal e s).modo_atual = s.modo_atual)) := by
  rw [maquina_estados_mensagem e s hmodo]
  refine ⟨fun hflag => ?_, fun hflag h => ?_, fun hflag h => ⟨handle_modo_mensagem_espera e s hflag h,
    fun hf => ?_⟩⟩
  · rw [handle_modo_mensagem_entrada e s hflag]
    exact ⟨rfl, rfl, rfl⟩
  · rw [handle_modo_mensagem_expirado e s hflag h]
    exact ⟨rfl, rfl, rfl, rfl⟩
  · rw [(controle_modo _ _ (controle_loop_principal e s)).1, verificar_fifo_sem_comando e s hf,
      maquina_estados_mensagem e s hmodo, handle_modo_mensagem_espera e s hflag h]

/-! ## Invalid mode values -/

theorem novos_efeitos_mesmo_traco (s t : Sistema) (h : t.traco = s.traco) :
    novos_efeitos s t = [] := by
  unfold novos_efeitos
  rw [h]
  simp

theorem handle_modo_aguarda_senha_com_timeout (e : Entradas) (s : Sistema)
    (htimer : (timer_expirou s.timer_timeout_senha e.agora).1 = true) :
    handle_modo_aguarda_senha e s =
      aguarda_senha_timeout
        { aguarda_senha_display e (aguarda_senha_inicializacao s) with
          timer_timeout_senha := (timer_expirou s.timer_timeout_senha e.agora).2 } := by
  have hc := (aguarda_senha_prologo_campos e s).2.2.2.2.2.1
  unfold handle_modo_aguarda_senha
  simp only [hc, htimer, if_true]

/-- Fields and driver calls of the timeout block. -/
theorem aguarda_senha_timeout_efeito (p : Sistema) :
    (aguarda_senha_timeout p).modo_atual = MODO_MSG_TIMEOUT ∧
    (aguarda_senha_timeout p).modo_foi_inicializado = false ∧
    (aguarda_senha_timeout p).animacao_timeout_ativa = true ∧
    (aguarda_senha_timeout p).animacao_digitacao_ativa = false ∧
    (aguarda_senha_timeout p).status_aberto = p.status_aberto ∧
    p.traco <+: (aguarda_senha_timeout p).traco ∧
    comandos_servo (novos_efeitos p (aguarda_senha_timeout p)) = [] ∧
    publicacoes (novos_efeitos p (aguarda_senha_timeout p)) =
      [pedido MSG_LOG_EVENTO_TIMEOUT_SENHA p.cor_ativa] := by
  simp [aguarda_senha_timeout, feedback_tocar_timeout, solicitar_publicacao_mqtt, set_rgb_solid,
    led_parar_pulso, emitir, novos_efeitos, comandos_servo_cons, publicacoes_cons,
    comandos_servo_nil, publicacoes_nil, pedido]

/-- C28: in AwaitingPassword, on a tick at which the password timer has expired, the
state machine ends in MsgTimeout with the initialised flag false, the timeout-animation
flag set and the typing flag cleared; the publish requests of the dispatch are the
awaiting-password status (only when this is also the entry tick) followed by the
password-timeout event with the active color; the result does not depend on the key
pending on the keypad, no actuator command is issued and the open flag keeps its value,
so the lock does not open whatever the key and the buffer. -/
theorem C28_timeout_da_senha (e : Entradas) (s : Sistema)
    (hmodo : s.modo_atual = MODO_AGUARDA_SENHA)
    (htimer : (timer_expirou s.timer_timeout_senha e.agora).1 = true) :
    (maquina_estados e s).modo_atual = MODO_MSG_TIMEOUT ∧
    (maquina_estados e s).modo_foi_inicializado = false ∧
    (maquina_estados e s).animacao_timeout_ativa = true ∧
    (maquina_estados e s).animacao_digitacao_ativa = false ∧
    publicacoes (novos_efeitos s (maquina_estados e s)) =
      (if s.modo_foi_inicializado then [] else [pedido MSG_STATUS_AGUARDANDO_SENHA s.cor_ativa])
        ++ [pedido MSG_LOG_EVENTO_TIMEOUT_SENHA s.cor_ativa] ∧
    (∀ tecla : Char, maquina_estados { e with tecla := tecla } s = maquina_estados e s) ∧
    comandos_servo (novos_efeitos s (maquina_estados e s)) = [] ∧
    (maquina_estados e s).status_aberto = s.status_aberto := by
  have hkey : ∀ tecla : Char, maquina_estados { e with tecla := tecla } s = maquina_estados e s := by
    intro tecla
    rw [maquina_estados_aguarda_senha _ s hmodo, maquina_estados_aguarda_senha e s hmodo,
      handle_modo_aguarda_senha_com_timeout e s htimer,
      handle_modo_aguarda_senha_com_timeout { e with tecla := tecla } s htimer]
    rfl
  refine ⟨?_, ?_, ?_, ?_, ?_, hkey, ?_, ?_⟩ <;>
    rw [maquina_estados_aguarda_senha e s hmodo, handle_modo_aguarda_senha_com_timeout e s htimer]
  all_goals
    obtain ⟨hc, _, _, _, _, _, hst, _, _⟩ := aguarda_senha_prologo_campos e s
    obtain ⟨hpre, hservo, hpub⟩ := aguarda_senha_prologo_traco e s
    generalize aguarda_senha_display e (aguarda_senha_inicializacao s) = p at *
    obtain ⟨h1, h2, h3, h4, h5, h6, h7, h8⟩ := aguarda_senha_timeout_efeito
      { p with timer_timeout_senha := (timer_expirou s.timer_timeout_senha e.agora).2 }
    have htr : novos_efeitos s (aguarda_senha_timeout
          { p with timer_timeout_senha := (timer_expirou s.timer_timeout_senha e.agora).2 })
        = novos_efeitos s p ++ novos_efeitos
            { p with timer_timeout_senha := (timer_expirou s.timer_timeout_senha e.agora).2 }
            (aguarda_senha_timeout
              { p with timer_timeout_senha := (timer_expirou s.timer_timeout_senha e.agora).2 }) :=
      novos_efeitos_trans s
        { p with timer_timeout_senha := (timer_expirou s.timer_timeout_senha e.agora).2 } _ hpre h6
  · exact h1
  · exact h2
  · exact h3
  · exact h4
  · rw [htr, publicacoes_append, hpub, h8]
    exact congrArg _ (congrArg (fun c => [pedido MSG_LOG_EVENTO_TIMEOUT_SENHA c]) hc)
  · rw [htr, comandos_servo_append, hservo, h7]
    rfl
  · exact h5.trans hst

/-! ## feedback.c: error and timeout animations -/

theorem feedback_visual_erro_inicio (e : Entradas) (s : Sistema) (h : s.erro_frame_atual = 0) :
    (feedback_visual_erro_update e s).1 = false ∧
    (feedback_visual_erro_update e s).2.erro_frame_atual = 1 ∧
    (feedback_visual_erro_update e s).2.erro_ultimo_frame_tempo = e.agora := by
  unfold feedback_visual_erro_update
  rw [if_pos h]
  exact ⟨rfl, rfl, rfl⟩

theorem feedback_visual_erro_avanca (e : Entradas) (s : Sistema) (h0 : s.erro_frame_atual ≠ 0)
    (h6 : s.erro_frame_atual < 6) (ht : s.erro_ultimo_frame_tempo + 200000 ≤ e.agora) :
    (feedback_visual_erro_update e s).1 = false ∧
    (feedback_visual_erro_update e s).2.erro_frame_atual = s.erro_frame_atual + 1 ∧
    (feedback_visual_erro_update e s).2.erro_ultimo_frame_tempo = e.agora := by
  have hd : ¬ (absolute_time_diff_us s.erro_ultimo_frame_tempo e.agora < (ERRO_FRAME_DELAY_US : Int)) := by
    unfold absolute_time_diff_us ERRO_FRAME_DELAY_US
    omega
  unfold feedback_visual_erro_update
  rw [if_neg h0, if_neg hd]
  simp only []
  rw [if_pos h6]
  split_ifs <;> exact ⟨rfl, rfl, rfl⟩

theorem feedback_visual_erro_fim (e : Entradas) (s : Sistema) (h0 : s.erro_frame_atual ≠ 0)
    (h6 : ¬ s.erro_frame_atual < 6) (ht : s.erro_ultimo_frame_tempo + 200000 ≤ e.agora) :
    (feedback_visual_erro_update e s).1 = true ∧
    (feedback_visual_erro_update e s).2.erro_frame_atual = 0 ∧
    (feedback_visual_erro_update e s).2.matriz_buffer = buffer_zerado ∧
    (feedback_visual_erro_update e s).2.traco.getLast? = some (Efeito.rgb_led_set_color 0 0 0) := by
  have hd : ¬ (absolute_time_diff_us s.erro_ultimo_frame_tempo e.agora < (ERRO_FRAME_DELAY_US : Int)) := by
    unfold absolute_time_diff_us ERRO_FRAME_DELAY_US
    omega
  unfold feedback_visual_erro_update
  rw [if_neg h0, if_neg hd]
  simp only []
  rw [if_neg h6]
  refine ⟨rfl, rfl, rfl, ?_⟩
  simp [emitir]

theorem feedback_visual_timeout_inicio (e : Entradas) (s : Sistema) (h : s.timeout_frame_atual = 0) :
    (feedback_visual_timeout_update e s).1 = false ∧
    (feedback_visual_timeout_update e s).2.timeout_frame_atual = 1 ∧
    (feedback_visual_timeout_update e s).2.timeout_ultimo_frame_tempo = e.agora := by
  unfold feedback_visual_timeout_update
  rw [if_pos h]
  exact ⟨rfl, rfl, rfl⟩

theorem feedback_visual_timeout_avanca (e : Entradas) (s : Sistema)
    (h0 : s.timeout_frame_atual ≠ 0) (h6 : s.timeout_frame_atual < 6)
    (ht : s.timeout_ultimo_frame_tempo + 200000 ≤ e.agora) :
    (feedback_visual_timeout_update e s).1 = false ∧
    (feedback_visual_timeout_update e s).2.timeout_frame_atual = s.timeout_frame_atual + 1 ∧
    (feedback_visual_timeout_update e s).2.timeout_ultimo_frame_tempo = e.agora := by
  have hd : ¬ (absolute_time_diff_us s.timeout_ultimo_frame_tempo e.agora
      < (TIMEOUT_FRAME_DELAY_US : Int)) := by
    unfold absolute_time_diff_us TIMEOUT_FRAME_DELAY_US
    omega
  unfold feedback_visual_timeout_update
  rw [if_neg h0, if_neg hd]
  simp only []
  rw [if_pos h6]
  split_ifs <;> exact ⟨rfl, rfl, rfl⟩

theorem feedback_visual_timeout_fim (e : Entradas) (s : Sistema) (h0 : s.timeout_frame_atual ≠ 0)
    (h6 : ¬ s.timeout_frame_atual < 6) (ht : s.timeout_ultimo_frame_tempo + 200000 ≤ e.agora) :
    (feedback_visual_timeout_update e s).1 = true ∧
    (feedback_visual_timeout_update e s).2.timeout_frame_atual = 0 ∧
    (feedback_visual_timeout_update e s).2.matriz_buffer = buffer_zerado ∧
    (feedback_visual_timeout_update e s).2.traco.getLast? = some (Efeito.rgb_led_set_color 0 0 0) := by
  have hd : ¬ (absolute_time_diff_us s.timeout_ultimo_frame_tempo e.agora
      < (TIMEOUT_FRAME_DELAY_US : Int)) := by
    unfold absolute_time_diff_us TIMEOUT_FRAME_DELAY_US
    omega
  unfold feedback_visual_timeout_update
  rw [if_neg h0, if_neg hd]
  simp only []
  rw [if_neg h6]
  refine ⟨rfl, rfl, rfl, ?_⟩
  simp [emitir]

/-- C24: for the error animation and for the timeout animation, starting from frame
index 0, seven calls of the update function at instants at least 200000 us apart return
false six times and then true; after the seventh call the matrix buffer is all zero, the
frame index is 0 again and the last driver call is `rgb_led_set_color(0, 0, 0)`. -/
theorem C24_animacoes_de_erro_e_timeout (s : Sistema) (e1 e2 e3 e4 e5 e6 e7 : Entradas)
    (h12 : e1.agora + 200000 ≤ e2.agora) (h23 : e2.agora + 200000 ≤ e3.agora)
    (h34 : e3.agora + 200000 ≤ e4.agora) (h45 : e4.agora + 200000 ≤ e5.agora)
    (h56 : e5.agora + 200000 ≤ e6.agora) (h67 : e6.agora + 200000 ≤ e7.agora) :
    (s.erro_frame_atual = 0 →
      (chamadas feedback_visual_erro_update s [e1, e2, e3, e4, e5, e6, e7]).1
        = [false, false, false, false, false, false, true] ∧
      (chamadas feedback_visual_erro_update s [e1, e2, e3, e4, e5, e6, e7]).2.matriz_buffer
        = buffer_zerado ∧
      (chamadas feedback_visual_erro_update s [e1, e2, e3, e4, e5, e6, e7]).2.traco.getLast?
        = some (Efeito.rgb_led_set_color 0 0 0) ∧
      (chamadas feedback_visual_erro_update s [e1, e2, e3, e4, e5, e6, e7]).2.erro_frame_atual
        = 0) ∧
    (s.timeout_frame_atual = 0 →
      (chamadas feedback_visual_timeout_update s [e1, e2, e3, e4, e5, e6, e7]).1
        = [false, false, false, false, false, false, true] ∧
      (chamadas feedback_visual_timeout_update s [e1, e2, e3, e4, e5, e6, e7]).2.matriz_buffer
        = buffer_zerado ∧
      (chamadas feedback_visual_timeout_update s [e1, e2, e3, e4, e5, e6, e7]).2.traco.getLast?
        = some (Efeito.rgb_led_set_color 0 0 0) ∧
      (chamadas feedback_visual_timeout_update s [e1, e2, e3, e4, e5, e6, e7]).2.timeout_frame_atual
        = 0) := by
  constructor
  · intro h
    simp only [chamadas]
    obtain ⟨r1, f1, t1⟩ := feedback_visual_erro_inicio e1 s h
    generalize (feedback_visual_erro_update e1 s).2 = s1 at *
    obtain ⟨r2, f2, t2⟩ := feedback_visual_erro_avanca e2 s1 (by omega) (by omega) (by omega)
    generalize (feedback_visual_erro_update e2 s1).2 = s2 at *
    obtain ⟨r3, f3, t3⟩ := feedback_visual_erro_avanca e3 s2 (by omega) (by omega) (by omega)
    generalize (feedback_visual_erro_update e3 s2).2 = s3 at *
    obtain ⟨r4, f4, t4⟩ := feedback_visual_erro_avanca e4 s3 (by omega) (by omega) (by omega)
    generalize (feedback_visual_erro_update e4 s3).2 = s4 at *
    obtain ⟨r5, f5, t5⟩ := feedback_visual_erro_avanca e5 s4 (by omega) (by omega) (by omega)
    generalize (feedback_visual_erro_update e5 s4).2 = s5 at *
    obtain ⟨r6, f6, t6⟩ := feedback_visual_erro_avanca e6 s5 (by omega) (by omega) (by omega)
    generalize (feedback_visual_erro_update e6 s5).2 = s6 at *
    obtain ⟨r7, f7, b7, l7⟩ := feedback_visual_erro_fim e7 s6 (by omega) (by omega) (by omega)
    exact ⟨by rw [r1, r2, r3, r4, r5, r6, r7], b7, l7, f7⟩
  · intro h
    simp only [chamadas]
    obtain ⟨r1, f1, t1⟩ := feedback_visual_timeout_inicio e1 s h
    generalize (feedback_visual_timeout_update e1 s).2 = s1 at *
    obtain ⟨r2, f2, t2⟩ := feedback_visual_timeout_avanca e2 s1 (by omega) (by omega) (by omega)
    generalize (feedback_visual_timeout_update e2 s1).2 = s2 at *
    obtain ⟨r3, f3, t3⟩ := feedback_visual_timeout_avanca e3 s2 (by omega) (by omega) (by omega)
    generalize (feedback_visual_timeout_update e3 s2).2 = s3 at *
    obtain ⟨r4, f4, t4⟩ := feedback_visual_timeout_avanca e4 s3 (by omega) (by omega) (by omega)
    generalize (feedback_visual_timeout_update e4 s3).2 = s4 at *
    obtain ⟨r5, f5, t5⟩ := feedback_visual_timeout_avanca e5 s4 (by omega) (by omega) (by omega)
    generalize (feedback_visual_timeout_update e5 s4).2 = s5 at *
    obtain ⟨r6, f6, t6⟩ := feedback_visual_timeout_avanca e6 s5 (by omega) (by omega) (by omega)
    generalize (feedback_visual_timeout_update e6 s5).2 = s6 at *
    obtain ⟨r7, f7, b7, l7⟩ := feedback_visual_timeout_fim e7 s6 (by omega) (by omega) (by omega)
    exact ⟨by rw [r1, r2, r3, r4, r5, r6, r7], b7, l7, f7⟩

/-! ## feedback.c: closing animation -/

theorem chamadas_append (f : Entradas → Sistema → Bool × Sistema) (l1 l2 : List Entradas) :
    ∀ s : Sistema, chamadas f s (l1 ++ l2) =
      ((chamadas f s l1).1 ++ (chamadas f (chamadas f s l1).2 l2).1,
        (chamadas f (chamadas f s l1).2 l2).2) := by
  induction l1 with
  | nil => intro s; rfl
  | cons e es ih =>
    intro s
    have h := ih (f e s).2
    show ((f e s).1 :: (chamadas f (f e s).2 (es ++ l2)).1, (chamadas f (f e s).2 (es ++ l2)).2) = _
    rw [h]
    rfl

theorem chamadas_parado (f : Entradas → Sistema → Bool × Sistema) (s : Sistema)
    (l : List Entradas) (h : ∀ e ∈ l, f e s = (false, s)) :
    chamadas f s l = (List.replicate l.length false, s) := by
  induction l with
  | nil => rfl
  | cons e es ih =>
    have h1 := h e (List.mem_cons_self e es)
    have h2 := ih (fun a ha => h a (List.mem_cons_of_mem e ha))
    simp only [chamadas, h1, h2, List.length_cons, List.replicate_succ]

theorem diff_sem_sinal (inicio agora : Nat) (h1 : inicio ≤ agora) (h2 : agora < 2 ^ 64) :
    (absolute_time_diff_us inicio agora % 2 ^ 64).toNat = agora - inicio := by
  unfold absolute_time_diff_us
  omega

theorem feedback_visual_fechando_inicio (e : Entradas) (s : Sistema)
    (h : s.fechando_frame_atual = 0) :
    feedback_visual_fechando_update e s =
      (false, { emitir (Efeito.rgb_led_set_color PWM_MAX_DUTY 0 0)
                  (matriz_desenhar_circulo 200 0 0 { s with fechando_ultimo_frame_tempo := e.agora })
                with fechando_frame_atual := 1 }) := by
  unfold feedback_visual_fechando_update
  rw [if_pos h]

theorem feedback_visual_fechando_espera (e : Entradas) (s : Sistema)
    (h0 : s.fechando_frame_atual ≠ 0) (h1 : s.fechando_ultimo_frame_tempo ≤ e.agora)
    (h2 : e.agora < s.fechando_ultimo_frame_tempo +
      (if s.fechando_frame_atual = 1 then 400000 else 150000)) :
    feedback_visual_fechando_update e s = (false, s) := by
  have h64 : e.agora - s.fechando_ultimo_frame_tempo < 2 ^ 64 := by
    split_ifs at h2 <;> omega
  have hd : (absolute_time_diff_us s.fechando_ultimo_frame_tempo e.agora % 2 ^ 64).toNat
      = e.agora - s.fechando_ultimo_frame_tempo := by
    unfold absolute_time_diff_us
    omega
  unfold feedback_visual_fechando_update
  rw [if_neg h0]
  simp only [hd, FECHANDO_FRAME_DELAY_US, FECHANDO_INTERVALO_FINAL_US]
  rw [if_pos]
  split_ifs at h2 ⊢ <;> omega

theorem feedback_visual_fechando_apaga (e : Entradas) (s : Sistema)
    (h1 : s.fechando_frame_atual = 1) (ht : s.fechando_ultimo_frame_tempo + 400000 ≤ e.agora)
    (h64 : e.agora < 2 ^ 64) :
    feedback_visual_fechando_update e s =
      (false, { emitir (Efeito.rgb_led_set_color 0 0 0)
                  (matriz_limpar { s with fechando_ultimo_frame_tempo := e.agora })
                with fechando_frame_atual := 2 }) := by
  have hd := diff_sem_sinal s.fechando_ultimo_frame_tempo e.agora (by omega) h64
  have h0 : s.fechando_frame_atual ≠ 0 := by omega
  unfold feedback_visual_fechando_update
  rw [if_neg h0]
  simp only [hd, FECHANDO_FRAME_DELAY_US, h1, if_true]
  rw [if_neg (by omega)]

theorem feedback_visual_fechando_fim (e : Entradas) (s : Sistema)
    (h0 : s.fechando_frame_atual ≠ 0) (h1 : s.fechando_frame_atual ≠ 1)
    (ht : s.fechando_ultimo_frame_tempo + 150000 ≤ e.agora) (h64 : e.agora < 2 ^ 64) :
    feedback_visual_fechando_update e s =
      (true, { s with fechando_ultimo_frame_tempo := e.agora, fechando_frame_atual := 0 }) := by
  have hd := diff_sem_sinal s.fechando_ultimo_frame_tempo e.agora (by omega) h64
  unfold feedback_visual_fechando_update
  rw [if_neg h0]
  simp only [hd, FECHANDO_INTERVALO_FINAL_US, if_neg h1]
  rw [if_neg (by omega)]

theorem matriz_desenhar_circulo_anel (p : Sistema) :
    mostra (matriz_desenhar_circulo 200 0 0 p).matriz_buffer forma_anel (urgb_u32 200 0 0) := by
  have h : (matriz_desenhar_circulo 200 0 0 p).matriz_buffer
      = (matriz_desenhar_circulo 200 0 0 inicia_hardware).matriz_buffer := rfl
  rw [h]
  decide

/-- C29: the closing animation started from frame index 0: the first call returns false
and leaves the ring (border without corners) in red at brightness 200 in the matrix
buffer, with frame index 1; every call made less than 400000 us after the first returns
false and changes nothing; the first call at or after 400000 us returns false, leaves
the matrix buffer all zero and ends with `rgb_led_set_color(0, 0, 0)`; every call made
less than 150000 us after that one returns false and changes nothing; the first call at
or after 150000 us from the blanking returns true and leaves the frame index 0. -/
theorem C29_animacao_fechando (s : Sistema) (e0 eb ec : Entradas) (A B : List Entradas)
    (h0 : s.fechando_frame_atual = 0)
    (hA : ∀ a ∈ A, e0.agora ≤ a.agora ∧ a.agora < e0.agora + 400000)
    (hb : e0.agora + 400000 ≤ eb.agora) (hb64 : eb.agora < 2 ^ 64)
    (hB : ∀ b ∈ B, eb.agora ≤ b.agora ∧ b.agora < eb.agora + 150000)
    (hc : eb.agora + 150000 ≤ ec.agora) (hc64 : ec.agora < 2 ^ 64) :
    (chamadas feedback_visual_fechando_update s [e0]).1 = [false] ∧
    mostra (chamadas feedback_visual_fechando_update s [e0]).2.matriz_buffer forma_anel
      (urgb_u32 200 0 0) ∧
    (chamadas feedback_visual_fechando_update s [e0]).2.fechando_frame_atual = 1 ∧
    chamadas feedback_visual_fechando_update s (e0 :: A) =
      (false :: List.replicate A.length false,
        (chamadas feedback_visual_fechando_update s [e0]).2) ∧
    (chamadas feedback_visual_fechando_update s (e0 :: A ++ [eb])).1 =
      false :: List.replicate A.length false ++ [false] ∧
    (chamadas feedback_visual_fechando_update s (e0 :: A ++ [eb])).2.matriz_buffer
      = buffer_zerado ∧
    (chamadas feedback_visual_fechando_update s (e0 :: A ++ [eb])).2.traco.getLast?
      = some (Efeito.rgb_led_set_color 0 0 0) ∧
    chamadas feedback_visual_fechando_update s (e0 :: A ++ eb :: B) =
      (false :: List.replicate A.length false ++ false :: List.replicate B.length false,
        (chamadas feedback_visual_fechando_update s (e0 :: A ++ [eb])).2) ∧
    (chamadas feedback_visual_fechando_update s (e0 :: A ++ eb :: B ++ [ec])).1 =
      false :: List.replicate A.length false ++ false :: List.replicate B.length false
        ++ [true] ∧
    (chamadas feedback_visual_fechando_update s
      (e0 :: A ++ eb :: B ++ [ec])).2.fechando_frame_atual = 0 := by
  obtain ⟨s1, hs1, hf1, ht1, hm1⟩ : ∃ s1, feedback_visual_fechando_update e0 s = (false, s1) ∧
      s1.fechando_frame_atual = 1 ∧ s1.fechando_ultimo_frame_tempo = e0.agora ∧
      mostra s1.matriz_buffer forma_anel (urgb_u32 200 0 0) :=
    ⟨_, feedback_visual_fechando_inicio e0 s h0, rfl, rfl,
      matriz_desenhar_circulo_anel { s with fechando_ultimo_frame_tempo := e0.agora }⟩
  have hA1 : chamadas feedback_visual_fechando_update s1 A
      = (List.replicate A.length false, s1) := by
    apply chamadas_parado
    intro a ha
    apply feedback_visual_fechando_espera a s1 (by omega)
    · rw [ht1]; exact (hA a ha).1
    · rw [ht1, hf1]; exact (hA a ha).2
  obtain ⟨s2, hs2, hf2, ht2, hb2, hl2⟩ : ∃ s2, feedback_visual_fechando_update eb s1 = (false, s2) ∧
      s2.fechando_frame_atual = 2 ∧ s2.fechando_ultimo_frame_tempo = eb.agora ∧
      s2.matriz_buffer = buffer_zerado ∧
      s2.traco.getLast? = some (Efeito.rgb_led_set_color 0 0 0) :=
    ⟨_, feedback_visual_fechando_apaga eb s1 hf1 (by omega) hb64, rfl, rfl, rfl,
      by simp [emitir]⟩
  have hB2 : chamadas feedback_visual_fechando_update s2 B
      = (List.replicate B.length false, s2) := by
    apply chamadas_parado
    intro b hb'
    apply feedback_visual_fechando_espera b s2 (by omega)
    · rw [ht2]; exact (hB b hb').1
    · rw [ht2, hf2]; exact (hB b hb').2
  have hfim := feedback_visual_fechando_fim ec s2 (by omega) (by omega) (by omega) hc64
  have c0 : chamadas feedback_visual_fechando_update s [e0] = ([false], s1) := by
    simp only [chamadas, hs1]
  have cb : chamadas feedback_visual_fechando_update s1 [eb] = ([false], s2) := by
    simp only [chamadas, hs2]
  have cc : chamadas feedback_visual_fechando_update s2 [ec]
      = ([true], { s2 with fechando_ultimo_frame_tempo := ec.agora, fechando_frame_atual := 0 }) := by
    simp only [chamadas, hfim]
  have cbB : chamadas feedback_visual_fechando_update s1 (eb :: B)
      = (false :: List.replicate B.length false, s2) := by
    simp only [chamadas, hs2, hB2]
  have cA : chamadas feedback_visual_fechando_update s (e0 :: A)
      = (false :: List.replicate A.length false, s1) := by
    simp only [chamadas, hs1, hA1]
  have cAb : chamadas feedback_visual_fechando_update s (e0 :: A ++ [eb])
      = (false :: List.replicate A.length false ++ [false], s2) := by
    rw [chamadas_append, cA, cb]
  have cAbB : chamadas feedback_visual_fechando_update s (e0 :: A ++ eb :: B)
      = (false :: List.replicate A.length false ++ false :: List.replicate B.length false, s2) := by
    rw [chamadas_append, cA, cbB]
  have cAll : chamadas feedback_visual_fechando_update s (e0 :: A ++ eb :: B ++ [ec])
      = (false :: List.replicate A.length false ++ false :: List.replicate B.length false
          ++ [true],
        { s2 with fechando_ultimo_frame_tempo := ec.agora, fechando_frame_atual := 0 }) := by
    rw [chamadas_append, cAbB, cc]
  rw [c0, cA, cAb, cAbB, cAll]
  exact ⟨rfl, hm1, hf1, rfl, rfl, hb2, hl2, rfl, rfl, rfl⟩

/-! ## matriz.c: success animation -/

theorem matriz_animacao_sucesso_inicio (e : Entradas) (s : Sistema)
    (h : s.sucesso_frame_atual = 0) :
    matriz_animacao_sucesso_update e s =
      (false, { matriz_renderizar
                  { s with sucesso_ultimo_frame_tempo := e.agora,
                           matriz_buffer := buffer_zerado.set (xy_to_index 2 2) (urgb_u32 0 150 0) }
                with sucesso_frame_atual := 1 }) := by
  unfold matriz_animacao_sucesso_update
  rw [if_pos h]

theorem matriz_animacao_sucesso_espera (e : Entradas) (s : Sistema)
    (h0 : s.sucesso_frame_atual ≠ 0) (h1 : s.sucesso_ultimo_frame_tempo ≤ e.agora)
    (h2 : e.agora < s.sucesso_ultimo_frame_tempo + 120000) :
    matriz_animacao_sucesso_update e s = (false, s) := by
  have hd : (absolute_time_diff_us s.sucesso_ultimo_frame_tempo e.agora % 2 ^ 64).toNat
      = e.agora - s.sucesso_ultimo_frame_tempo := by
    unfold absolute_time_diff_us
    omega
  unfold matriz_animacao_sucesso_update
  rw [if_neg h0, hd, if_pos]
  unfold SUCESSO_FRAME_DELAY_MS
  omega

theorem matriz_animacao_sucesso_mais (e : Entradas) (s : Sistema)
    (h1 : s.sucesso_frame_atual = 1) (ht : s.sucesso_ultimo_frame_tempo + 120000 ≤ e.agora)
    (h64 : e.agora < 2 ^ 64) :
    matriz_animacao_sucesso_update e s =
      (false, { matriz_renderizar
                  { s with sucesso_ultimo_frame_tempo := e.agora,
                           matriz_buffer :=
                             ((((buffer_zerado.set (xy_to_index 2 1) (urgb_u32 0 150 0)).set
                               (xy_to_index 1 2) (urgb_u32 0 150 0)).set
                               (xy_to_index 3 2) (urgb_u32 0 150 0)).set
                               (xy_to_index 2 3) (urgb_u32 0 150 0)).set
                               (xy_to_index 2 2) (urgb_u32 0 150 0) }
                with sucesso_frame_atual := 2 }) := by
  have hd := diff_sem_sinal s.sucesso_ultimo_frame_tempo e.agora (by omega) h64
  have h0 : s.sucesso_frame_atual ≠ 0 := by omega
  unfold matriz_animacao_sucesso_update
  rw [if_neg h0, hd, if_neg (by unfold SUCESSO_FRAME_DELAY_MS; omega)]
  simp only [h1, if_true]
  rfl

theorem matriz_animacao_sucesso_anel (e : Entradas) (s : Sistema)
    (h2 : s.sucesso_frame_atual = 2) (ht : s.sucesso_ultimo_frame_tempo + 120000 ≤ e.agora)
    (h64 : e.agora < 2 ^ 64) :
    matriz_animacao_sucesso_update e s =
      (false, { matriz_desenhar_circulo 0 150 0 { s with sucesso_ultimo_frame_tempo := e.agora }
                with sucesso_frame_atual := 3 }) := by
  have hd := diff_sem_sinal s.sucesso_ultimo_frame_tempo e.agora (by omega) h64
  have h0 : s.sucesso_frame_atual ≠ 0 := by omega
  have h1 : s.sucesso_frame_atual ≠ 1 := by omega
  unfold matriz_animacao_sucesso_update
  rw [if_neg h0, hd, if_neg (by unfold SUCESSO_FRAME_DELAY_MS; omega)]
  simp only [if_neg h1, h2, if_true]
  rfl

theorem matriz_animacao_sucesso_fim (e : Entradas) (s : Sistema)
    (h0 : s.sucesso_frame_atual ≠ 0) (h1 : s.sucesso_frame_atual ≠ 1)
    (h2 : s.sucesso_frame_atual ≠ 2) (ht : s.sucesso_ultimo_frame_tempo + 120000 ≤ e.agora)
    (h64 : e.agora < 2 ^ 64) :
    matriz_animacao_sucesso_update e s =
      (true, { s with sucesso_ultimo_frame_tempo := e.agora, sucesso_frame_atual := 0 }) := by
  have hd := diff_sem_sinal s.sucesso_ultimo_frame_tempo e.agora (by omega) h64
  unfold matriz_animacao_sucesso_update
  rw [if_neg h0, hd, if_neg (by unfold SUCESSO_FRAME_DELAY_MS; omega)]
  simp only [if_neg h1, if_neg h2]

theorem matriz_desenhar_circulo_anel_verde (p : Sistema) :
    mostra (matriz_desenhar_circulo 0 150 0 p).matriz_buffer forma_anel (urgb_u32 0 150 0) := by
  have h : (matriz_desenhar_circulo 0 150 0 p).matriz_buffer
      = (matriz_desenhar_circulo 0 150 0 inicia_hardware).matriz_buffer := rfl
  rw [h]
  decide

/-- The driver calls of one render of a buffer: one `put_pixel` per cell. -/
theorem novos_efeitos_renderizar (s t p : Sistema) (ht : t.traco = (matriz_renderizar p).traco)
    (hb : t.matriz_buffer = p.matriz_buffer) (h : p.traco = s.traco) :
    novos_efeitos s t =
      t.matriz_buffer.map (fun c => Efeito.pio_sm_put_blocking ((c <<< 8) % 2 ^ 32)) := by
  unfold novos_efeitos
  rw [ht, hb]
  unfold matriz_renderizar
  simp [h]

/-- C30: the success animation started from frame index 0 and called four times at
instants at least 120000 us apart (64-bit clock) returns false, false, false, true; the
first call leaves the center dot in the matrix buffer, the second the plus shape and the
third the ring, each in green `urgb_u32(0, 150, 0)` with every other cell 0, and each of
these three calls sends exactly that buffer to the matrix; the fourth call leaves the
frame index 0; a call made less than 120000 us after the previous frame, with the
animation in progress, returns false and changes nothing. -/
theorem C30_animacao_sucesso (s : Sistema) (e1 e2 e3 e4 : Entradas)
    (h0 : s.sucesso_frame_atual = 0)
    (h12 : e1.agora + 120000 ≤ e2.agora) (h23 : e2.agora + 120000 ≤ e3.agora)
    (h34 : e3.agora + 120000 ≤ e4.agora) (h64 : e4.agora < 2 ^ 64) :
    (chamadas matriz_animacao_sucesso_update s [e1, e2, e3, e4]).1 = [false, false, false, true] ∧
    mostra (chamadas matriz_animacao_sucesso_update s [e1]).2.matriz_buffer forma_ponto
      (urgb_u32 0 150 0) ∧
    mostra (chamadas matriz_animacao_sucesso_update s [e1, e2]).2.matriz_buffer forma_mais
      (urgb_u32 0 150 0) ∧
    mostra (chamadas matriz_animacao_sucesso_update s [e1, e2, e3]).2.matriz_buffer forma_anel
      (urgb_u32 0 150 0) ∧
    novos_efeitos s (chamadas matriz_animacao_sucesso_update s [e1]).2 =
      (chamadas matriz_animacao_sucesso_update s [e1]).2.matriz_buffer.map
        (fun c => Efeito.pio_sm_put_blocking ((c <<< 8) % 2 ^ 32)) ∧
    novos_efeitos (chamadas matriz_animacao_sucesso_update s [e1]).2
        (chamadas matriz_animacao_sucesso_update s [e1, e2]).2 =
      (chamadas matriz_animacao_sucesso_update s [e1, e2]).2.matriz_buffer.map
        (fun c => Efeito.pio_sm_put_blocking ((c <<< 8) % 2 ^ 32)) ∧
    novos_efeitos (chamadas matriz_animacao_sucesso_update s [e1, e2]).2
        (chamadas matriz_animacao_sucesso_update s [e1, e2, e3]).2 =
      (chamadas matriz_animacao_sucesso_update s [e1, e2, e3]).2.matriz_buffer.map
        (fun c => Efeito.pio_sm_put_blocking ((c <<< 8) % 2 ^ 32)) ∧
    (chamadas matriz_animacao_sucesso_update s [e1, e2, e3, e4]).2.sucesso_frame_atual = 0 ∧
    (∀ (p : Sistema) (e : Entradas), p.sucesso_frame_atual ≠ 0 →
      p.sucesso_ultimo_frame_tempo ≤ e.agora → e.agora < p.sucesso_ultimo_frame_tempo + 120000 →
      matriz_animacao_sucesso_update e p = (false, p)) := by
  obtain ⟨s1, c1, f1, t1, m1, n1⟩ : ∃ s1, matriz_animacao_sucesso_update e1 s = (false, s1) ∧
      s1.sucesso_frame_atual = 1 ∧ s1.sucesso_ultimo_frame_tempo = e1.agora ∧
      mostra s1.matriz_buffer forma_ponto (urgb_u32 0 150 0) ∧
      novos_efeitos s s1 =
        s1.matriz_buffer.map (fun c => Efeito.pio_sm_put_blocking ((c <<< 8) % 2 ^ 32)) :=
    ⟨_, matriz_animacao_sucesso_inicio e1 s h0, rfl, rfl,
      (by decide : mostra (buffer_zerado.set (xy_to_index 2 2) (urgb_u32 0 150 0)) forma_ponto
        (urgb_u32 0 150 0)),
      novos_efeitos_renderizar s _
        { s with sucesso_ultimo_frame_tempo := e1.agora,
                 matriz_buffer := buffer_zerado.set (xy_to_index 2 2) (urgb_u32 0 150 0) }
        rfl rfl rfl⟩
  obtain ⟨s2, c2, f2, t2, m2, n2⟩ : ∃ s2, matriz_animacao_sucesso_update e2 s1 = (false, s2) ∧
      s2.sucesso_frame_atual = 2 ∧ s2.sucesso_ultimo_frame_tempo = e2.agora ∧
      mostra s2.matriz_buffer forma_mais (urgb_u32 0 150 0) ∧
      novos_efeitos s1 s2 =
        s2.matriz_buffer.map (fun c => Efeito.pio_sm_put_blocking ((c <<< 8) % 2 ^ 32)) :=
    ⟨_, matriz_animacao_sucesso_mais e2 s1 f1 (by omega) (by omega), rfl, rfl,
      (by decide : mostra
        (((((buffer_zerado.set (xy_to_index 2 1) (urgb_u32 0 150 0)).set
          (xy_to_index 1 2) (urgb_u32 0 150 0)).set
          (xy_to_index 3 2) (urgb_u32 0 150 0)).set
          (xy_to_index 2 3) (urgb_u32 0 150 0)).set
          (xy_to_index 2 2) (urgb_u32 0 150 0)) forma_mais (urgb_u32 0 150 0)),
      novos_efeitos_renderizar s1 _
        { s1 with sucesso_ultimo_frame_tempo := e2.agora,
                  matriz_buffer :=
                    ((((buffer_zerado.set (xy_to_index 2 1) (urgb_u32 0 150 0)).set
                      (xy_to_index 1 2) (urgb_u32 0 150 0)).set
                      (xy_to_index 3 2) (urgb_u32 0 150 0)).set
                      (xy_to_index 2 3) (urgb_u32 0 150 0)).set
                      (xy_to_index 2 2) (urgb_u32 0 150 0) }
        rfl rfl rfl⟩
  obtain ⟨s3, c3, f3, t3, m3, n3⟩ : ∃ s3, matriz_animacao_sucesso_update e3 s2 = (false, s3) ∧
      s3.sucesso_frame_atual = 3 ∧ s3.sucesso_ultimo_frame_tempo = e3.agora ∧
      mostra s3.matriz_buffer forma_anel (urgb_u32 0 150 0) ∧
      novos_efeitos s2 s3 =
        s3.matriz_buffer.map (fun c => Efeito.pio_sm_put_blocking ((c <<< 8) % 2 ^ 32)) :=
    ⟨_, matriz_animacao_sucesso_anel e3 s2 f2 (by omega) (by omega), rfl, rfl,
      matriz_desenhar_circulo_anel_verde { s2 with sucesso_ultimo_frame_tempo := e3.agora },
      novos_efeitos_renderizar s2 _
        { s2 with sucesso_ultimo_frame_tempo := e3.agora,
                  matriz_buffer :=
                    (matriz_desenhar_circulo 0 150 0
                      { s2 with sucesso_ultimo_frame_tempo := e3.agora }).matriz_buffer }
        rfl rfl rfl⟩
  have c4 := matriz_animacao_sucesso_fim e4 s3 (by omega) (by omega) (by omega) (by omega) h64
  simp only [chamadas, c1, c2, c3, c4]
  exact ⟨trivial, m1, m2, m3, n1, n2, n3, trivial,
    fun p e => matriz_animacao_sucesso_espera e p⟩

/-! ## Core 1: topic and payload of an entry -/

theorem montar_mensagem_topico (e : EntradasNucleo1) (tipo : MQTT_MSG_TYPE) (cor_id : Nat) :
    (montar_mensagem e tipo.toNat cor_id).1 = categoria_ref tipo := by
  cases tipo <;> rfl

theorem truncar99_topico (tipo : MQTT_MSG_TYPE) :
    truncar99 (DEVICE_ID ++ "/" ++ categoria_ref tipo) = DEVICE_ID ++ "/" ++ categoria_ref tipo := by
  cases tipo <;> decide

/-- C26: for every defined message kind and every FIFO word that decodes to it, the
topic of the entry built on core 1 is the device id, then `/`, then the category of the
kind: `bitdoglab_02/status` for the six status kinds, `bitdoglab_02/historico` for the
nine log kinds and `bitdoglab_02/heartbeat` for the heartbeat kind; a word built by
`solicitar_publicacao_mqtt` for the kind decodes to it, and the receive step enqueues
an entry with that topic. -/
theorem C26_topico_por_categoria (e : EntradasNucleo1) (pacote : Nat) (tipo : MQTT_MSG_TYPE)
    (h : tipo_msg_do_pacote pacote = tipo.toNat) :
    (entrada_da_fila e pacote).topico = DEVICE_ID ++ "/" ++ categoria_ref tipo ∧
    ((tipo = MSG_STATUS_AGUARDANDO_CARTAO ∨ tipo = MSG_STATUS_CARTAO_LIDO ∨
      tipo = MSG_STATUS_AGUARDANDO_SENHA ∨ tipo = MSG_STATUS_SISTEMA_ABERTO ∨
      tipo = MSG_STATUS_SISTEMA_FECHADO ∨ tipo = MSG_STATUS_MODO_ADMIN) →
      (entrada_da_fila e pacote).topico = "bitdoglab_02/status") ∧
    ((tipo = MSG_LOG_ACESSO_OK ∨ tipo = MSG_LOG_ACESSO_FALHA ∨
      tipo = MSG_LOG_EVENTO_TIMEOUT_SENHA ∨ tipo = MSG_LOG_EVENTO_AUTO_LOCK ∨
      tipo = MSG_LOG_OPERACAO_CANCELADA ∨ tipo = MSG_LOG_ADMIN_INICIADO ∨
      tipo = MSG_LOG_ADMIN_SENHA_ALTERADA ∨ tipo = MSG_LOG_EMERGENCIA_INCENDIO_ON ∨
      tipo = MSG_LOG_EMERGENCIA_INCENDIO_OFF) →
      (entrada_da_fila e pacote).topico = "bitdoglab_02/historico") ∧
    (tipo = MSG_LOG_HEARTBEAT → (entrada_da_fila e pacote).topico = "bitdoglab_02/heartbeat") ∧
    (∀ cor : CorDetectada, tipo_msg_do_pacote (pedido tipo cor) = tipo.toNat) ∧
    (∀ q : Nucleo1, e.fifo = some pacote →
      comando_do_pacote pacote = FIFO_CMD_PUBLICAR_MQTT →
      receber_fifo e q = enfileirar (entrada_da_fila e pacote) q) := by
  have ht : (entrada_da_fila e pacote).topico = DEVICE_ID ++ "/" ++ categoria_ref tipo := by
    rw [entrada_da_fila_desempacota, h, montar_mensagem_topico]
    exact truncar99_topico tipo
  refine ⟨ht, ?_, ?_, ?_, ?_, ?_⟩
  · intro hk
    rw [ht]
    rcases hk with hk | hk | hk | hk | hk | hk <;> rw [hk] <;> decide
  · intro hk
    rw [ht]
    rcases hk with hk | hk | hk | hk | hk | hk | hk | hk | hk <;> rw [hk] <;> decide
  · intro hk
    rw [ht, hk]
    decide
  · intro cor
    cases tipo <;> cases cor <;> decide
  · intro q hf hc
    unfold comando_do_pacote at hc
    unfold receber_fifo
    rw [hf]
    simp only [hc, if_true]

theorem montar_mensagem_cor (tipo : MQTT_MSG_TYPE) (e e2 : EntradasNucleo1) (c c2 : Nat)
    (hc : cor_str c2 = cor_str c) :
    (montar_mensagem e2 tipo.toNat c2).2 = (montar_mensagem e tipo.toNat c).2 := by
  cases tipo <;> simp [montar_mensagem, MQTT_MSG_TYPE.toNat, hc]

theorem cor_str_casos (c : Nat) :
    cor_str c = "Verde" ∨ cor_str c = "Vermelho" ∨ cor_str c = "Azul" ∨ cor_str c = "N/A" := by
  unfold cor_str
  split_ifs <;> simp

theorem truncar99_acesso_ok (c : Nat) :
    truncar99 ("ACESSO LIBERADO: Cartao " ++ cor_str c ++ ".")
      = "ACESSO LIBERADO: Cartao " ++ cor_str c ++ "." := by
  rcases cor_str_casos c with h | h | h | h <;> rw [h] <;> decide

/-- C27: the payload of the entry built on core 1 for a FIFO word that decodes to a
defined message kind depends only on the kind and on the color name: any two words of
the same kind with the same color name give the same payload, whatever the rest of the
input; the system-open kind gives `Sistema Aberto`, the heartbeat kind gives `ok`, the
access-ok kind gives `ACESSO LIBERADO: Cartao `, the color name and `.`; the color name
is `Verde`, `Vermelho`, `Azul` for the bytes of Green, Red, Blue and `N/A` for the byte
of None and for every other byte. -/
theorem C27_mensagem_por_tipo (e : EntradasNucleo1) (pacote : Nat) (tipo : MQTT_MSG_TYPE)
    (h : tipo_msg_do_pacote pacote = tipo.toNat) :
    (∀ (e2 : EntradasNucleo1) (pacote2 : Nat), tipo_msg_do_pacote pacote2 = tipo.toNat →
      cor_str (cor_id_do_pacote pacote2) = cor_str (cor_id_do_pacote pacote) →
      (entrada_da_fila e2 pacote2).mensagem = (entrada_da_fila e pacote).mensagem) ∧
    (tipo = MSG_STATUS_SISTEMA_ABERTO → (entrada_da_fila e pacote).mensagem = "Sistema Aberto") ∧
    (tipo = MSG_LOG_HEARTBEAT → (entrada_da_fila e pacote).mensagem = "ok") ∧
    (tipo = MSG_LOG_ACESSO_OK →
      (entrada_da_fila e pacote).mensagem =
        "ACESSO LIBERADO: Cartao " ++ cor_str (cor_id_do_pacote pacote) ++ ".") ∧
    cor_str COR_VERDE.toNat = "Verde" ∧ cor_str COR_VERMELHA.toNat = "Vermelho" ∧
    cor_str COR_AZUL.toNat = "Azul" ∧ cor_str COR_NENHUMA.toNat = "N/A" ∧
    (∀ c : Nat, c ≠ COR_VERDE.toNat → c ≠ COR_VERMELHA.toNat → c ≠ COR_AZUL.toNat →
      cor_str c = "N/A") := by
  refine ⟨?_, ?_, ?_, ?_, rfl, rfl, rfl, rfl, ?_⟩
  · intro e2 pacote2 h2 hc
    rw [entrada_da_fila_desempacota, entrada_da_fila_desempacota, h, h2]
    exact congrArg truncar99 (montar_mensagem_cor tipo e e2 _ _ hc)
  · intro hk
    rw [entrada_da_fila_desempacota, h, hk]
    rfl
  · intro hk
    rw [entrada_da_fila_desempacota, h, hk]
    rfl
  · intro hk
    rw [entrada_da_fila_desempacota, h, hk]
    exact truncar99_acesso_ok _
  · intro c h1 h2 h3
    have g1 : ¬ c = 1 := h1
    have g2 : ¬ c = 2 := h2
    have g3 : ¬ c = 3 := h3
    unfold cor_str
    rw [if_neg g1, if_neg g2, if_neg g3]

/-! ## Animation flags in reachable states -/

theorem alcancavel_executar (es : List Entradas) :
    ∀ s : Sistema, Alcancavel s → Alcancavel (executar s es) := by
  induction es with
  | nil => intro s h; exact h
  | cons e es ih => intro s h; exact ih _ (Alcancavel.passo e s h)

theorem animar_digitacao_modo (s : Sistema) :
    (animar_digitacao s).animacao_digitacao_ativa = true →
      (animar_digitacao s).modo_atual = MODO_AGUARDA_SENHA ∨
      (animar_digitacao s).modo_atual = MODO_ADMIN_AGUARDANDO_NOVA_SENHA := by
  unfold animar_digitacao
  split_ifs with h1 h2
  · intro _
    exact h2
  · intro h
    exact absurd h (by simp)
  · intro h
    exact absurd h h1

theorem digitacao_animar_circulo_tempo (e : Entradas) (s : Sistema) :
    (animar_circulo_tempo e s).animacao_digitacao_ativa = s.animacao_digitacao_ativa := by
  unfold animar_circulo_tempo matriz_animacao_circulo_tempo_update
  try dsimp only
  split_ifs <;> rfl

theorem digitacao_animar_fogo (e : Entradas) (s : Sistema) :
    (animar_fogo e s).animacao_digitacao_ativa = s.animacao_digitacao_ativa := by
  unfold animar_fogo matriz_atualizar_animacao_fogo
  try dsimp only
  split_ifs <;> rfl

theorem digitacao_atualizar_pulso (e : Entradas) (s : Sistema) :
    (atualizar_pulso e s).animacao_digitacao_ativa = s.animacao_digitacao_ativa := by
  unfold atualizar_pulso
  try dsimp only
  split_ifs <;> rfl

theorem digitacao_timers_globais (e : Entradas) (s : Sistema) :
    (timers_globais e s).animacao_digitacao_ativa = s.animacao_digitacao_ativa := by
  unfold timers_globais
  try dsimp only
  split_ifs <;> rfl

/-- At the end of a loop iteration the typing flag is set only in the two modes with a
typing indicator. -/
theorem loop_principal_digitacao (e : Entradas) (s : Sistema) :
    (loop_principal e s).animacao_digitacao_ativa = true →
      (loop_principal e s).modo_atual = MODO_AGUARDA_SENHA ∨
      (loop_principal e s).modo_atual = MODO_ADMIN_AGUARDANDO_NOVA_SENHA := by
  unfold loop_principal atualizar_animacoes
  rw [digitacao_timers_globais, digitacao_atualizar_pulso, digitacao_animar_fogo,
    digitacao_animar_circulo_tempo,
    (controle_modo _ _ (controle_timers_globais e _)).1,
    (controle_modo _ _ (controle_atualizar_pulso e _)).1,
    (controle_modo _ _ (controle_animar_fogo e _)).1,
    (controle_modo _ _ (controle_animar_circulo_tempo e _)).1]
  exact animar_digitacao_modo _

/-- C25 (the code at a reachable state): after a green card, the keys `1 3 3 7 #` and
one more tick, the success flag and the countdown-ring flag are both set, so two of the
seven animation flags are set in a reachable state. -/
theorem C25_sucesso_e_contagem_juntas :
    Alcancavel (executar estado_inicial cenario_abertura) ∧
    flags_animacao (executar estado_inicial cenario_abertura)
      = [false, false, false, true, false, true, false] ∧
    (flags_animacao (executar estado_inicial cenario_abertura)).count true = 2 :=
  ⟨alcancavel_executar cenario_abertura estado_inicial Alcancavel.inicio, by decide, by decide⟩

/-- C25 (amended): in every reachable state the typing flag is set only when the mode is
AwaitingPassword or AdminAwaitingNewPassword; the other animation flags are not
exclusive: a reachable state has the success and countdown-ring flags set together, and
a reachable state has the pulse effect active together with the closing and success
flags. -/
theorem C25_flags_em_estados_alcancaveis (s : Sistema) (h : Alcancavel s) :
    (s.animacao_digitacao_ativa = true →
      s.modo_atual = MODO_AGUARDA_SENHA ∨ s.modo_atual = MODO_ADMIN_AGUARDANDO_NOVA_SENHA) ∧
    (∃ t : Sistema, Alcancavel t ∧ t.animacao_sucesso_ativa = true ∧
      t.animacao_circulo_tempo_ativa = true) ∧
    (∃ t : Sistema, Alcancavel t ∧ t.efeito_pulso.ativo = true ∧
      t.animacao_fechando_ativa = true ∧ t.animacao_sucesso_ativa = true) := by
  refine ⟨?_, ⟨_, alcancavel_executar cenario_abertura estado_inicial Alcancavel.inicio,
    by decide, by decide⟩,
    ⟨_, alcancavel_executar cenario_trava_automatica estado_inicial Alcancavel.inicio,
      by decide, by decide, by decide⟩⟩
  cases h with
  | inicio => intro h; exact absurd h (by decide)
  | passo e s0 _ => exact loop_principal_digitacao e s0

/-! ## Remote words other than the mode-change command -/

/-- C34: on a tick whose FIFO word has a command field (bits 31-16) other than the
mode-change command `0xE5A0`, `verificar_fifo` returns the state unchanged, every field
of it; the whole loop iteration is then the one of a tick with no word at all. -/
theorem C34_palavra_sem_mudanca_de_estado (e : Entradas) (s : Sistema) (pacote : Nat)
    (hf : e.fifo = some pacote) (hc : comando_do_pacote pacote ≠ FIFO_CMD_MUDAR_ESTADO) :
    verificar_fifo e s = s ∧
    FIFO_CMD_MUDAR_ESTADO = 0xE5A0 ∧
    comando_do_pacote pacote = (pacote % 2 ^ 32) / 2 ^ 16 ∧
    loop_principal e s =
      timers_globais e (atualizar_pulso e (atualizar_animacoes e (maquina_estados e s))) := by
  have h : verificar_fifo e s = s := by
    apply verificar_fifo_sem_comando
    intro p hp
    rw [hf] at hp
    cases hp
    exact hc
  refine ⟨h, rfl, ?_, ?_⟩
  · unfold comando_do_pacote
    rw [Nat.shiftRight_eq_div_pow]
    apply Nat.mod_eq_of_lt
    have : pacote % 2 ^ 32 < 2 ^ 32 := Nat.mod_lt _ (by decide)
    omega
  · unfold loop_principal
    rw [h]

/-! ## matriz.c: the serpentine index -/

/-- C40: on the 25 coordinate pairs with both components at most 4, `xy_to_index` is
`y * 5 + x` on even rows and `y * 5 + (4 - x)` on odd rows, its values lie below 25,
distinct pairs have distinct indices and every index below 25 is the index of a pair;
every pair the drawing and animation functions pass to it has both components at most
4, so each of their buffer accesses is inside the 25-cell buffer; the coordinate lists
are those of the embedded functions, which draw exactly these cells. -/
theorem C40_xy_to_index_bijecao :
    (∀ x < 5, ∀ y < 5, xy_to_index x y < LED_COUNT ∧
      xy_to_index x y = if y % 2 = 0 then y * 5 + x else y * 5 + (4 - x)) ∧
    (∀ x < 5, ∀ y < 5, ∀ x2 < 5, ∀ y2 < 5,
      xy_to_index x y = xy_to_index x2 y2 → x = x2 ∧ y = y2) ∧
    (∀ i < LED_COUNT, ∃ x < 5, ∃ y < 5, xy_to_index x y = i) ∧
    (∀ p ∈ coordenadas_x ++ coordenadas_circulo ++ coordenadas_exclamacao ++ coordenadas_ponto
        ++ coordenadas_mais ++ coordenadas_fogo,
      p.1 < 5 ∧ p.2 < 5 ∧ xy_to_index p.1 p.2 < LED_COUNT) ∧
    (∀ quantidade : Nat, ∀ p ∈ coordenadas_digitos quantidade,
      p.1 < 5 ∧ p.2 < 5 ∧ xy_to_index p.1 p.2 < LED_COUNT) ∧
    (∀ s : Sistema, (matriz_desenhar_x s).matriz_buffer = desenhar coordenadas_x (urgb_u32 150 0 0)) ∧
    (∀ (r g b : Nat) (s : Sistema), (matriz_desenhar_circulo r g b s).matriz_buffer
      = desenhar coordenadas_circulo (urgb_u32 r g b)) ∧
    (∀ s : Sistema, (matriz_desenhar_exclamacao s).matriz_buffer
      = desenhar coordenadas_exclamacao (urgb_u32 150 75 0)) ∧
    (∀ (r g b : Nat) (s : Sistema), (matriz_desenhar_ponto_central r g b s).matriz_buffer
      = desenhar coordenadas_ponto (urgb_u32 r g b)) ∧
    (∀ (quantidade : Nat) (s : Sistema), (matriz_desenhar_digitos quantidade s).matriz_buffer
      = desenhar (coordenadas_digitos quantidade) (urgb_u32 150 75 0)) := by
  refine ⟨by decide, ?_, by decide, by decide, ?_, fun _ => rfl, fun _ _ _ _ => rfl,
    fun _ => rfl, fun _ _ _ _ => rfl, ?_⟩
  · intro x hx y hy x2 hx2 y2 hy2 h
    unfold xy_to_index at h
    split_ifs at h <;> constructor <;> omega
  · intro quantidade p hp
    unfold coordenadas_digitos at hp
    rw [List.mem_map] at hp
    obtain ⟨i, hi, rfl⟩ := hp
    rw [List.mem_range] at hi
    have hi4 : i < 4 := by split_ifs at hi <;> omega
    have h2 : ∀ i < 4, xy_to_index (i + 1) 2 < LED_COUNT := by decide
    exact ⟨by simp; omega, by simp, h2 i hi4⟩
  · intro quantidade s
    unfold matriz_desenhar_digitos desenhar coordenadas_digitos
    simp only [matriz_renderizar, List.foldl_map]

/-! ## Countdown ring: bands and redraw -/

theorem urgb_u32_valor (r g b : Nat) :
    urgb_u32 r g b = (g % 256) * 65536 + (r % 256) * 256 + b % 256 := by
  unfold urgb_u32
  have hr : r % 256 < 256 := Nat.mod_lt _ (by decide)
  have hg : g % 256 < 256 := Nat.mod_lt _ (by decide)
  have hb : b % 256 < 256 := Nat.mod_lt _ (by decide)
  have h1 : (g % 256) <<< 16 ||| (r % 256) <<< 8 = 2 ^ 8 * ((g % 256) * 256 + r % 256) := by
    have e1 : (g % 256) <<< 16 = 2 ^ 16 * (g % 256) := by rw [Nat.shiftLeft_eq, Nat.mul_comm]
    rw [e1, Nat.shiftLeft_eq, ← Nat.mul_add_lt_is_or (by omega)]
    omega
  rw [h1, ← Nat.mul_add_lt_is_or (by omega)]
  omega

theorem canais_urgb_u32 (r g b : Nat) :
    canais (urgb_u32 r g b) = (r % 256, g % 256, b % 256) := by
  unfold canais
  rw [urgb_u32_valor]
  have hr : r % 256 < 256 := Nat.mod_lt _ (by decide)
  have hg : g % 256 < 256 := Nat.mod_lt _ (by decide)
  have hb : b % 256 < 256 := Nat.mod_lt _ (by decide)
  simp only [and_0xFF, Nat.shiftRight_eq_div_pow, Prod.mk.injEq]
  omega

theorem cor_circulo_tempo_faixa (t : Int) (h0 : 0 ≤ t) :
    cor_circulo_tempo t
      = urgb_u32 (cor_anel (faixa_ref t)).1 (cor_anel (faixa_ref t)).2.1 (cor_anel (faixa_ref t)).2.2 := by
  unfold cor_circulo_tempo faixa_ref
  by_cases h1 : t > 10
  · simp [h1, cor_anel]
  · by_cases h2 : t > 5
    · have h3 : 6 ≤ t ∧ t ≤ 10 := by omega
      simp [h1, h2, h3, cor_anel]
    · have h3 : ¬ (6 ≤ t ∧ t ≤ 10) := by omega
      have h4 : t ≥ 0 := h0
      simp [h1, h2, h3, h4, cor_anel]

theorem tempo_restante_nao_negativo (limite inicio agora : Nat) :
    0 ≤ tempo_restante limite inicio agora := by
  unfold tempo_restante
  simp only []
  split_ifs with h
  · exact le_refl _
  · omega

theorem ultima_cor_led_pio (m : List Nat) (acc : Option (Nat × Nat × Nat)) :
    (m.map (fun c => Efeito.pio_sm_put_blocking ((c <<< 8) % 2 ^ 32))).foldl
      (fun acc ef => match ef with
        | Efeito.rgb_led_set_color r g b => some (r, g, b)
        | _ => acc) acc = acc := by
  induction m with
  | nil => rfl
  | cons c cs ih => simpa using ih

/-- The ring update either leaves the state as it is (same color as last drawn) or
records the new color and draws the ring with its unpacked components. -/
theorem matriz_animacao_circulo_tempo_update_casos (t : Int) (p : Sistema) :
    (cor_circulo_tempo t = p.circ_tempo_cor_ativa →
      matriz_animacao_circulo_tempo_update t p = (false, p)) ∧
    (cor_circulo_tempo t ≠ p.circ_tempo_cor_ativa →
      matriz_animacao_circulo_tempo_update t p =
        (false, matriz_desenhar_circulo (canais (cor_circulo_tempo t)).1
          (canais (cor_circulo_tempo t)).2.1 (canais (cor_circulo_tempo t)).2.2
          { p with circ_tempo_cor_ativa := cor_circulo_tempo t })) := by
  unfold matriz_animacao_circulo_tempo_update
  constructor
  · intro h
    simp only [h, ne_eq, not_true_eq_false, if_false]
  · intro h
    simp only [ne_eq, h, not_false_eq_true, if_true]
    rfl

theorem matriz_animacao_circulo_tempo_update_traco (t : Int) (p : Sistema) :
    ∃ m : List Nat, (matriz_animacao_circulo_tempo_update t p).2.traco
        = p.traco ++ m.map (fun c => Efeito.pio_sm_put_blocking ((c <<< 8) % 2 ^ 32)) ∧
      (matriz_animacao_circulo_tempo_update t p).2.circ_tempo_cor_ativa = cor_circulo_tempo t := by
  obtain ⟨h1, h2⟩ := matriz_animacao_circulo_tempo_update_casos t p
  by_cases h : cor_circulo_tempo t = p.circ_tempo_cor_ativa
  · rw [h1 h]
    exact ⟨[], by simp, h.symm⟩
  · rw [h2 h]
    exact ⟨_, rfl, rfl⟩

theorem animar_circulo_tempo_ativo (e : Entradas) (s : Sistema)
    (h : s.animacao_circulo_tempo_ativa = true) :
    animar_circulo_tempo e s =
      (matriz_animacao_circulo_tempo_update
        (tempo_restante TEMPO_AUTO_TRAVA_S s.timer_auto_trava.inicio e.agora)
        (set_rgb_solid
          (cor_led (faixa_ref (tempo_restante TEMPO_AUTO_TRAVA_S s.timer_auto_trava.inicio e.agora))).1
          (cor_led (faixa_ref (tempo_restante TEMPO_AUTO_TRAVA_S s.timer_auto_trava.inicio e.agora))).2.1
          (cor_led (faixa_ref (tempo_restante TEMPO_AUTO_TRAVA_S s.timer_auto_trava.inicio e.agora))).2.2
          s)).2 := by
  have h0 := tempo_restante_nao_negativo TEMPO_AUTO_TRAVA_S s.timer_auto_trava.inicio e.agora
  unfold animar_circulo_tempo
  rw [if_pos h]
  simp only []
  generalize tempo_restante TEMPO_AUTO_TRAVA_S s.timer_auto_trava.inicio e.agora = t at *
  unfold faixa_ref
  by_cases h1 : t > 10
  · simp [h1, cor_led]
  · by_cases h2 : t > 5
    · have h3 : 6 ≤ t ∧ t ≤ 10 := by omega
      simp [h1, h2, h3, cor_led]
    · have h3 : ¬ (6 ≤ t ∧ t ≤ 10) := by omega
      simp [h1, h2, h3, cor_led]

/-- C31: for every number of remaining seconds `t` from 0 to 20, the color
`matriz_animacao_circulo_tempo_update` selects is the ring color of the band of `t`
(green above 10, amber from 6 to 10, red at 5 and below); the remaining seconds the main
loop computes are never negative; and on a tick with the countdown flag set whose
remaining seconds are `t`, the last indicator color set by the countdown block is the
solid color of the same band and the ring color recorded is the ring color of that
band. -/
theorem C31_faixas_da_contagem (t : Int) (h0 : 0 ≤ t) (h20 : t ≤ 20) :
    cor_circulo_tempo t
      = urgb_u32 (cor_anel (faixa_ref t)).1 (cor_anel (faixa_ref t)).2.1 (cor_anel (faixa_ref t)).2.2 ∧
    (t > 10 → faixa_ref t = Faixa.verde) ∧
    (6 ≤ t → t ≤ 10 → faixa_ref t = Faixa.ambar) ∧
    (t ≤ 5 → faixa_ref t = Faixa.vermelha) ∧
    (∀ inicio agora : Nat, 0 ≤ tempo_restante TEMPO_AUTO_TRAVA_S inicio agora) ∧
    (∀ (e : Entradas) (s : Sistema), s.animacao_circulo_tempo_ativa = true →
      tempo_restante TEMPO_AUTO_TRAVA_S s.timer_auto_trava.inicio e.agora = t →
      ultima_cor_led (novos_efeitos s (animar_circulo_tempo e s)) = some (cor_led (faixa_ref t)) ∧
      (animar_circulo_tempo e s).circ_tempo_cor_ativa
        = urgb_u32 (cor_anel (faixa_ref t)).1 (cor_anel (faixa_ref t)).2.1
            (cor_anel (faixa_ref t)).2.2) := by
  refine ⟨cor_circulo_tempo_faixa t h0, ?_, ?_, ?_, tempo_restante_nao_negativo _, ?_⟩
  · intro h
    simp [faixa_ref, h]
  · intro h1 h2
    have h3 : ¬ t > 10 := by omega
    simp [faixa_ref, h3, h1, h2]
  · intro h
    have h3 : ¬ t > 10 := by omega
    have h4 : ¬ (6 ≤ t ∧ t ≤ 10) := by omega
    simp [faixa_ref, h3, h4]
  · intro e s hflag ht
    rw [animar_circulo_tempo_ativo e s hflag, ht]
    obtain ⟨m, hm, hc⟩ := matriz_animacao_circulo_tempo_update_traco t
      (set_rgb_solid (cor_led (faixa_ref t)).1 (cor_led (faixa_ref t)).2.1
        (cor_led (faixa_ref t)).2.2 s)
    refine ⟨?_, by rw [hc]; exact cor_circulo_tempo_faixa t h0⟩
    have htr : novos_efeitos s (matriz_animacao_circulo_tempo_update t
        (set_rgb_solid (cor_led (faixa_ref t)).1 (cor_led (faixa_ref t)).2.1
          (cor_led (faixa_ref t)).2.2 s)).2
        = [Efeito.rgb_led_set_color 0 0 0,
            Efeito.rgb_led_set_color (cor_led (faixa_ref t)).1 (cor_led (faixa_ref t)).2.1
              (cor_led (faixa_ref t)).2.2]
          ++ m.map (fun c => Efeito.pio_sm_put_blocking ((c <<< 8) % 2 ^ 32)) := by
      apply novos_efeitos_append
      rw [hm]
      simp [set_rgb_solid, led_parar_pulso, emitir]
    rw [htr]
    unfold ultima_cor_led
    rw [List.foldl_append]
    exact ultima_cor_led_pio m _

theorem desenhar_circulo_celulas (cor : Nat) :
    desenhar coordenadas_circulo cor =
      [0, cor, cor, cor, 0, cor, 0, 0, 0, cor, cor, 0, 0, 0, cor, cor, 0, 0, 0, cor,
       0, cor, cor, cor, 0] := rfl

theorem desenhar_circulo_mostra (cor : Nat) :
    mostra (desenhar coordenadas_circulo cor) forma_anel cor := by
  rw [desenhar_circulo_celulas]
  refine ⟨rfl, ?_⟩
  intro x hx y hy
  interval_cases x <;> interval_cases y <;> rfl

theorem matriz_desenhar_circulo_mostra (r g b : Nat) (p : Sistema) :
    mostra (matriz_desenhar_circulo r g b p).matriz_buffer forma_anel (urgb_u32 r g b) :=
  desenhar_circulo_mostra (urgb_u32 r g b)

/-- C32: `matriz_animacao_circulo_tempo_update` sends a frame to the matrix exactly when
the color of its argument differs from the color recorded at the last draw; when the
colors are equal the state is unchanged, so a second call with an argument of the same
color changes nothing; when they differ the ring cells (and no other) receive the band
color itself, because the components unpacked from a packed color are the bytes that
were packed. -/
theorem C32_redesenho_do_anel (t : Int) (s : Sistema) :
    (novos_efeitos s (matriz_animacao_circulo_tempo_update t s).2 ≠ [] ↔
      cor_circulo_tempo t ≠ s.circ_tempo_cor_ativa) ∧
    (cor_circulo_tempo t = s.circ_tempo_cor_ativa →
      matriz_animacao_circulo_tempo_update t s = (false, s)) ∧
    (∀ t2 : Int, cor_circulo_tempo t2 = cor_circulo_tempo t →
      matriz_animacao_circulo_tempo_update t2 (matriz_animacao_circulo_tempo_update t s).2
        = (false, (matriz_animacao_circulo_tempo_update t s).2)) ∧
    (cor_circulo_tempo t ≠ s.circ_tempo_cor_ativa →
      mostra (matriz_animacao_circulo_tempo_update t s).2.matriz_buffer forma_anel
        (cor_circulo_tempo t) ∧
      (matriz_animacao_circulo_tempo_update t s).2.circ_tempo_cor_ativa = cor_circulo_tempo t ∧
      novos_efeitos s (matriz_animacao_circulo_tempo_update t s).2 =
        (matriz_animacao_circulo_tempo_update t s).2.matriz_buffer.map
          (fun c => Efeito.pio_sm_put_blocking ((c <<< 8) % 2 ^ 32))) ∧
    (∀ r g b : Nat, r < 256 → g < 256 → b < 256 → canais (urgb_u32 r g b) = (r, g, b)) ∧
    urgb_u32 (canais (cor_circulo_tempo t)).1 (canais (cor_circulo_tempo t)).2.1
      (canais (cor_circulo_tempo t)).2.2 = cor_circulo_tempo t := by
  obtain ⟨h1, h2⟩ := matriz_animacao_circulo_tempo_update_casos t s
  have hpack : urgb_u32 (canais (cor_circulo_tempo t)).1 (canais (cor_circulo_tempo t)).2.1
      (canais (cor_circulo_tempo t)).2.2 = cor_circulo_tempo t := by
    unfold cor_circulo_tempo
    split_ifs <;> decide
  have hdraw : cor_circulo_tempo t ≠ s.circ_tempo_cor_ativa →
      mostra (matriz_animacao_circulo_tempo_update t s).2.matriz_buffer forma_anel
        (cor_circulo_tempo t) ∧
      (matriz_animacao_circulo_tempo_update t s).2.circ_tempo_cor_ativa = cor_circulo_tempo t ∧
      novos_efeitos s (matriz_animacao_circulo_tempo_update t s).2 =
        (matriz_animacao_circulo_tempo_update t s).2.matriz_buffer.map
          (fun c => Efeito.pio_sm_put_blocking ((c <<< 8) % 2 ^ 32)) := by
    intro h
    rw [h2 h]
    refine ⟨?_, rfl, ?_⟩
    · have hm := matriz_desenhar_circulo_mostra (canais (cor_circulo_tempo t)).1
        (canais (cor_circulo_tempo t)).2.1 (canais (cor_circulo_tempo t)).2.2
        { s with circ_tempo_cor_ativa := cor_circulo_tempo t }
      rw [hpack] at hm
      exact hm
    · apply novos_efeitos_append
      rfl
  refine ⟨?_, h1, ?_, hdraw, ?_, hpack⟩
  · constructor
    · intro hne heq
      rw [h1 heq] at hne
      exact hne (novos_efeitos_mesmo_traco s s rfl)
    · intro h hnil
      obtain ⟨hm, _, hn⟩ := hdraw h
      rw [hn] at hnil
      have hlen := congrArg List.length hnil
      rw [List.length_map, hm.1] at hlen
      exact absurd hlen (by decide)
  · intro t2 ht2
    obtain ⟨m, _, hc⟩ := matriz_animacao_circulo_tempo_update_traco t s
    exact (matriz_animacao_circulo_tempo_update_casos t2 _).1 (by rw [hc, ht2])
  · intro r g b hr hg hb
    rw [canais_urgb_u32, Nat.mod_eq_of_lt hr, Nat.mod_eq_of_lt hg, Nat.mod_eq_of_lt hb]

/-! ## matriz.c: one frame of the fire animation -/

theorem lista_25 (l : List Nat) (h : l.length = 25) :
    ∃ a0 a1 a2 a3 a4 a5 a6 a7 a8 a9 a10 a11 a12 a13 a14 a15 a16 a17 a18 a19 a20 a21 a22 a23 a24 : Nat,
      l = [a0, a1, a2, a3, a4, a5, a6, a7, a8, a9, a10, a11, a12, a13, a14, a15, a16, a17, a18, a19, a20, a21, a22, a23, a24] := by
  obtain ⟨a0, l1, rfl⟩ := List.exists_cons_of_length_eq_add_one (n := 24) h
  replace h : l1.length = 24 := by simpa using h
  obtain ⟨a1, l2, rfl⟩ := List.exists_cons_of_length_eq_add_one (n := 23) h
  replace h : l2.length = 23 := by simpa using h
  obtain ⟨a2, l3, rfl⟩ := List.exists_cons_of_length_eq_add_one (n := 22) h
  replace h : l3.length = 22 := by simpa using h
  obtain ⟨a3, l4, rfl⟩ := List.exists_cons_of_length_eq_add_one (n := 21) h
  replace h : l4.length = 21 := by simpa using h
  obtain ⟨a4, l5, rfl⟩ := List.exists_cons_of_length_eq_add_one (n := 20) h
  replace h : l5.length = 20 := by simpa using h
  obtain ⟨a5, l6, rfl⟩ := List.exists_cons_of_length_eq_add_one (n := 19) h
  replace h : l6.length = 19 := by simpa using h
  obtain ⟨a6, l7, rfl⟩ := List.exists_cons_of_length_eq_add_one (n := 18) h
  replace h : l7.length = 18 := by simpa using h
  obtain ⟨a7, l8, rfl⟩ := List.exists_cons_of_length_eq_add_one (n := 17) h
  replace h : l8.length = 17 := by simpa using h
  obtain ⟨a8, l9, rfl⟩ := List.exists_cons_of_length_eq_add_one (n := 16) h
  replace h : l9.length = 16 := by simpa using h
  obtain ⟨a9, l10, rfl⟩ := List.exists_cons_of_length_eq_add_one (n := 15) h
  replace h : l10.length = 15 := by simpa using h
  obtain ⟨a10, l11, rfl⟩ := List.exists_cons_of_length_eq_add_one (n := 14) h
  replace h : l11.length = 14 := by simpa using h
  obtain ⟨a11, l12, rfl⟩ := List.exists_cons_of_length_eq_add_one (n := 13) h
  replace h : l12.length = 13 := by simpa using h
  obtain ⟨a12, l13, rfl⟩ := List.exists_cons_of_length_eq_add_one (n := 12) h
  replace h : l13.length = 12 := by simpa using h
  obtain ⟨a13, l14, rfl⟩ := List.exists_cons_of_length_eq_add_one (n := 11) h
  replace h : l14.length = 11 := by simpa using h
  obtain ⟨a14, l15, rfl⟩ := List.exists_cons_of_length_eq_add_one (n := 10) h
  replace h : l15.length = 10 := by simpa using h
  obtain ⟨a15, l16, rfl⟩ := List.exists_cons_of_length_eq_add_one (n := 9) h
  replace h : l16.length = 9 := by simpa using h
  obtain ⟨a16, l17, rfl⟩ := List.exists_cons_of_length_eq_add_one (n := 8) h
  replace h : l17.length = 8 := by simpa using h
  obtain ⟨a17, l18, rfl⟩ := List.exists_cons_of_length_eq_add_one (n := 7) h
  replace h : l18.length = 7 := by simpa using h
  obtain ⟨a18, l19, rfl⟩ := List.exists_cons_of_length_eq_add_one (n := 6) h
  replace h : l19.length = 6 := by simpa using h
  obtain ⟨a19, l20, rfl⟩ := List.exists_cons_of_length_eq_add_one (n := 5) h
  replace h : l20.length = 5 := by simpa using h
  obtain ⟨a20, l21, rfl⟩ := List.exists_cons_of_length_eq_add_one (n := 4) h
  replace h : l21.length = 4 := by simpa using h
  obtain ⟨a21, l22, rfl⟩ := List.exists_cons_of_length_eq_add_one (n := 3) h
  replace h : l22.length = 3 := by simpa using h
  obtain ⟨a22, l23, rfl⟩ := List.exists_cons_of_length_eq_add_one (n := 2) h
  replace h : l23.length = 2 := by simpa using h
  obtain ⟨a23, l24, rfl⟩ := List.exists_cons_of_length_eq_add_one (n := 1) h
  replace h : l24.length = 1 := by simpa using h
  obtain ⟨a24, l25, rfl⟩ := List.exists_cons_of_length_eq_add_one (n := 0) h
  replace h : l25.length = 0 := by simpa using h
  rw [List.length_eq_zero] at h
  subst h
  exact ⟨a0, a1, a2, a3, a4, a5, a6, a7, a8, a9, a10, a11, a12, a13, a14, a15, a16, a17, a18, a19, a20, a21, a22, a23, a24, rfl⟩

theorem fogo_base_celula_outros (rand : Nat → Nat) (st : List Nat × Nat) (x i : Nat)
    (h : xy_to_index x 4 ≠ i) :
    (fogo_base_celula rand st x).1.getD i 0 = st.1.getD i 0 := by
  unfold fogo_base_celula
  simp only []
  split_ifs <;> simp [List.getD_eq_getElem?_getD, List.getElem?_set_ne h]

theorem fogo_base_outros (rand : Nat → Nat) (buf : List Nat) (i : Nat) (h : i < 20) :
    ((List.range 5).foldl (fogo_base_celula rand) (buf, 0)).1.getD i 0 = buf.getD i 0 := by
  have hr : List.range 5 = [0, 1, 2, 3, 4] := rfl
  have hx : ∀ x < 5, xy_to_index x 4 ≠ i := by
    intro x hx
    unfold xy_to_index
    simp only [Nat.reduceMod, if_true]
    omega
  rw [hr]
  simp only [List.foldl]
  rw [fogo_base_celula_outros _ _ _ _ (hx 4 (by decide)),
    fogo_base_celula_outros _ _ _ _ (hx 3 (by decide)),
    fogo_base_celula_outros _ _ _ _ (hx 2 (by decide)),
    fogo_base_celula_outros _ _ _ _ (hx 1 (by decide)),
    fogo_base_celula_outros _ _ _ _ (hx 0 (by decide))]

theorem xy_to_index_lt_20 (x y : Nat) (hx : x < 5) (hy : y < 4) : xy_to_index x y < 20 := by
  unfold xy_to_index
  split_ifs <;> omega

set_option maxHeartbeats 1000000 in
/-- One upward pass with an arbitrary cell transform: each cell of rows 0 to 3 receives
the transform of the cell below it as it was before the pass. -/
theorem propagacao_generica (g : Nat → Nat) (buf : List Nat) (hlen : buf.length = 25) :
    ∀ x < 5, ∀ y < 4,
      celula ((List.range 4).foldl
        (fun b y => (List.range 5).foldl
          (fun b x => b.set (xy_to_index x y) (g (b.getD (xy_to_index x (y + 1)) 0))) b) buf) x y
      = g (celula buf x (y + 1)) := by
  obtain ⟨a0, a1, a2, a3, a4, a5, a6, a7, a8, a9, a10, a11, a12, a13, a14, a15, a16, a17, a18,
    a19, a20, a21, a22, a23, a24, rfl⟩ := lista_25 buf hlen
  have h4 : List.range 4 = [0, 1, 2, 3] := rfl
  have h5 : List.range 5 = [0, 1, 2, 3, 4] := rfl
  rw [h4, h5]
  intro x hx y hy
  interval_cases x <;> interval_cases y <;> simp [List.foldl, xy_to_index, celula]

theorem fogo_propagar_celula_forma (g : Nat → Nat)
    (hg : ∀ c, g c = urgb_u32
      (if (c >>> 8) &&& 0xFF > 10 then ((c >>> 8) &&& 0xFF) - 10 else 0)
      (if (c >>> 16) &&& 0xFF > 5 then ((c >>> 16) &&& 0xFF) - 5 else 0) 0)
    (b : List Nat) (x y : Nat) :
    fogo_propagar_celula b x y =
      b.set (xy_to_index x y) (g (b.getD (xy_to_index x (y + 1)) 0)) := by
  rw [hg]
  rfl

theorem fogo_propagacao (buf : List Nat) (hlen : buf.length = 25) :
    ∀ x < 5, ∀ y < 4,
      celula ((List.range 4).foldl
        (fun b y => (List.range 5).foldl (fun b x => fogo_propagar_celula b x y) b) buf) x y
      = urgb_u32
          (if (celula buf x (y + 1) >>> 8) &&& 0xFF > 10
            then ((celula buf x (y + 1) >>> 8) &&& 0xFF) - 10 else 0)
          (if (celula buf x (y + 1) >>> 16) &&& 0xFF > 5
            then ((celula buf x (y + 1) >>> 16) &&& 0xFF) - 5 else 0) 0 := by
  obtain ⟨g, hg⟩ : ∃ g : Nat → Nat, ∀ c, g c = urgb_u32
      (if (c >>> 8) &&& 0xFF > 10 then ((c >>> 8) &&& 0xFF) - 10 else 0)
      (if (c >>> 16) &&& 0xFF > 5 then ((c >>> 16) &&& 0xFF) - 5 else 0) 0 :=
    ⟨_, fun _ => rfl⟩
  intro x hx y hy
  simp only [fogo_propagar_celula_forma g hg]
  rw [propagacao_generica g buf hlen x hx y hy, hg]

theorem matriz_atualizar_animacao_fogo_buffer (e : Entradas) (s : Sistema)
    (hativo : s.fogo_ativo = true) (ht : s.fogo_ultimo_frame_tempo + 100000 ≤ e.agora) :
    (matriz_atualizar_animacao_fogo e s).matriz_buffer =
      ((List.range 5).foldl (fogo_base_celula e.rand)
        ((List.range 4).foldl
          (fun b y => (List.range 5).foldl (fun b x => fogo_propagar_celula b x y) b)
          s.matriz_buffer, 0)).1 := by
  have h1 : ¬ ((!s.fogo_ativo) = true) := by simp [hativo]
  have h2 : ¬ (absolute_time_diff_us s.fogo_ultimo_frame_tempo e.agora
      < (FOGO_FRAME_DELAY_US : Int)) := by
    unfold absolute_time_diff_us FOGO_FRAME_DELAY_US
    omega
  unfold matriz_atualizar_animacao_fogo
  rw [if_neg h1, if_neg h2]
  rfl

/-- C33: in one frame of the fire animation (fire active, at least 100000 us after the
previous frame, 25-cell buffer), for every column `x` and every row `y` from 0 to 3 the
new color of cell `(x, y)` is packed from the red and green bytes of the color cell
`(x, y + 1)` had before the frame, red lowered by 10 when above 10 and set to 0
otherwise, green lowered by 5 when above 5 and set to 0 otherwise, and blue 0; the new
red and green bytes are at most the old ones, so no channel wraps around. -/
theorem C33_frame_do_fogo (e : Entradas) (s : Sistema) (x y : Nat)
    (hativo : s.fogo_ativo = true) (hlen : s.matriz_buffer.length = 25)
    (ht : s.fogo_ultimo_frame_tempo + 100000 ≤ e.agora) (hx : x < 5) (hy : y < 4) :
    celula (matriz_atualizar_animacao_fogo e s).matriz_buffer x y =
      urgb_u32
        (if (canais (celula s.matriz_buffer x (y + 1))).1 > 10
          then (canais (celula s.matriz_buffer x (y + 1))).1 - 10 else 0)
        (if (canais (celula s.matriz_buffer x (y + 1))).2.1 > 5
          then (canais (celula s.matriz_buffer x (y + 1))).2.1 - 5 else 0) 0 ∧
    canais (celula (matriz_atualizar_animacao_fogo e s).matriz_buffer x y) =
      (if (canais (celula s.matriz_buffer x (y + 1))).1 > 10
          then (canais (celula s.matriz_buffer x (y + 1))).1 - 10 else 0,
       if (canais (celula s.matriz_buffer x (y + 1))).2.1 > 5
          then (canais (celula s.matriz_buffer x (y + 1))).2.1 - 5 else 0,
       0) ∧
    (canais (celula (matriz_atualizar_animacao_fogo e s).matriz_buffer x y)).1
      ≤ (canais (celula s.matriz_buffer x (y + 1))).1 ∧
    (canais (celula (matriz_atualizar_animacao_fogo e s).matriz_buffer x y)).2.1
      ≤ (canais (celula s.matriz_buffer x (y + 1))).2.1 := by
  have hcel : celula (matriz_atualizar_animacao_fogo e s).matriz_buffer x y =
      urgb_u32
        (if (canais (celula s.matriz_buffer x (y + 1))).1 > 10
          then (canais (celula s.matriz_buffer x (y + 1))).1 - 10 else 0)
        (if (canais (celula s.matriz_buffer x (y + 1))).2.1 > 5
          then (canais (celula s.matriz_buffer x (y + 1))).2.1 - 5 else 0) 0 := by
    rw [matriz_atualizar_animacao_fogo_buffer e s hativo ht]
    unfold celula
    rw [fogo_base_outros e.rand _ _ (xy_to_index_lt_20 x y hx hy)]
    exact fogo_propagacao s.matriz_buffer hlen x hx y hy
  have hr : (canais (celula s.matriz_buffer x (y + 1))).1 < 256 := by
    show (celula s.matriz_buffer x (y + 1) >>> 8) &&& 0xFF < 256
    rw [and_0xFF]
    exact Nat.mod_lt _ (by decide)
  have hg : (canais (celula s.matriz_buffer x (y + 1))).2.1 < 256 := by
    show (celula s.matriz_buffer x (y + 1) >>> 16) &&& 0xFF < 256
    rw [and_0xFF]
    exact Nat.mod_lt _ (by decide)
  rw [hcel, canais_urgb_u32]
  generalize (canais (celula s.matriz_buffer x (y + 1))).1 = r at *
  generalize (canais (celula s.matriz_buffer x (y + 1))).2.1 = g at *
  refine ⟨rfl, ?_, ?_, ?_⟩
  · have e1 : (if r > 10 then r - 10 else 0) % 256 = if r > 10 then r - 10 else 0 := by
      split_ifs <;> omega
    have e2 : (if g > 5 then g - 5 else 0) % 256 = if g > 5 then g - 5 else 0 := by
      split_ifs <;> omega
    rw [e1, e2]
  · show (if r > 10 then r - 10 else 0) % 256 ≤ r
    split_ifs <;> omega
  · show (if g > 5 then g - 5 else 0) % 256 ≤ g
    split_ifs <;> omega

/-! ## Password fields under each handler -/

theorem adicionar_digito_campos (tecla : Char) (s p : Sistema)
    (h : campos_senha p = campos_senha s) :
    campos_senha (adicionar_digito tecla p) = campos_senha (adicionar_digito tecla s) := by
  unfold campos_senha at h
  simp only [Prod.mk.injEq] at h
  obtain ⟨h1, h2, h3, h4, h5⟩ := h
  unfold adicionar_digito campos_senha
  rw [h2]
  split_ifs <;> simp [h1, h2, h3, h4, h5]

theorem admin_confirmar_campos (s p : Sistema) (h : campos_senha p = campos_senha s)
    (hc : p.cor_ativa = s.cor_ativa) :
    campos_senha (admin_confirmar p) = campos_senha (admin_confirmar s) := by
  unfold campos_senha at h
  simp only [Prod.mk.injEq] at h
  obtain ⟨h1, h2, h3, h4, h5⟩ := h
  unfold admin_confirmar campos_senha
  rw [h2, hc]
  split_ifs
  · cases s.cor_ativa <;>
      simp [h1, h2, h3, h4, h5, feedback_tocar_sucesso, solicitar_publicacao_mqtt,
        set_rgb_solid, led_parar_pulso, emitir]
  · simp [h1, h2, h3, h4, h5, feedback_tocar_erro, set_rgb_solid, led_parar_pulso, emitir]

theorem admin_confirmar_campos_sem_quatro (s : Sistema) (h : s.digitos_count ≠ 4) :
    campos_senha (admin_confirmar s) = campos_senha s := by
  unfold admin_confirmar
  rw [if_neg h]
  rfl

theorem handle_modo_espera_campos (e : Entradas) (s : Sistema) :
    TransicaoSenha e s (handle_modo_espera e s) := by
  unfold TransicaoSenha
  simp only [handle_modo_espera, espera_sensor, espera_display, espera_inicializacao,
    display_deve_atualizar, solicitar_publicacao_mqtt, start_rgb_pulse_and_matrix_center,
    led_iniciar_pulso, matriz_limpar, matriz_renderizar, emitir]
  split_ifs <;> first | exact Or.inl rfl | exact Or.inr (Or.inl rfl)

theorem handle_modo_aberto_campos (e : Entradas) (s : Sistema) :
    campos_senha (handle_modo_aberto e s) = campos_senha s := by
  unfold handle_modo_aberto
  simp only [display_deve_atualizar]
  split_ifs <;> rfl

theorem handle_admin_aguardando_cartao_campos (e : Entradas) (s : Sistema) :
    TransicaoSenha e s (handle_admin_aguardando_cartao e s) := by
  unfold TransicaoSenha
  simp only [handle_admin_aguardando_cartao, solicitar_publicacao_mqtt,
    start_rgb_pulse_and_matrix_center, led_iniciar_pulso, matriz_limpar, matriz_renderizar, emitir]
  split_ifs <;> first | exact Or.inl rfl | exact Or.inr (Or.inl rfl)

theorem handle_modo_mensagem_campos (e : Entradas) (s : Sistema) :
    campos_senha (handle_modo_mensagem e s) = campos_senha s := by
  unfold handle_modo_mensagem
  simp only []
  split_ifs <;> rfl

theorem handle_modo_emergencia_campos (e : Entradas) (s : Sistema) :
    campos_senha (handle_modo_emergencia e s) = campos_senha s := by
  unfold handle_modo_emergencia
  simp only []
  split_ifs <;> rfl

theorem aguarda_senha_teclado_campos (e : Entradas) (p : Sistema) :
    campos_senha (aguarda_senha_teclado e p) = campos_senha p ∨
    (e.tecla ≠ NUL ∧ e.tecla ≠ '#' ∧ e.tecla ≠ '*' ∧
      campos_senha (aguarda_senha_teclado e p) = campos_senha (adicionar_digito e.tecla p)) := by
  unfold aguarda_senha_teclado
  simp only []
  split_ifs with h0 h1 h2 h3
  · exact Or.inl rfl
  · exact Or.inl rfl
  · exact Or.inl rfl
  · exact Or.inr ⟨h0, h1, h3, adicionar_digito_campos _ _ _ rfl⟩
  · exact Or.inl rfl

theorem handle_modo_aguarda_senha_campos (e : Entradas) (s : Sistema) :
    TransicaoSenha e s (handle_modo_aguarda_senha e s) := by
  obtain ⟨_, hb, h1, h2, h3, _, _, hn, _⟩ := aguarda_senha_prologo_campos e s
  unfold TransicaoSenha handle_modo_aguarda_senha
  generalize aguarda_senha_display e (aguarda_senha_inicializacao s) = p at *
  have hp : campos_senha p = campos_senha s := by
    unfold campos_senha
    rw [hb, hn, h1, h2, h3]
  simp only []
  split_ifs
  · exact Or.inl hp
  · rcases aguarda_senha_teclado_campos e
      { p with timer_timeout_senha := (timer_expirou p.timer_timeout_senha e.agora).2 }
      with h | ⟨k0, k1, k2, h⟩
    · exact Or.inl (h.trans hp)
    · exact Or.inr (Or.inr (Or.inl ⟨k0, k1, k2, h.trans (adicionar_digito_campos _ _ _ hp)⟩))

theorem admin_nova_senha_teclado_campos (e : Entradas) (p : Sistema) :
    campos_senha (admin_nova_senha_teclado e p) = campos_senha p ∨
    (e.tecla ≠ NUL ∧ e.tecla ≠ '#' ∧ e.tecla ≠ '*' ∧
      campos_senha (admin_nova_senha_teclado e p) = campos_senha (adicionar_digito e.tecla p)) ∨
    (e.tecla = '#' ∧ p.digitos_count = 4 ∧
      campos_senha (admin_nova_senha_teclado e p) = campos_senha (admin_confirmar p)) := by
  unfold admin_nova_senha_teclado
  simp only []
  split_ifs with h0 h1 h2
  · by_cases h4 : p.digitos_count = 4
    · exact Or.inr (Or.inr ⟨h1, h4, admin_confirmar_campos _ _ rfl rfl⟩)
    · left
      exact (admin_confirmar_campos_sem_quatro _ h4)
  · exact Or.inl rfl
  · exact Or.inr (Or.inl ⟨h0, h1, h2, adicionar_digito_campos _ _ _ rfl⟩)
  · exact Or.inl rfl

theorem handle_admin_aguardando_nova_senha_campos (e : Entradas) (s : Sistema)
    (hm : s.modo_atual = MODO_ADMIN_AGUARDANDO_NOVA_SENHA) :
    TransicaoSenha e s (handle_admin_aguardando_nova_senha e s) := by
  obtain ⟨p, hp, hb, hn, hc, h1, h2, h3, _, _⟩ := admin_nova_senha_prologo_completo e s
  have hcs : campos_senha p = campos_senha s := by
    unfold campos_senha
    rw [hb, hn, h1, h2, h3]
  unfold TransicaoSenha
  rw [hp]
  rcases admin_nova_senha_teclado_campos e p with h | ⟨k0, k1, k2, h⟩ | ⟨k1, k4, h⟩
  · exact Or.inl (h.trans hcs)
  · exact Or.inr (Or.inr (Or.inl ⟨k0, k1, k2, h.trans (adicionar_digito_campos _ _ _ hcs)⟩))
  · exact Or.inr (Or.inr (Or.inr ⟨hm, k1, by rw [← hn]; exact k4,
      h.trans (admin_confirmar_campos _ _ hcs hc)⟩))

theorem maquina_estados_campos (e : Entradas) (s : Sistema) :
    TransicaoSenha e s (maquina_estados e s) := by
  unfold maquina_estados
  split_ifs with h0 h1 h2 h3 h4
  · exact handle_modo_espera_campos e s
  · exact handle_modo_aguarda_senha_campos e s
  · exact Or.inl (handle_modo_aberto_campos e s)
  · exact handle_admin_aguardando_cartao_campos e s
  · exact handle_admin_aguardando_nova_senha_campos e s h4
  · exact Or.inl (handle_modo_mensagem_campos e s)
  · exact Or.inl (handle_modo_emergencia_campos e s)
  · exact Or.inl rfl

theorem acionar_fechamento_campos (e : Entradas) (p : Sistema) :
    campos_senha (acionar_fechamento e p) = campos_senha p := rfl

theorem desativar_modo_emergencia_campos (e : Entradas) (s : Sistema) :
    campos_senha (desativar_modo_emergencia e s) = campos_senha s := by
  unfold campos_senha desativar_modo_emergencia
  simp [acionar_fechamento, solicitar_publicacao_mqtt, set_rgb_solid, led_parar_pulso, emitir,
    matriz_parar_animacao_fogo, matriz_limpar, matriz_renderizar, reset_visual_state]

theorem verificar_fifo_campos (e : Entradas) (s : Sistema) :
    campos_senha (verificar_fifo e s) = campos_senha s ∨
    campos_senha (verificar_fifo e s)
      = campos_senha { s with senha_digitada := senha_vazia, digitos_count := 0 } := by
  unfold verificar_fifo
  cases e.fifo with
  | none => exact Or.inl rfl
  | some pacote =>
    simp only []
    split_ifs
    · exact Or.inl (desativar_modo_emergencia_campos e s)
    · left; rfl
    · right; rfl
    · left; rfl

theorem loop_principal_campos (e : Entradas) (s : Sistema) :
    campos_senha (loop_principal e s) = campos_senha (maquina_estados e (verificar_fifo e s)) := by
  have h := controle_loop_principal e s
  unfold controle at h
  simp only [Prod.mk.injEq] at h
  unfold campos_senha
  simp only [Prod.mk.injEq]
  tauto

/-! ## Password invariant -/

theorem cstr_set_digito (c : Char) (hc : c ≠ NUL) :
    ∀ (buf : List Char) (n : Nat), (cstr buf).length = n → n + 1 < buf.length →
      cstr ((buf.set n c).set (n + 1) NUL) = cstr buf ++ [c] := by
  have hpc : (c != NUL) = true := by simpa using hc
  intro buf
  induction buf with
  | nil => intro n _ h; simp at h
  | cons a as ih =>
    intro n hn hlen
    unfold cstr at hn ⊢
    by_cases ha : (a != NUL) = true
    · rw [List.takeWhile_cons_of_pos (p := fun c => c != NUL) ha] at hn
      cases n with
      | zero => simp at hn
      | succ m =>
        simp only [List.length_cons, Nat.add_right_cancel_iff] at hn
        simp only [List.length_cons] at hlen
        have := ih m hn (by omega)
        unfold cstr at this
        simp only [List.set_cons_succ, List.takeWhile_cons_of_pos (p := fun c => c != NUL) ha, this, List.cons_append]
    · rw [List.takeWhile_cons_of_neg (p := fun c => c != NUL) ha] at hn
      simp only [List.length_nil] at hn
      subst hn
      cases as with
      | nil => simp at hlen
      | cons b bs =>
        have hnul : ¬ ((NUL != NUL) = true) := by simp
        simp only [List.set_cons_zero, List.set_cons_succ, List.takeWhile_cons_of_pos (p := fun c => c != NUL) hpc,
          List.takeWhile_cons_of_neg (p := fun c => c != NUL) hnul, List.takeWhile_cons_of_neg (p := fun c => c != NUL) ha, List.nil_append]

theorem InvSenhas_congr (s t : Sistema) (h : campos_senha t = campos_senha s) :
    InvSenhas s → InvSenhas t := by
  unfold campos_senha at h
  simp only [Prod.mk.injEq] at h
  obtain ⟨h1, h2, h3, h4, h5⟩ := h
  unfold InvSenhas buffer_bem_formado
  rw [h1, h2, h3, h4, h5]
  exact id

theorem InvSenhas_limpar (s : Sistema) (h : InvSenhas s) :
    InvSenhas { s with senha_digitada := senha_vazia, digitos_count := 0 } := by
  obtain ⟨_, h1, h2, h3⟩ := h
  exact ⟨⟨rfl, Nat.zero_le _, rfl, (by decide : '#' ∉ cstr senha_vazia),
    (by decide : '*' ∉ cstr senha_vazia)⟩, h1, h2, h3⟩

theorem InvSenhas_adicionar_digito (tecla : Char) (s : Sistema) (h0 : tecla ≠ NUL)
    (h1 : tecla ≠ '#') (h2 : tecla ≠ '*') (h : InvSenhas s) :
    InvSenhas (adicionar_digito tecla s) := by
  obtain ⟨⟨hl, hn, hc, hh, ha⟩, p1, p2, p3⟩ := h
  unfold adicionar_digito
  split_ifs with hlt
  · have hcs := cstr_set_digito tecla h0 s.senha_digitada s.digitos_count hc (by omega)
    refine ⟨⟨?_, ?_, ?_, ?_, ?_⟩, p1, p2, p3⟩
    · simp [hl]
    · show s.digitos_count + 1 ≤ 4
      omega
    · show (cstr ((s.senha_digitada.set s.digitos_count tecla).set (s.digitos_count + 1) NUL)).length
        = s.digitos_count + 1
      rw [hcs, List.length_append, hc]
      rfl
    · show '#' ∉ cstr ((s.senha_digitada.set s.digitos_count tecla).set (s.digitos_count + 1) NUL)
      rw [hcs, List.mem_append]
      intro hm
      rcases hm with hm | hm
      · exact hh hm
      · simp at hm
        exact h1 hm.symm
    · show '*' ∉ cstr ((s.senha_digitada.set s.digitos_count tecla).set (s.digitos_count + 1) NUL)
      rw [hcs, List.mem_append]
      intro hm
      rcases hm with hm | hm
      · exact ha hm
      · simp at hm
        exact h2 hm.symm
  · exact ⟨⟨hl, hn, hc, hh, ha⟩, p1, p2, p3⟩

theorem senha_bem_formada_strcpy (dst : List Char) (s : Sistema) (h : buffer_bem_formado s)
    (h4 : s.digitos_count = 4) : senha_bem_formada (strcpy dst s.senha_digitada) := by
  obtain ⟨_, _, hc, hh, ha⟩ := h
  unfold senha_bem_formada
  rw [cstr_strcpy]
  exact ⟨by rw [hc, h4], hh, ha⟩

theorem InvSenhas_admin_confirmar (s : Sistema) (h4 : s.digitos_count = 4) (h : InvSenhas s) :
    InvSenhas (admin_confirmar s) := by
  obtain ⟨hb, p1, p2, p3⟩ := h
  have hs := fun dst => senha_bem_formada_strcpy dst s hb h4
  unfold admin_confirmar
  rw [if_pos h4]
  cases hcor : s.cor_ativa
  · exact ⟨hb, p1, p2, p3⟩
  · exact ⟨hb, hs _, p2, p3⟩
  · exact ⟨hb, p1, hs _, p3⟩
  · exact ⟨hb, p1, p2, hs _⟩

theorem InvSenhas_transicao (e : Entradas) (s t : Sistema) (ht : TransicaoSenha e s t)
    (h : InvSenhas s) : InvSenhas t := by
  rcases ht with h1 | h1 | ⟨k0, k1, k2, h1⟩ | ⟨_, _, k4, h1⟩
  · exact InvSenhas_congr _ _ h1 h
  · exact InvSenhas_congr _ _ h1 (InvSenhas_limpar s h)
  · exact InvSenhas_congr _ _ h1 (InvSenhas_adicionar_digito _ s k0 k1 k2 h)
  · exact InvSenhas_congr _ _ h1 (InvSenhas_admin_confirmar s k4 h)

theorem InvSenhas_loop_principal (e : Entradas) (s : Sistema) (h : InvSenhas s) :
    InvSenhas (loop_principal e s) := by
  apply InvSenhas_congr _ _ (loop_principal_campos e s)
  apply InvSenhas_transicao e _ _ (maquina_estados_campos e _)
  rcases verificar_fifo_campos e s with h1 | h1
  · exact InvSenhas_congr _ _ h1 h
  · exact InvSenhas_congr _ _ h1 (InvSenhas_limpar s h)

theorem InvSenhas_inicial : InvSenhas estado_inicial :=
  ⟨⟨rfl, by decide, by decide, by decide, by decide⟩,
    ⟨by decide, by decide, by decide⟩, ⟨by decide, by decide, by decide⟩,
    ⟨by decide, by decide, by decide⟩⟩

theorem alcancavel_InvSenhas (s : Sistema) (h : Alcancavel s) : InvSenhas s := by
  induction h with
  | inicio => exact InvSenhas_inicial
  | passo e s _ ih => exact InvSenhas_loop_principal e s ih

theorem senhas_de_campos (s t : Sistema) (h : campos_senha t = campos_senha s) :
    senhas t = senhas s := by
  unfold campos_senha at h
  simp only [Prod.mk.injEq] at h
  unfold senhas
  rw [h.2.2.1, h.2.2.2.1, h.2.2.2.2]

theorem senhas_adicionar_digito (tecla : Char) (s : Sistema) :
    senhas (adicionar_digito tecla s) = senhas s := by
  unfold adicionar_digito
  split_ifs <;> rfl

theorem senhas_verificar_fifo (e : Entradas) (s : Sistema) :
    senhas (verificar_fifo e s) = senhas s := by
  rcases verificar_fifo_campos e s with h | h
  · exact senhas_de_campos _ _ h
  · exact senhas_de_campos
      { s with senha_digitada := senha_vazia, digitos_count := 0 } _ h

/-- One dispatch changes a stored password only through the admin confirmation. -/
theorem maquina_estados_senhas (e : Entradas) (s : Sistema)
    (h : senhas (maquina_estados e s) ≠ senhas s) :
    s.modo_atual = MODO_ADMIN_AGUARDANDO_NOVA_SENHA ∧ e.tecla = '#' ∧ s.digitos_count = 4 := by
  rcases maquina_estados_campos e s with h1 | h1 | ⟨_, _, _, h1⟩ | ⟨k1, k2, k3, _⟩
  · exact absurd (senhas_de_campos _ _ h1) h
  · exact absurd (senhas_de_campos
      { s with senha_digitada := senha_vazia, digitos_count := 0 } _ h1) h
  · exact absurd ((senhas_de_campos _ _ h1).trans (senhas_adicionar_digito _ _)) h
  · exact ⟨k1, k2, k3⟩

/-- C35: in every reachable state the digit count is the length of the string in the
password buffer, each of the three stored passwords is a string of exactly 4 characters
with neither `#` nor `*`, and when the buffer holds fewer than 4 characters the
password comparison fails for every active color. -/
theorem C35_invariante_das_senhas (s : Sistema) (h : Alcancavel s) :
    s.digitos_count = (cstr s.senha_digitada).length ∧
    ((cstr s.SENHA_VERDE).length = 4 ∧ '#' ∉ cstr s.SENHA_VERDE ∧ '*' ∉ cstr s.SENHA_VERDE) ∧
    ((cstr s.SENHA_VERMELHA).length = 4 ∧ '#' ∉ cstr s.SENHA_VERMELHA ∧
      '*' ∉ cstr s.SENHA_VERMELHA) ∧
    ((cstr s.SENHA_AZUL).length = 4 ∧ '#' ∉ cstr s.SENHA_AZUL ∧ '*' ∉ cstr s.SENHA_AZUL) ∧
    ((cstr s.senha_digitada).length < 4 → senha_valida s = false) := by
  obtain ⟨⟨_, _, hc, _, _⟩, p1, p2, p3⟩ := alcancavel_InvSenhas s h
  refine ⟨hc.symm, p1, p2, p3, ?_⟩
  intro hlt
  by_contra hv
  have hv2 : senha_valida s = true := by simpa using hv
  rcases (senha_valida_iff s).1 hv2 with ⟨_, heq⟩ | ⟨_, heq⟩ | ⟨_, heq⟩
  · rw [heq, p1.1] at hlt
    exact absurd hlt (by decide)
  · rw [heq, p2.1] at hlt
    exact absurd hlt (by decide)
  · rw [heq, p3.1] at hlt
    exact absurd hlt (by decide)

/-- C36: a loop iteration that changes any of the three stored passwords dispatched the
mode AdminAwaitingNewPassword, read the key `#` and had digit count 4 at the dispatch;
the remote-command check alone never changes a stored password, and an iteration that
dispatches any other mode (Waiting, AwaitingPassword, Open, AdminAwaitingCard, a message
mode, FireEmergency or an invalid value) leaves all three as they were. -/
theorem C36_senhas_so_mudam_na_confirmacao (e : Entradas) (s : Sistema) :
    (senhas (loop_principal e s) ≠ senhas s →
      (verificar_fifo e s).modo_atual = MODO_ADMIN_AGUARDANDO_NOVA_SENHA ∧ e.tecla = '#' ∧
      (verificar_fifo e s).digitos_count = 4) ∧
    senhas (verificar_fifo e s) = senhas s ∧
    ((verificar_fifo e s).modo_atual ≠ MODO_ADMIN_AGUARDANDO_NOVA_SENHA →
      senhas (loop_principal e s) = senhas s) ∧
    (e.tecla ≠ '#' → senhas (loop_principal e s) = senhas s) ∧
    ((verificar_fifo e s).digitos_count ≠ 4 → senhas (loop_principal e s) = senhas s) := by
  have hl : senhas (loop_principal e s) = senhas (maquina_estados e (verificar_fifo e s)) :=
    senhas_de_campos _ _ (loop_principal_campos e s)
  have hv := senhas_verificar_fifo e s
  have key : senhas (loop_principal e s) ≠ senhas s →
      (verificar_fifo e s).modo_atual = MODO_ADMIN_AGUARDANDO_NOVA_SENHA ∧ e.tecla = '#' ∧
      (verificar_fifo e s).digitos_count = 4 := by
    intro h
    apply maquina_estados_senhas e (verificar_fifo e s)
    rw [← hl, hv]
    exact h
  refine ⟨key, hv, ?_, ?_, ?_⟩
  · intro hm
    by_contra hne
    exact hm (key hne).1
  · intro hk
    by_contra hne
    exact hk (key hne).2.1
  · intro hn
    by_contra hne
    exact hn (key hne).2.2

/-! ## Open flag and auto-lock timer under each handler -/

theorem transicao_abertura_outros (e : Entradas) (s t : Sistema)
    (hc : campos_abertura t = campos_abertura s) (hs : s.modo_atual ≠ MODO_ABERTO)
    (ht : t.modo_atual ≠ MODO_ABERTO) : TransicaoAbertura e s t := by
  unfold campos_abertura at hc
  simp only [Prod.mk.injEq] at hc
  exact Or.inr (Or.inr (Or.inr ⟨hs, ht, hc.1⟩))

theorem handle_modo_espera_abertura (e : Entradas) (s : Sistema) :
    campos_abertura (handle_modo_espera e s) = campos_abertura s := by
  simp only [handle_modo_espera, espera_sensor, espera_display, espera_inicializacao,
    display_deve_atualizar, solicitar_publicacao_mqtt, start_rgb_pulse_and_matrix_center,
    led_iniciar_pulso, matriz_limpar, matriz_renderizar, emitir]
  split_ifs <;> rfl

theorem handle_admin_aguardando_cartao_abertura (e : Entradas) (s : Sistema) :
    campos_abertura (handle_admin_aguardando_cartao e s) = campos_abertura s := by
  simp only [handle_admin_aguardando_cartao, solicitar_publicacao_mqtt,
    start_rgb_pulse_and_matrix_center, led_iniciar_pulso, matriz_limpar, matriz_renderizar, emitir]
  split_ifs <;> rfl

theorem handle_modo_mensagem_abertura (e : Entradas) (s : Sistema) :
    campos_abertura (handle_modo_mensagem e s) = campos_abertura s := by
  unfold handle_modo_mensagem
  simp only []
  split_ifs <;> rfl

theorem handle_modo_emergencia_abertura (e : Entradas) (s : Sistema) :
    campos_abertura (handle_modo_emergencia e s) = campos_abertura s := by
  unfold handle_modo_emergencia
  simp only []
  split_ifs <;> rfl

theorem adicionar_digito_abertura (tecla : Char) (p : Sistema) :
    campos_abertura (adicionar_digito tecla p) = campos_abertura p := by
  unfold adicionar_digito
  split_ifs <;> rfl

theorem admin_confirmar_abertura (p : Sistema) :
    campos_abertura (admin_confirmar p) = campos_abertura p := by
  unfold admin_confirmar
  split_ifs
  · cases h : p.cor_ativa <;> rfl
  · rfl

theorem admin_nova_senha_teclado_abertura (e : Entradas) (p : Sistema) :
    campos_abertura (admin_nova_senha_teclado e p) = campos_abertura p := by
  unfold admin_nova_senha_teclado
  simp only []
  split_ifs
  · exact admin_confirmar_abertura _
  · rfl
  · exact adicionar_digito_abertura _ _
  · rfl

theorem handle_admin_aguardando_nova_senha_abertura (e : Entradas) (s : Sistema) :
    campos_abertura (handle_admin_aguardando_nova_senha e s) = campos_abertura s := by
  unfold handle_admin_aguardando_nova_senha
  simp only [display_deve_atualizar]
  split_ifs <;> exact (admin_nova_senha_teclado_abertura e _).trans rfl

theorem aguarda_senha_prologo_abertura (e : Entradas) (s : Sistema) :
    campos_abertura (aguarda_senha_display e (aguarda_senha_inicializacao s))
      = campos_abertura s := by
  simp only [aguarda_senha_display, aguarda_senha_inicializacao, display_deve_atualizar,
    solicitar_publicacao_mqtt, set_rgb_solid, led_parar_pulso, emitir]
  split <;> split <;> rfl

theorem aguarda_senha_teclado_abertura (e : Entradas) (p : Sistema)
    (hm : p.modo_atual = MODO_AGUARDA_SENHA) :
    TransicaoAbertura e p (aguarda_senha_teclado e p) := by
  have hne : p.modo_atual ≠ MODO_ABERTO := by rw [hm]; decide
  unfold aguarda_senha_teclado
  simp only []
  split_ifs
  · obtain ⟨h1, _, h3, _, h5, _⟩ := acionar_abertura_efeito e
      (emitir (Efeito.buzzer_play_tone 1500 50) p)
    exact Or.inr (Or.inl ⟨h1, h3, h5⟩)
  · exact transicao_abertura_outros e p _ rfl hne
      (by decide : MODO_MSG_ACESSO_NEGADO ≠ MODO_ABERTO)
  · exact transicao_abertura_outros e p _ rfl hne (by decide : MODO_ESPERA ≠ MODO_ABERTO)
  · refine Or.inl ⟨(adicionar_digito_resumo _ _).1, ?_⟩
    exact (adicionar_digito_abertura _ _).trans rfl
  · exact Or.inl ⟨rfl, rfl⟩

theorem handle_modo_aguarda_senha_abertura (e : Entradas) (s : Sistema)
    (hm : s.modo_atual = MODO_AGUARDA_SENHA) :
    TransicaoAbertura e s (handle_modo_aguarda_senha e s) := by
  have hne : s.modo_atual ≠ MODO_ABERTO := by rw [hm]; decide
  have hca := aguarda_senha_prologo_abertura e s
  have hmodo := (aguarda_senha_prologo_campos e s).2.2.2.2.2.2.2.2
  unfold handle_modo_aguarda_senha
  generalize aguarda_senha_display e (aguarda_senha_inicializacao s) = p at *
  simp only []
  split_ifs
  · exact transicao_abertura_outros e s _ hca hne (by decide : MODO_MSG_TIMEOUT ≠ MODO_ABERTO)
  · have hp := aguarda_senha_teclado_abertura e
      { p with timer_timeout_senha := (timer_expirou p.timer_timeout_senha e.agora).2 }
      (hmodo.trans hm)
    unfold campos_abertura at hca
    simp only [Prod.mk.injEq] at hca
    rcases hp with ⟨a, b⟩ | hp | ⟨a, _⟩ | ⟨_, b, c⟩
    · refine Or.inl ⟨a.trans hmodo, b.trans ?_⟩
      unfold campos_abertura
      rw [← hca.1, ← hca.2]
    · exact Or.inr (Or.inl hp)
    · exact absurd (a.symm.trans (hmodo.trans hm)) (by decide)
    · exact Or.inr (Or.inr (Or.inr ⟨hne, b, c.trans hca.1⟩))

theorem handle_modo_aberto_timer (e : Entradas) (s : Sistema)
    (h : (timer_expirou s.timer_auto_trava e.agora).1 = false) :
    campos_abertura (handle_modo_aberto e s) = campos_abertura s := by
  have ht := timer_expirou_false _ _ h
  unfold handle_modo_aberto
  simp only [display_deve_atualizar]
  split_ifs <;> simp_all [campos_abertura, emitir]

theorem handle_modo_aberto_abertura (e : Entradas) (s : Sistema)
    (hm : s.modo_atual = MODO_ABERTO) :
    TransicaoAbertura e s (handle_modo_aberto e s) := by
  cases h : (timer_expirou s.timer_auto_trava e.agora).1
  · exact Or.inl ⟨(handle_modo_aberto_nao_expirado e s h).1, handle_modo_aberto_timer e s h⟩
  · obtain ⟨h1, _, _, _, h5, _⟩ := handle_modo_aberto_expirado e s h
    exact Or.inr (Or.inr (Or.inl ⟨hm, h1, h5⟩))

theorem maquina_estados_abertura (e : Entradas) (s : Sistema) :
    TransicaoAbertura e s (maquina_estados e s) := by
  unfold maquina_estados
  split_ifs with h0 h1 h2 h3 h4 h5 h6
  · have hne : s.modo_atual ≠ MODO_ABERTO := by rw [h0]; decide
    rcases handle_modo_espera_resumo e s with ⟨a, _, _⟩ | ⟨a, _, _⟩
    · exact Or.inl ⟨a, handle_modo_espera_abertura e s⟩
    · exact transicao_abertura_outros e s _ (handle_modo_espera_abertura e s) hne
        (by rw [a]; decide)
  · exact handle_modo_aguarda_senha_abertura e s h1
  · exact handle_modo_aberto_abertura e s h2
  · have hne : s.modo_atual ≠ MODO_ABERTO := by rw [h3]; decide
    rcases handle_admin_aguardando_cartao_resumo e s with ⟨a, _, _⟩ | ⟨a, _, _⟩
    · exact Or.inl ⟨a, handle_admin_aguardando_cartao_abertura e s⟩
    · exact transicao_abertura_outros e s _ (handle_admin_aguardando_cartao_abertura e s) hne
        (by rw [a]; decide)
  · have hne : s.modo_atual ≠ MODO_ABERTO := by rw [h4]; decide
    rcases (handle_admin_aguardando_nova_senha_resumo e s).1 with ⟨a, _⟩ | ⟨a, _⟩
    · exact Or.inl ⟨a, handle_admin_aguardando_nova_senha_abertura e s⟩
    · exact transicao_abertura_outros e s _ (handle_admin_aguardando_nova_senha_abertura e s)
        hne (by rcases a with a | a | a <;> rw [a] <;> decide)
  · rcases (handle_modo_mensagem_resumo e s).1 with ⟨a, _⟩ | ⟨a, _⟩
    · exact Or.inl ⟨a, handle_modo_mensagem_abertura e s⟩
    · exact transicao_abertura_outros e s _ (handle_modo_mensagem_abertura e s) h2
        (by rw [a]; decide)
  · exact Or.inl ⟨(handle_modo_emergencia_resumo e s).1, handle_modo_emergencia_abertura e s⟩
  · exact transicao_abertura_outros e s _ rfl h2 (by decide : MODO_ESPERA ≠ MODO_ABERTO)

theorem InvAberto_transicao (e : Entradas) (s t : Sistema) (ht : TransicaoAbertura e s t)
    (h : InvAberto s) : InvAberto t := by
  obtain ⟨h1, h2⟩ := h
  unfold InvAberto
  rcases ht with ⟨a, b⟩ | ⟨a, b, c⟩ | ⟨_, a, b⟩ | ⟨a, b, c⟩
  · unfold campos_abertura at b
    simp only [Prod.mk.injEq] at b
    rw [a, b.1, b.2]
    exact ⟨h1, h2⟩
  · rw [a, b, c]
    exact ⟨⟨fun _ => rfl, fun _ => rfl⟩, fun _ => ⟨rfl, rfl⟩⟩
  · rw [a, b]
    exact ⟨⟨fun h => absurd h (by decide), fun h => absurd h (by decide)⟩,
      fun h => absurd h (by decide)⟩
  · rw [c]
    exact ⟨⟨fun h => absurd (h1.1 h) a, fun h => absurd h b⟩, fun h => absurd h b⟩

theorem loop_principal_abertura (e : Entradas) (s : Sistema) :
    (loop_principal e s).modo_atual = (maquina_estados e (verificar_fifo e s)).modo_atual ∧
    campos_abertura (loop_principal e s)
      = campos_abertura (maquina_estados e (verificar_fifo e s)) := by
  have h := controle_loop_principal e s
  unfold controle at h
  simp only [Prod.mk.injEq] at h
  unfold campos_abertura
  simp only [Prod.mk.injEq]
  tauto

theorem InvAberto_loop_principal (e : Entradas) (s : Sistema)
    (hf : ∀ pacote, e.fifo = some pacote → comando_do_pacote pacote ≠ FIFO_CMD_MUDAR_ESTADO)
    (h : InvAberto s) : InvAberto (loop_principal e s) := by
  obtain ⟨hm, hc⟩ := loop_principal_abertura e s
  rw [verificar_fifo_sem_comando e s hf] at hm hc
  have ht := InvAberto_transicao e s _ (maquina_estados_abertura e s) h
  unfold campos_abertura at hc
  simp only [Prod.mk.injEq] at hc
  unfold InvAberto at ht ⊢
  rw [hm, hc.1, hc.2]
  exact ht

theorem alcancavel_sem_comando_InvAberto (s : Sistema) (h : AlcancavelSemComando s) :
    InvAberto s := by
  induction h with
  | inicio => exact ⟨⟨fun h => absurd h (by decide), fun h => absurd h (by decide)⟩,
      fun h => absurd h (by decide)⟩
  | passo e s _ hf ih => exact InvAberto_loop_principal e s hf ih

theorem alcancavel_sem_comando_executar (es : List Entradas) (hes : ∀ e ∈ es, e.fifo = none) :
    ∀ s : Sistema, AlcancavelSemComando s → AlcancavelSemComando (executar s es) := by
  induction es with
  | nil => intro s h; exact h
  | cons e es ih =>
    intro s h
    apply ih (fun a ha => hes a (List.mem_cons_of_mem e ha))
    apply AlcancavelSemComando.passo e s h
    intro pacote hp
    rw [hes e (List.mem_cons_self e es)] at hp
    cases hp

/-- C38: in every state reached from the initial state by loop iterations none of which
received a mode-change word, the open flag is true exactly when the mode is Open. -/
theorem C38_flag_de_aberto (s : Sistema) (h : AlcancavelSemComando s) :
    s.status_aberto = true ↔ s.modo_atual = MODO_ABERTO :=
  (alcancavel_sem_comando_InvAberto s h).1

/-- C39: in every state reached from the initial state by loop iterations none of which
received a mode-change word, if the mode is Open at the start of a tick then the
auto-lock timer is armed with duration 20000000 us; so on a tick at or after 20 s from
its start (64-bit clock) the expiry check of the Open handler fires and the close
sequence runs: mode Waiting, open flag false, actuator commanded to angle 0. -/
theorem C39_timer_de_auto_trava_armado (s : Sistema) (h : AlcancavelSemComando s)
    (hm : s.modo_atual = MODO_ABERTO) :
    s.timer_auto_trava.ativo = true ∧ s.timer_auto_trava.duracao_us = 20000000 ∧
    (∀ e : Entradas, s.timer_auto_trava.inicio + 20000000 ≤ e.agora → e.agora < 2 ^ 64 →
      (timer_expirou s.timer_auto_trava e.agora).1 = true ∧
      (maquina_estados e s).modo_atual = MODO_ESPERA ∧
      (maquina_estados e s).status_aberto = false ∧
      comandos_servo (novos_efeitos s (maquina_estados e s)) = [0]) := by
  obtain ⟨ha, hd⟩ := (alcancavel_sem_comando_InvAberto s h).2 hm
  refine ⟨ha, hd, ?_⟩
  intro e ht h64
  have hdiff := diff_sem_sinal s.timer_auto_trava.inicio e.agora (by omega) h64
  have hexp : (timer_expirou s.timer_auto_trava e.agora).1 = true := by
    unfold timer_expirou
    rw [hdiff, hd]
    simp only [ha, Bool.not_true, Bool.false_eq_true, if_false]
    rw [if_pos (by omega)]
  rw [maquina_estados_aberto e s hm]
  obtain ⟨h1, _, _, _, h5, _, h7, _⟩ := handle_modo_aberto_expirado e s hexp
  exact ⟨hexp, h1, h5, h7⟩

/-! ## A committed password opens the lock -/

theorem senha_valida_da_cor (s : Sistema) (hc : s.cor_ativa ≠ COR_NENHUMA) :
    senha_valida s = true ↔ cstr s.senha_digitada = cstr (senha_da_cor s s.cor_ativa) := by
  unfold senha_valida strcmp_igual senha_da_cor
  cases h : s.cor_ativa
  · exact absurd h hc
  · simp
  · simp
  · simp

/-- The admin confirmation with four digits stores the typed string as the password of
the active color. -/
theorem confirmacao_grava_senha (e0 : Entradas) (s0 : Sistema)
    (hm0 : s0.modo_atual = MODO_ADMIN_AGUARDANDO_NOVA_SENHA) (hk0 : e0.tecla = '#')
    (hn0 : s0.digitos_count = 4) (hc0 : s0.cor_ativa ≠ COR_NENHUMA) :
    cstr (senha_da_cor (maquina_estados e0 s0) s0.cor_ativa) = cstr s0.senha_digitada := by
  have hd : maquina_estados e0 s0 = handle_admin_aguardando_nova_senha e0 s0 := by
    simp [maquina_estados, hm0]
  obtain ⟨p, hp, hb, hn, hc, h1, h2, h3, _, _⟩ := admin_nova_senha_prologo_completo e0 s0
  rw [hd, hp, admin_nova_senha_teclado_cerquilha e0 p hk0]
  obtain ⟨k4, _, _⟩ := admin_confirmar_efeito s0 (emitir (Efeito.buzzer_play_tone 1500 50) p)
    hb hn hc h1 h2 h3
  obtain ⟨_, _, kv, kr, ka⟩ := k4 hn0
  unfold senha_da_cor
  cases hcor : s0.cor_ativa
  · exact absurd hcor hc0
  · simp only []
    rw [(kv hcor).1, cstr_strcpy]
  · simp only []
    rw [(kr hcor).1, cstr_strcpy]
  · simp only []
    rw [(ka hcor).1, cstr_strcpy]

/-- C37: after an admin commit (AdminAwaitingNewPassword, key `#`, digit count 4) for a
card color `c`, the stored password of `c` is the typed string `p`; in any later state
in AwaitingPassword with active color `c` in which the stored password of `c` is still
the committed one, a tick with key `#` and the password timer not expired runs the open
sequence (mode Open) when the buffer holds `p`, and ends in MsgAccessDenied when the
buffer holds the previous password of `c` and that differs from `p`. -/
theorem C37_nova_senha_abre (e0 : Entradas) (s0 : Sistema) (e : Entradas) (s : Sistema)
    (hm0 : s0.modo_atual = MODO_ADMIN_AGUARDANDO_NOVA_SENHA) (hk0 : e0.tecla = '#')
    (hn0 : s0.digitos_count = 4) (hc0 : s0.cor_ativa ≠ COR_NENHUMA)
    (hm : s.modo_atual = MODO_AGUARDA_SENHA) (hcor : s.cor_ativa = s0.cor_ativa)
    (hpw : senha_da_cor s s0.cor_ativa = senha_da_cor (maquina_estados e0 s0) s0.cor_ativa)
    (hk : e.tecla = '#') (ht : (timer_expirou s.timer_timeout_senha e.agora).1 = false) :
    cstr (senha_da_cor (maquina_estados e0 s0) s0.cor_ativa) = cstr s0.senha_digitada ∧
    (cstr s.senha_digitada = cstr s0.senha_digitada →
      maquina_estados e s =
        acionar_abertura e (emitir (Efeito.buzzer_play_tone 1500 50)
          (aguarda_senha_display e (aguarda_senha_inicializacao s))) ∧
      (maquina_estados e s).modo_atual = MODO_ABERTO) ∧
    (cstr s.senha_digitada = cstr (senha_da_cor s0 s0.cor_ativa) →
      cstr (senha_da_cor s0 s0.cor_ativa) ≠ cstr s0.senha_digitada →
      (maquina_estados e s).modo_atual = MODO_MSG_ACESSO_NEGADO) := by
  have hgrava := confirmacao_grava_senha e0 s0 hm0 hk0 hn0 hc0
  have hc : s.cor_ativa ≠ COR_NENHUMA := by rw [hcor]; exact hc0
  have hval : senha_valida s = true ↔ cstr s.senha_digitada = cstr s0.senha_digitada := by
    rw [senha_valida_da_cor s hc, hcor, hpw, hgrava]
  rw [maquina_estados_aguarda_senha e s hm, handle_modo_aguarda_senha_cerquilha e s ht hk]
  refine ⟨hgrava, ?_, ?_⟩
  · intro hb
    rw [if_pos (hval.2 hb)]
    exact ⟨rfl, (acionar_abertura_resumo e _).1⟩
  · intro hb hdif
    have hnv : ¬ senha_valida s = true := by
      intro hv
      exact hdif (hb.symm.trans (hval.1 hv))
    rw [if_neg hnv]
    exact (aguarda_senha_negado_resumo _).1

/-! ## Instances at concrete inputs -/

/-- Instance of C1: with the wrong buffer "0000" for the green card, key `#` ends in MsgAccessDenied. -/
theorem C1_confirmacao_de_senha_witness :
    (estado_aguarda_senha ['0', '0', '0', '0', NUL] 4).modo_atual = MODO_AGUARDA_SENHA ∧
    (timer_expirou (estado_aguarda_senha ['0', '0', '0', '0', NUL] 4).timer_timeout_senha
      (entradas_tecla 1000 '#').agora).1 = false ∧
    (entradas_tecla 1000 '#').tecla = '#' ∧
    (maquina_estados (entradas_tecla 1000 '#')
      (estado_aguarda_senha ['0', '0', '0', '0', NUL] 4)).modo_atual = MODO_MSG_ACESSO_NEGADO :=
  ⟨rfl, by decide, rfl,
    ((C1_confirmacao_de_senha (entradas_tecla 1000 '#')
      (estado_aguarda_senha ['0', '0', '0', '0', NUL] 4) rfl (by decide) rfl).2 (by decide)).1⟩

/-- Instance of C2: with buffer "1337" for the green card, key `#` ends in Open. -/
theorem C2_abertura_com_senha_verde_witness :
    (estado_aguarda_senha ['1', '3', '3', '7', NUL] 4).modo_atual = MODO_AGUARDA_SENHA ∧
    (estado_aguarda_senha ['1', '3', '3', '7', NUL] 4).cor_ativa = COR_VERDE ∧
    cstr (estado_aguarda_senha ['1', '3', '3', '7', NUL] 4).senha_digitada
      = ['1', '3', '3', '7'] ∧
    cstr (estado_aguarda_senha ['1', '3', '3', '7', NUL] 4).SENHA_VERDE = ['1', '3', '3', '7'] ∧
    (timer_expirou (estado_aguarda_senha ['1', '3', '3', '7', NUL] 4).timer_timeout_senha
      (entradas_tecla 1000 '#').agora).1 = false ∧
    (entradas_tecla 1000 '#').tecla = '#' ∧
    (maquina_estados (entradas_tecla 1000 '#')
      (estado_aguarda_senha ['1', '3', '3', '7', NUL] 4)).modo_atual = MODO_ABERTO :=
  ⟨rfl, rfl, by decide, by decide, by decide, rfl,
    (C2_abertura_com_senha_verde (entradas_tecla 1000 '#')
      (estado_aguarda_senha ['1', '3', '3', '7', NUL] 4) rfl rfl (by decide) (by decide)
      (by decide) rfl).1⟩

/-- Instance of C3: a green card in Waiting leads to AwaitingPassword with active color Green. -/
theorem C3_cartao_detectado_witness :
    inicia_hardware.modo_atual = MODO_ESPERA ∧
    detectar_cor_cartao (entradas_cartao_verde 1000).colors = COR_VERDE ∧
    (maquina_estados (entradas_cartao_verde 1000) inicia_hardware).modo_atual
      = MODO_AGUARDA_SENHA ∧
    (maquina_estados (entradas_cartao_verde 1000) inicia_hardware).cor_ativa
      = detectar_cor_cartao (entradas_cartao_verde 1000).colors :=
  ⟨rfl, by decide,
    (C3_cartao_detectado (entradas_cartao_verde 1000) inicia_hardware rfl (by decide)).1,
    (C3_cartao_detectado (entradas_cartao_verde 1000) inicia_hardware rfl (by decide)).2.2.1⟩

/-- Instance of C4: the reading (clear 70, red 10, green 100, blue 10). -/
theorem C4_classificador_exato_witness :
    (10 : Nat) < 2 ^ 16 ∧ (100 : Nat) < 2 ^ 16 ∧
    detectar_cor_cartao { clear := 70, red := 10, green := 100, blue := 10 }
      = detectar_cor_cartao_ref { clear := 70, red := 10, green := 100, blue := 10 } :=
  ⟨by decide, by decide,
    (C4_classificador_exato { clear := 70, red := 10, green := 100, blue := 10 }
      (by decide) (by decide) (by decide)).1⟩

/-- Instance of C5 (amended): the reading (clear 70, red 10, green 100, blue 10) passes the green test and not the red one. -/
theorem C5_testes_exclusivos_witness :
    (10 : Nat) < 2 ^ 16 ∧ (100 : Nat) < 2 ^ 16 ∧
    ¬ (teste_verde { clear := 70, red := 10, green := 100, blue := 10 } = true ∧
       teste_vermelho { clear := 70, red := 10, green := 100, blue := 10 } = true) :=
  ⟨by decide, by decide,
    (C5_testes_exclusivos { clear := 70, red := 10, green := 100, blue := 10 }
      (by decide) (by decide) (by decide)).1⟩

/-- Instance of C6: key `5` with two digits typed makes the digit count three. -/
theorem C6_buffer_de_senha_witness :
    (entradas_tecla 1000 '5').tecla ≠ NUL ∧ (entradas_tecla 1000 '5').tecla ≠ '#' ∧
    (entradas_tecla 1000 '5').tecla ≠ '*' ∧
    (estado_aguarda_senha ['1', '2', NUL, NUL, NUL] 2).modo_atual = MODO_AGUARDA_SENHA ∧
    (estado_aguarda_senha ['1', '2', NUL, NUL, NUL] 2).digitos_count < 4 ∧
    (maquina_estados (entradas_tecla 1000 '5')
      (estado_aguarda_senha ['1', '2', NUL, NUL, NUL] 2)).digitos_count
      = (estado_aguarda_senha ['1', '2', NUL, NUL, NUL] 2).digitos_count + 1 :=
  ⟨by decide, by decide, by decide, rfl, by decide,
    (((C6_buffer_de_senha (entradas_tecla 1000 '5')
      (estado_aguarda_senha ['1', '2', NUL, NUL, NUL] 2)).2 (by decide) (by decide) (by decide)
      (Or.inl ⟨rfl, by decide⟩)).2 (by decide)).2.1⟩

/-- Instance of C7: the Waiting entry tick with no card keeps the mode and sets the flag. -/
theorem C7_flag_de_inicializacao_witness :
    (maquina_estados entradas_base inicia_hardware).modo_atual = inicia_hardware.modo_atual ∧
    (maquina_estados entradas_base inicia_hardware).modo_foi_inicializado = true :=
  ⟨by decide, (C7_flag_de_inicializacao entradas_base inicia_hardware).2.2.2.2.2.2.2.1 (by decide)⟩

/-- Instance of C8 (amended): after the cancelled transaction, the Waiting tick keeps the active color. -/
theorem C8_transacao_limpa_na_deteccao_witness :
    (executar estado_inicial cenario_cancelamento).modo_atual = MODO_ESPERA ∧
    (entradas_tecla 5000 NUL).fifo = none ∧
    detectar_cor_cartao (entradas_tecla 5000 NUL).colors = COR_NENHUMA ∧
    (loop_principal (entradas_tecla 5000 NUL)
      (executar estado_inicial cenario_cancelamento)).cor_ativa
      = (executar estado_inicial cenario_cancelamento).cor_ativa :=
  ⟨by decide, rfl, by decide,
    ((C8_transacao_limpa_na_deteccao (entradas_tecla 5000 NUL)
      (executar estado_inicial cenario_cancelamento) (by decide) rfl).1 (by decide)).2.2.1⟩

/-- Instance of C9 (amended): eleven empty entries leave nine in the queue. -/
theorem C9_capacidade_efetiva_witness :
    (List.replicate 11 publication_vazia).length = 11 ∧
    fila_tamanho (enfileirar_todas (List.replicate 11 publication_vazia) nucleo1_inicial) = 9 :=
  ⟨by decide, (C9_capacidade_efetiva (List.replicate 11 publication_vazia) (by decide)).1⟩

/-- Instance of C11: the queue filled with nine entries rejects a tenth. -/
theorem C11_fila_cheia_descarta_witness :
    ((enfileirar_todas (List.replicate 9 publication_vazia) nucleo1_inicial).queue_tail + 1)
        % QUEUE_SIZE
      = (enfileirar_todas (List.replicate 9 publication_vazia) nucleo1_inicial).queue_head ∧
    enfileirar { topico := "bitdoglab_02/heartbeat", mensagem := "ok" }
        (enfileirar_todas (List.replicate 9 publication_vazia) nucleo1_inicial)
      = enfileirar_todas (List.replicate 9 publication_vazia) nucleo1_inicial :=
  ⟨by decide,
    (C11_fila_cheia_descarta (entradas_nucleo1 0 none false)
      { topico := "bitdoglab_02/heartbeat", mensagem := "ok" }
      (enfileirar_todas (List.replicate 9 publication_vazia) nucleo1_inicial) (by decide)).1⟩

/-- Instance of C12: with a publish in flight, an iteration on a one-entry queue
publishes nothing. -/
theorem C12_drenagem_limitada_witness :
    (entradas_nucleo1 1000 none true).mqtt_is_publishing = true ∧
    (loop_nucleo1 (entradas_nucleo1 1000 none true)
        (enfileirar publication_vazia nucleo1_inicial)).publicadas
      = (enfileirar publication_vazia nucleo1_inicial).publicadas :=
  ⟨rfl, (C12_drenagem_limitada (entradas_nucleo1 1000 none true)
    (enfileirar publication_vazia nucleo1_inicial)).2.1 rfl⟩

/-- Instance of C13: the heartbeat kind 15 with color 0. -/
theorem C13_ida_e_volta_do_pacote_witness :
    (15 : Nat) < 256 ∧ (0 : Nat) < 256 ∧
    tipo_msg_do_pacote (pacote_publicacao 15 0) = 15 ∧
    cor_id_do_pacote (pacote_publicacao 15 0) = 0 :=
  ⟨by decide, by decide,
    (C13_ida_e_volta_do_pacote 15 0 (by decide) (by decide)).2.1,
    (C13_ida_e_volta_do_pacote 15 0 (by decide) (by decide)).2.2.1⟩

/-- Instance of C15: a timer armed at 0 for 500000 us, polled at 500000. -/
theorem C15_timer_expirou_witness :
    (timer_iniciar 0 500000).ativo = true ∧ (timer_iniciar 0 500000).inicio ≤ 500000 ∧
    (500000 : Nat) < 2 ^ 64 ∧
    ((timer_expirou (timer_iniciar 0 500000) 500000).1 = true ↔
      (timer_iniciar 0 500000).duracao_us ≤ 500000 - (timer_iniciar 0 500000).inicio) :=
  ⟨rfl, by decide, by decide,
    (C15_timer_expirou (timer_iniciar 0 500000) 500000).2.1 rfl (by decide) (by decide)⟩

/-- Instance of C16: after firing at 500000, polls at 600000 and 700000 return false. -/
theorem C16_timer_dispara_uma_vez_witness :
    (timer_expirou (timer_iniciar 0 500000) 500000).1 = true ∧
    (timer_expirou_seq (timer_expirou (timer_iniciar 0 500000) 500000).2 [600000, 700000]).1
      = List.replicate [600000, 700000].length false :=
  ⟨by decide,
    (C16_timer_dispara_uma_vez (timer_iniciar 0 500000) 500000 [600000, 700000] (by decide)).1⟩

/-- Instance of C17: the emergency word received in FireEmergency. -/
theorem C17_desligar_emergencia_witness :
    estado_emergencia.modo_atual = MODO_EMERGENCIA_INCENDIO ∧
    (entradas_fifo 5000 (pacote_mudar_estado 10)).fifo = some (pacote_mudar_estado 10) ∧
    comando_do_pacote (pacote_mudar_estado 10) = FIFO_CMD_MUDAR_ESTADO ∧
    valor_do_pacote (pacote_mudar_estado 10) = MODO_EMERGENCIA_INCENDIO ∧
    (verificar_fifo (entradas_fifo 5000 (pacote_mudar_estado 10)) estado_emergencia).modo_atual
      = MODO_ESPERA :=
  ⟨rfl, rfl, by decide, by decide,
    (C17_desligar_emergencia (entradas_fifo 5000 (pacote_mudar_estado 10)) estado_emergencia
      (pacote_mudar_estado 10) rfl rfl (by decide) (by decide)).1⟩

/-- Instance of the commit with a card color: the buffer "9999" committed for the
green card. -/
theorem admin_confirma_senha_do_cartao_verde :
    (estado_admin_nova_senha ['9', '9', '9', '9', NUL] 4).modo_atual
      = MODO_ADMIN_AGUARDANDO_NOVA_SENHA ∧
    (entradas_tecla 1000 '#').tecla = '#' ∧
    (estado_admin_nova_senha ['9', '9', '9', '9', NUL] 4).digitos_count = 4 ∧
    (maquina_estados (entradas_tecla 1000 '#')
      (estado_admin_nova_senha ['9', '9', '9', '9', NUL] 4)).modo_atual
      = MODO_ADMIN_MSG_SUCESSO :=
  ⟨rfl, rfl, rfl,
    ((admin_confirma_senha_do_cartao (entradas_tecla 1000 '#')
      (estado_admin_nova_senha ['9', '9', '9', '9', NUL] 4) rfl rfl).1 rfl).1⟩

/-- Instance of C21: the opening scenario, then a tick 20 s after the lock opened. -/
theorem C21_trava_automatica_witness :
    (executar estado_inicial cenario_abertura).modo_atual = MODO_ABERTO ∧
    (timer_expirou (executar estado_inicial cenario_abertura).timer_auto_trava
      (entradas_tecla 20006000 NUL).agora).1 = true ∧
    (maquina_estados (entradas_tecla 20006000 NUL)
      (executar estado_inicial cenario_abertura)).modo_atual = MODO_ESPERA :=
  ⟨by decide, by decide,
    ((C21_trava_automatica (entradas_tecla 20006000 NUL)
      (executar estado_inicial cenario_abertura) (by decide)).1 (by decide)).2.2.2.2.2.2.1⟩

/-- Instance of C22: MsgTimeout past its entry, on a tick 4 s after the timer was armed. -/
theorem C22_modos_de_mensagem_witness :
    modo_de_mensagem estado_msg_timeout.modo_atual ∧
    estado_msg_timeout.modo_foi_inicializado = true ∧
    (timer_expirou estado_msg_timeout.timer_geral (entradas_tecla 4000000 NUL).agora).1 = true ∧
    (maquina_estados (entradas_tecla 4000000 NUL) estado_msg_timeout).modo_atual = MODO_ESPERA :=
  ⟨Or.inl rfl, rfl, by decide,
    ((C22_modos_de_mensagem (entradas_tecla 4000000 NUL) estado_msg_timeout (Or.inl rfl)).2.1
      rfl (by decide)).2.2.1⟩

/-- Instance of C28: the correct buffer and the key `#` pending, 15 s after the timer
was armed. -/
theorem C28_timeout_da_senha_witness :
    (estado_aguarda_senha ['1', '3', '3', '7', NUL] 4).modo_atual = MODO_AGUARDA_SENHA ∧
    (timer_expirou (estado_aguarda_senha ['1', '3', '3', '7', NUL] 4).timer_timeout_senha
      (entradas_tecla 15000000 '#').agora).1 = true ∧
    (maquina_estados (entradas_tecla 15000000 '#')
      (estado_aguarda_senha ['1', '3', '3', '7', NUL] 4)).modo_atual = MODO_MSG_TIMEOUT :=
  ⟨rfl, by decide,
    (C28_timeout_da_senha (entradas_tecla 15000000 '#')
      (estado_aguarda_senha ['1', '3', '3', '7', NUL] 4) rfl (by decide)).1⟩

/-- Instance of C24: seven calls 200 ms apart from the initial state. -/
theorem C24_animacoes_de_erro_e_timeout_witness :
    (entradas_tecla 0 NUL).agora + 200000 ≤ (entradas_tecla 200000 NUL).agora ∧
    (entradas_tecla 200000 NUL).agora + 200000 ≤ (entradas_tecla 400000 NUL).agora ∧
    (entradas_tecla 400000 NUL).agora + 200000 ≤ (entradas_tecla 600000 NUL).agora ∧
    (entradas_tecla 600000 NUL).agora + 200000 ≤ (entradas_tecla 800000 NUL).agora ∧
    (entradas_tecla 800000 NUL).agora + 200000 ≤ (entradas_tecla 1000000 NUL).agora ∧
    (entradas_tecla 1000000 NUL).agora + 200000 ≤ (entradas_tecla 1200000 NUL).agora ∧
    estado_inicial.erro_frame_atual = 0 ∧
    (chamadas feedback_visual_erro_update estado_inicial
      [entradas_tecla 0 NUL, entradas_tecla 200000 NUL, entradas_tecla 400000 NUL,
       entradas_tecla 600000 NUL, entradas_tecla 800000 NUL, entradas_tecla 1000000 NUL,
       entradas_tecla 1200000 NUL]).1 = [false, false, false, false, false, false, true] :=
  ⟨by decide, by decide, by decide, by decide, by decide, by decide, rfl,
    ((C24_animacoes_de_erro_e_timeout estado_inicial (entradas_tecla 0 NUL)
      (entradas_tecla 200000 NUL) (entradas_tecla 400000 NUL) (entradas_tecla 600000 NUL)
      (entradas_tecla 800000 NUL) (entradas_tecla 1000000 NUL) (entradas_tecla 1200000 NUL)
      (by decide) (by decide) (by decide) (by decide) (by decide) (by decide)).1 rfl).1⟩

/-- Instance of C29: calls at 0, 100, 400, 500 and 550 ms from the initial state. -/
theorem C29_animacao_fechando_witness :
    estado_inicial.fechando_frame_atual = 0 ∧
    (∀ a ∈ [entradas_tecla 100000 NUL], (entradas_tecla 0 NUL).agora ≤ a.agora ∧
      a.agora < (entradas_tecla 0 NUL).agora + 400000) ∧
    (entradas_tecla 0 NUL).agora + 400000 ≤ (entradas_tecla 400000 NUL).agora ∧
    (entradas_tecla 400000 NUL).agora < 2 ^ 64 ∧
    (∀ b ∈ [entradas_tecla 500000 NUL], (entradas_tecla 400000 NUL).agora ≤ b.agora ∧
      b.agora < (entradas_tecla 400000 NUL).agora + 150000) ∧
    (entradas_tecla 400000 NUL).agora + 150000 ≤ (entradas_tecla 550000 NUL).agora ∧
    (entradas_tecla 550000 NUL).agora < 2 ^ 64 ∧
    (chamadas feedback_visual_fechando_update estado_inicial
      (entradas_tecla 0 NUL :: [entradas_tecla 100000 NUL] ++
        entradas_tecla 400000 NUL :: [entradas_tecla 500000 NUL] ++
        [entradas_tecla 550000 NUL])).1 = [false, false, false, false, true] :=
  ⟨rfl, by decide, by decide, by decide, by decide, by decide, by decide,
    (C29_animacao_fechando estado_inicial (entradas_tecla 0 NUL) (entradas_tecla 400000 NUL)
      (entradas_tecla 550000 NUL) [entradas_tecla 100000 NUL] [entradas_tecla 500000 NUL]
      rfl (by decide) (by decide) (by decide) (by decide) (by decide) (by decide)).2.2.2.2.2.2.2.2.1⟩

/-- Instance of C30: four calls 120 ms apart from the initial state. -/
theorem C30_animacao_sucesso_witness :
    estado_inicial.sucesso_frame_atual = 0 ∧
    (entradas_tecla 0 NUL).agora + 120000 ≤ (entradas_tecla 120000 NUL).agora ∧
    (entradas_tecla 120000 NUL).agora + 120000 ≤ (entradas_tecla 240000 NUL).agora ∧
    (entradas_tecla 240000 NUL).agora + 120000 ≤ (entradas_tecla 360000 NUL).agora ∧
    (entradas_tecla 360000 NUL).agora < 2 ^ 64 ∧
    (chamadas matriz_animacao_sucesso_update estado_inicial
      [entradas_tecla 0 NUL, entradas_tecla 120000 NUL, entradas_tecla 240000 NUL,
       entradas_tecla 360000 NUL]).1 = [false, false, false, true] :=
  ⟨rfl, by decide, by decide, by decide, by decide,
    (C30_animacao_sucesso estado_inicial (entradas_tecla 0 NUL) (entradas_tecla 120000 NUL)
      (entradas_tecla 240000 NUL) (entradas_tecla 360000 NUL) rfl (by decide) (by decide)
      (by decide) (by decide)).1⟩

/-- Instance of C26: the heartbeat word. -/
theorem C26_topico_por_categoria_witness :
    tipo_msg_do_pacote (pedido MSG_LOG_HEARTBEAT COR_NENHUMA) = MSG_LOG_HEARTBEAT.toNat ∧
    (entrada_da_fila (entradas_nucleo1 0 none false)
      (pedido MSG_LOG_HEARTBEAT COR_NENHUMA)).topico = "bitdoglab_02/heartbeat" :=
  ⟨by decide,
    (C26_topico_por_categoria (entradas_nucleo1 0 none false)
      (pedido MSG_LOG_HEARTBEAT COR_NENHUMA) MSG_LOG_HEARTBEAT (by decide)).2.2.2.1 rfl⟩

/-- Instance of C27: the access-ok word for the green card. -/
theorem C27_mensagem_por_tipo_witness :
    tipo_msg_do_pacote (pedido MSG_LOG_ACESSO_OK COR_VERDE) = MSG_LOG_ACESSO_OK.toNat ∧
    (entrada_da_fila (entradas_nucleo1 0 none false)
      (pedido MSG_LOG_ACESSO_OK COR_VERDE)).mensagem =
      "ACESSO LIBERADO: Cartao " ++ cor_str (cor_id_do_pacote (pedido MSG_LOG_ACESSO_OK COR_VERDE))
        ++ "." :=
  ⟨by decide,
    (C27_mensagem_por_tipo (entradas_nucleo1 0 none false)
      (pedido MSG_LOG_ACESSO_OK COR_VERDE) MSG_LOG_ACESSO_OK (by decide)).2.2.2.1 rfl⟩

/-- Instance of C25 (amended): the state after a green card and the key `1`. -/
theorem C25_flags_em_estados_alcancaveis_witness :
    Alcancavel (executar estado_inicial [entradas_cartao_verde 1000, entradas_tecla 2000 '1']) ∧
    (executar estado_inicial
      [entradas_cartao_verde 1000, entradas_tecla 2000 '1']).animacao_digitacao_ativa = true ∧
    ((executar estado_inicial
        [entradas_cartao_verde 1000, entradas_tecla 2000 '1']).modo_atual = MODO_AGUARDA_SENHA ∨
      (executar estado_inicial
        [entradas_cartao_verde 1000, entradas_tecla 2000 '1']).modo_atual
        = MODO_ADMIN_AGUARDANDO_NOVA_SENHA) :=
  ⟨alcancavel_executar _ estado_inicial Alcancavel.inicio, by decide,
    (C25_flags_em_estados_alcancaveis
      (executar estado_inicial [entradas_cartao_verde 1000, entradas_tecla 2000 '1'])
      (alcancavel_executar _ estado_inicial Alcancavel.inicio)).1 (by decide)⟩

/-- Instance of C34: the Wi-Fi-connected word received in AwaitingPassword. -/
theorem C34_palavra_sem_mudanca_de_estado_witness :
    (entradas_fifo 1000 (FIFO_CMD_WIFI_CONECTADO * 2 ^ 16)).fifo
      = some (FIFO_CMD_WIFI_CONECTADO * 2 ^ 16) ∧
    comando_do_pacote (FIFO_CMD_WIFI_CONECTADO * 2 ^ 16) ≠ FIFO_CMD_MUDAR_ESTADO ∧
    verificar_fifo (entradas_fifo 1000 (FIFO_CMD_WIFI_CONECTADO * 2 ^ 16))
      (estado_aguarda_senha ['1', '3', NUL, NUL, NUL] 2)
      = estado_aguarda_senha ['1', '3', NUL, NUL, NUL] 2 :=
  ⟨rfl, by decide,
    (C34_palavra_sem_mudanca_de_estado (entradas_fifo 1000 (FIFO_CMD_WIFI_CONECTADO * 2 ^ 16))
      (estado_aguarda_senha ['1', '3', NUL, NUL, NUL] 2) (FIFO_CMD_WIFI_CONECTADO * 2 ^ 16)
      rfl (by decide)).1⟩

/-- Instance of C31: seven seconds remaining. -/
theorem C31_faixas_da_contagem_witness :
    (0 : Int) ≤ 7 ∧ (7 : Int) ≤ 20 ∧ cor_circulo_tempo 7 = urgb_u32 255 150 0 :=
  ⟨by decide, by decide, (C31_faixas_da_contagem 7 (by decide) (by decide)).1⟩

/-- Instance of C32: the first countdown call after boot, at 20 s remaining. -/
theorem C32_redesenho_do_anel_witness :
    cor_circulo_tempo 20 ≠ estado_inicial.circ_tempo_cor_ativa ∧
    mostra (matriz_animacao_circulo_tempo_update 20 estado_inicial).2.matriz_buffer forma_anel
      (cor_circulo_tempo 20) :=
  ⟨by decide, ((C32_redesenho_do_anel 20 estado_inicial).2.2.2.1 (by decide)).1⟩

/-- Instance of C33: the lit base cell of column 2 heats the cell above it. -/
theorem C33_frame_do_fogo_witness :
    estado_fogo.fogo_ativo = true ∧ estado_fogo.matriz_buffer.length = 25 ∧
    estado_fogo.fogo_ultimo_frame_tempo + 100000 ≤ (entradas_tecla 100000 NUL).agora ∧
    2 < 5 ∧ 3 < 4 ∧
    canais (celula (matriz_atualizar_animacao_fogo (entradas_tecla 100000 NUL)
      estado_fogo).matriz_buffer 2 3) =
      (if (canais (celula estado_fogo.matriz_buffer 2 (3 + 1))).1 > 10
          then (canais (celula estado_fogo.matriz_buffer 2 (3 + 1))).1 - 10 else 0,
       if (canais (celula estado_fogo.matriz_buffer 2 (3 + 1))).2.1 > 5
          then (canais (celula estado_fogo.matriz_buffer 2 (3 + 1))).2.1 - 5 else 0,
       0) :=
  ⟨rfl, by decide, by decide, by decide, by decide,
    (C33_frame_do_fogo (entradas_tecla 100000 NUL) estado_fogo 2 3 rfl (by decide) (by decide)
      (by decide) (by decide)).2.1⟩

/-- Instance of C35: the state after a green card and the keys `1`, `2`. -/
theorem C35_invariante_das_senhas_witness :
    Alcancavel (executar estado_inicial
      [entradas_cartao_verde 1000, entradas_tecla 2000 '1', entradas_tecla 3000 '2']) ∧
    (executar estado_inicial
      [entradas_cartao_verde 1000, entradas_tecla 2000 '1', entradas_tecla 3000 '2']).digitos_count
      = (cstr (executar estado_inicial
          [entradas_cartao_verde 1000, entradas_tecla 2000 '1',
           entradas_tecla 3000 '2']).senha_digitada).length :=
  ⟨alcancavel_executar _ estado_inicial Alcancavel.inicio,
    (C35_invariante_das_senhas _ (alcancavel_executar _ estado_inicial Alcancavel.inicio)).1⟩

/-- Instance of C36: a tick in AwaitingPassword with key `#` changes no stored password. -/
theorem C36_senhas_so_mudam_na_confirmacao_witness :
    (verificar_fifo (entradas_tecla 1000 '#')
      (estado_aguarda_senha ['1', '3', '3', '7', NUL] 4)).modo_atual
      ≠ MODO_ADMIN_AGUARDANDO_NOVA_SENHA ∧
    senhas (loop_principal (entradas_tecla 1000 '#')
      (estado_aguarda_senha ['1', '3', '3', '7', NUL] 4))
      = senhas (estado_aguarda_senha ['1', '3', '3', '7', NUL] 4) :=
  ⟨by decide,
    (C36_senhas_so_mudam_na_confirmacao (entradas_tecla 1000 '#')
      (estado_aguarda_senha ['1', '3', '3', '7', NUL] 4)).2.2.1 (by decide)⟩

/-- Instance of C38: the state after the opening scenario. -/
theorem C38_flag_de_aberto_witness :
    AlcancavelSemComando (executar estado_inicial cenario_abertura) ∧
    ((executar estado_inicial cenario_abertura).status_aberto = true ↔
      (executar estado_inicial cenario_abertura).modo_atual = MODO_ABERTO) :=
  ⟨alcancavel_sem_comando_executar cenario_abertura (by decide) estado_inicial
      AlcancavelSemComando.inicio,
    C38_flag_de_aberto _ (alcancavel_sem_comando_executar cenario_abertura (by decide)
      estado_inicial AlcancavelSemComando.inicio)⟩

/-- Instance of C39: the state after the opening scenario followed by three quiet ticks. -/
theorem C39_timer_de_auto_trava_armado_witness :
    AlcancavelSemComando (executar estado_inicial cenario_aberto_estavel) ∧
    (executar estado_inicial cenario_aberto_estavel).modo_atual = MODO_ABERTO ∧
    (executar estado_inicial cenario_aberto_estavel).timer_auto_trava.duracao_us = 20000000 :=
  ⟨alcancavel_sem_comando_executar cenario_aberto_estavel (by decide) estado_inicial
      AlcancavelSemComando.inicio, by decide,
    (C39_timer_de_auto_trava_armado _ (alcancavel_sem_comando_executar cenario_aberto_estavel
      (by decide) estado_inicial AlcancavelSemComando.inicio) (by decide)).2.1⟩

/-- Instance of C37: the green password changed to `9999` by a run from the initial
state, then typed in AwaitingPassword. -/
theorem C37_nova_senha_abre_witness :
    (executar estado_inicial cenario_admin_digitado).modo_atual
      = MODO_ADMIN_AGUARDANDO_NOVA_SENHA ∧
    (entradas_tecla 7000 '#').tecla = '#' ∧
    (executar estado_inicial cenario_admin_digitado).digitos_count = 4 ∧
    (executar estado_inicial cenario_admin_digitado).cor_ativa ≠ COR_NENHUMA ∧
    (executar estado_inicial cenario_nova_senha_digitada).modo_atual = MODO_AGUARDA_SENHA ∧
    (executar estado_inicial cenario_nova_senha_digitada).cor_ativa
      = (executar estado_inicial cenario_admin_digitado).cor_ativa ∧
    senha_da_cor (executar estado_inicial cenario_nova_senha_digitada)
        (executar estado_inicial cenario_admin_digitado).cor_ativa
      = senha_da_cor (maquina_estados (entradas_tecla 7000 '#')
          (executar estado_inicial cenario_admin_digitado))
          (executar estado_inicial cenario_admin_digitado).cor_ativa ∧
    (entradas_tecla 4014000 '#').tecla = '#' ∧
    (timer_expirou (executar estado_inicial cenario_nova_senha_digitada).timer_timeout_senha
      (entradas_tecla 4014000 '#').agora).1 = false ∧
    cstr (executar estado_inicial cenario_nova_senha_digitada).senha_digitada
      = cstr (executar estado_inicial cenario_admin_digitado).senha_digitada ∧
    (maquina_estados (entradas_tecla 4014000 '#')
      (executar estado_inicial cenario_nova_senha_digitada)).modo_atual = MODO_ABERTO :=
  ⟨by decide, rfl, by decide, by decide, by decide, by decide, by decide, rfl, by decide,
    by decide,
    ((C37_nova_senha_abre (entradas_tecla 7000 '#')
      (executar estado_inicial cenario_admin_digitado) (entradas_tecla 4014000 '#')
      (executar estado_inicial cenario_nova_senha_digitada)
      (by decide) rfl (by decide) (by decide) (by decide) (by decide) (by decide) rfl
      (by decide)).2.1 (by decide)).2⟩

end BitDogLock
